import Mathlib

/-!
Verification development for the Contrapunctus species-counterpoint engine.

The definitions below are a shallow embedding of the JavaScript sources:
`Pitch.js`, `Interval.js`, `Scale.js`, `FirstSpeciesValidator.js`,
`SecondSpeciesValidator.js` and `ThirdSpeciesValidator.js`.

Modelling conventions, kept uniform through the file:
* A pitch accepted by the `Pitch.parse` grammar (`^([A-Ga-g])([#b]?)(\d)$`)
  is represented by the structure `Note` (letter class, accidental,
  single-digit octave).  Validator inputs range over such well-formed notes;
  a rest (`null` in JS) is `Option.none`.
* Validation messages (Spanish strings) carry no information used by any
  property, so `Issue` keeps only the rule identifier, the position and the
  severity.  Likewise the `reason` strings of the formula detectors are
  dropped: detectors return their `valid` boolean.
* JS array reads that are always in bounds on the executed paths are
  rendered with `List.getD` and a dummy default note.  The two reachable
  out-of-bounds reads (first species `validate` on two empty arrays, second
  species `validate` on a one-note counterpoint whose single slot is a rest)
  make the JS code throw inside `Pitch.parse`; the corresponding `validate`
  embeddings return `Option.none` in exactly those states.
* JS `results.xxx.push(e)` is `xxx ++ [e]`, so issue order is preserved.
-/

inductive Accidental
  | natural
  | sharp
  | flat
deriving DecidableEq, Repr

/-- A pitch in the domain of `Pitch.parse`: letter class `C..B` (index into
`DIATONIC_NAMES`), optional accidental, single-digit octave. -/
structure Note where
  letter : Fin 7
  acc : Accidental
  octave : Fin 10
deriving DecidableEq, Repr

/-- Dummy note used as `List.getD` default for reads that are in bounds on
every executed path (see the header comment). -/
def dfltNote : Note := ⟨0, Accidental.natural, 4⟩

namespace Pitch

/-- Chromatic offset of each letter class, per `NOTE_NAMES` of Pitch.js
(C=0, D=2, E=4, F=5, G=7, A=9, B=11). -/
def baseOffset : Fin 7 → Nat
  | 0 => 0
  | 1 => 2
  | 2 => 4
  | 3 => 5
  | 4 => 7
  | 5 => 9
  | 6 => 11

def accAdj : Accidental → Int
  | Accidental.natural => 0
  | Accidental.sharp => 1
  | Accidental.flat => -1

/-- Semitone class 0..11 computed by `Pitch.parse`: the enharmonic table of
Pitch.js maps every `letter+accidental` pair to `(base ± 1) mod 12`. -/
def semitoneClass (n : Note) : Nat :=
  ((((baseOffset n.letter : Int) + accAdj n.acc) % 12 + 12) % 12).toNat

/-- MIDI number of a parsed note: `(octave + 1) * 12 + semitone`. -/
def toMidi (n : Note) : Nat :=
  ((n.octave : Nat) + 1) * 12 + semitoneClass n

/-- Pitch.js `diatonicIndex`: letter-class index C=0..B=6. -/
def diatonicIndex (n : Note) : Nat := n.letter

/-- The quantity `diatonicIndex(p.name) + p.octave * 7` used by
`Pitch.genericInterval`. -/
def diatonicStep (n : Note) : Nat :=
  (n.letter : Nat) + (n.octave : Nat) * 7

/-- Pitch.js `genericInterval`: letter-counting distance, `|d2 - d1| + 1`. -/
def genericInterval (n1 n2 : Note) : Nat :=
  ((diatonicStep n2 : Int) - (diatonicStep n1 : Int)).natAbs + 1

/-- The `NOTE_NAMES` table of Pitch.js. -/
def NOTE_NAMES : List String :=
  ["C", "C#", "D", "D#", "E", "F"] ++ ["F#", "G", "G#", "A", "A#", "B"]

/-- Pitch.js `fromMidi`: note-name string with sharps, octave may be
negative (string concatenation, exactly as in JS). -/
def fromMidi (midi : Nat) : String :=
  NOTE_NAMES.getD (midi % 12) "C" ++ toString ((midi : Int) / 12 - 1)

def letterIndex : Char → Option (Fin 7)
  | 'C' => some 0
  | 'c' => some 0
  | 'D' => some 1
  | 'd' => some 1
  | 'E' => some 2
  | 'e' => some 2
  | 'F' => some 3
  | 'f' => some 3
  | 'G' => some 4
  | 'g' => some 4
  | 'A' => some 5
  | 'a' => some 5
  | 'B' => some 6
  | 'b' => some 6
  | _ => none

def accOf : Char → Option Accidental
  | '#' => some Accidental.sharp
  | 'b' => some Accidental.flat
  | _ => none

def digitVal (c : Char) : Option (Fin 10) :=
  if h : 48 ≤ c.toNat ∧ c.toNat - 48 < 10 then some ⟨c.toNat - 48, h.2⟩ else none

/-- Pitch.js `parse` on a string: the regex `^([A-Ga-g])([#b]?)(\d)$`
followed by the enharmonic/MIDI normalisation captured by `Note`.
`none` models the thrown `Invalid note format` error. -/
def parseNote (s : String) : Option Note :=
  match s.data with
  | [l, o] => do
      let li ← letterIndex l
      let d ← digitVal o
      pure ⟨li, Accidental.natural, d⟩
  | [l, a, o] => do
      let li ← letterIndex l
      let ac ← accOf a
      let d ← digitVal o
      pure ⟨li, ac, d⟩
  | _ => none

/-- Pitch.js `toMidi` on a raw string: parse then convert; `none` models the
parse exception. -/
def toMidiStr (s : String) : Option Nat :=
  (parseNote s).map toMidi

end Pitch

inductive Quality
  | P
  | M
  | m
  | A
  | d
deriving DecidableEq, Repr

namespace Interval

/-- The `expected` semitone table of `Interval.calculateQuality`; `none`
models a JS `undefined` lookup. -/
def expectedSemitones : Nat → Option Int
  | 1 => some 0
  | 2 => some 2
  | 3 => some 4
  | 4 => some 5
  | 5 => some 7
  | 6 => some 9
  | 7 => some 11
  | 8 => some 12
  | _ => none

/-- Interval.js `calculateQuality`.  On an `undefined` table entry the JS
comparisons with `NaN` are all false and control falls through to the final
`return` of each branch (`'d'` for perfect-type, `'A'` otherwise). -/
def calculateQuality (generic semitones : Nat) : Quality :=
  let isPerfectType := generic = 1 ∨ generic = 4 ∨ generic = 5 ∨ generic = 8
  match expectedSemitones generic with
  | none => if isPerfectType then Quality.d else Quality.A
  | some e =>
      let diff : Int := (semitones : Int) - e
      if isPerfectType then
        if diff = 0 then Quality.P
        else if diff = 1 then Quality.A
        else if diff = -1 then Quality.d
        else if diff > 1 then Quality.A
        else Quality.d
      else
        if diff = 0 then Quality.M
        else if diff = -1 then Quality.m
        else if diff = 1 then Quality.A
        else if diff < -1 then Quality.d
        else Quality.A

/-- The interval record produced by `Interval.between`: signed semitones,
generic number, and the `simple` (mod-octave) reduction with its quality. -/
structure Itv where
  semitones : Int
  generic : Nat
  simpleGeneric : Nat
  simpleSemitones : Nat
  quality : Quality
deriving DecidableEq, Repr

/-- Interval.js `between`. -/
def between (note1 note2 : Note) : Itv :=
  let m1 : Int := Pitch.toMidi note1
  let m2 : Int := Pitch.toMidi note2
  let s : Int := m2 - m1
  let semAbs : Nat := s.natAbs
  let generic : Nat := Pitch.genericInterval note1 note2
  let simpleGeneric : Nat := (generic - 1) % 7 + 1
  let simpleSemitones : Nat := semAbs % 12
  { semitones := s
    generic := generic
    simpleGeneric := simpleGeneric
    simpleSemitones := simpleSemitones
    quality := calculateQuality simpleGeneric simpleSemitones }

/-- The `simple.name` string of an interval record, as (quality, number). -/
def simpleName (i : Itv) : Quality × Nat :=
  (i.quality, i.simpleGeneric)

/-- Interval.js `isConsonant` (object form): simple name in
`['P1','P5','P8','m3','M3','m6','M6']`. -/
def isConsonant (i : Itv) : Bool :=
  decide (simpleName i ∈
    [(Quality.P, 1), (Quality.P, 5), (Quality.P, 8),
     (Quality.m, 3), (Quality.M, 3), (Quality.m, 6), (Quality.M, 6)])

/-- Interval.js `isPerfectConsonance` (object form). -/
def isPerfectConsonance (i : Itv) : Bool :=
  decide (simpleName i ∈ [(Quality.P, 1), (Quality.P, 5), (Quality.P, 8)])

/-- Interval.js `isDissonant`. -/
def isDissonant (i : Itv) : Bool := !isConsonant i

/-- Interval.js `isTritone` (object form): `simple.semitones === 6`. -/
def isTritone (i : Itv) : Bool := i.simpleSemitones == 6

end Interval

/-- Scale modes named in `Scale.PATTERNS`; `unknown` stands for any other
string, for which `getPattern` falls back to the major pattern. -/
inductive Mode
  | major
  | naturalMinor
  | harmonicMinor
  | melodicMinor
  | dorian
  | phrygian
  | lydian
  | mixolydian
  | aeolian
  | locrian
  | unknown
deriving DecidableEq, Repr

/-- A key tonic as used by the validators: letter class plus accidental
(no octave; `Scale.getDegree` appends octave 0). -/
structure NoteClass where
  letter : Fin 7
  acc : Accidental
deriving DecidableEq, Repr

namespace Scale

/-- Scale.js `getPattern`, including the `|| PATTERNS.major` fallback. -/
def getPattern : Mode → List Nat
  | Mode.major => [0, 2, 4, 5, 7, 9, 11]
  | Mode.naturalMinor => [0, 2, 3, 5, 7, 8, 10]
  | Mode.harmonicMinor => [0, 2, 3, 5, 7, 8, 11]
  | Mode.melodicMinor => [0, 2, 3, 5, 7, 9, 11]
  | Mode.dorian => [0, 2, 3, 5, 7, 9, 10]
  | Mode.phrygian => [0, 1, 3, 5, 7, 8, 10]
  | Mode.lydian => [0, 2, 4, 6, 7, 9, 11]
  | Mode.mixolydian => [0, 2, 4, 5, 7, 9, 10]
  | Mode.aeolian => [0, 2, 3, 5, 7, 8, 10]
  | Mode.locrian => [0, 1, 3, 5, 6, 8, 10]
  | Mode.unknown => [0, 2, 4, 5, 7, 9, 11]

/-- Scale.js `getDegree`: position of the note relative to the tonic at
octave 0, reduced mod 12 and looked up in the pattern; `none` models the JS
`null` for out-of-scale notes. -/
def getDegree (note : Note) (tonic : NoteClass) (mode : Mode) : Option Nat :=
  let noteMidi : Int := Pitch.toMidi note
  let tonicMidi : Int := Pitch.toMidi ⟨tonic.letter, tonic.acc, 0⟩
  let rel : Nat := (((noteMidi - tonicMidi) % 12 + 12) % 12).toNat
  match (getPattern mode).findIdx? (fun x => x = rel) with
  | some i => some (i + 1)
  | none => none

end Scale

/-- Motion classification shared by all three validators
(`getMotionType`). -/
inductive Motion
  | stationary
  | oblique
  | similar
  | contrary
deriving DecidableEq, Repr

/-- `getMotionType` of the validators. -/
def getMotionType (cf1 cf2 cp1 cp2 : Note) : Motion :=
  let cfDirection : Int := Int.sign ((Pitch.toMidi cf2 : Int) - Pitch.toMidi cf1)
  let cpDirection : Int := Int.sign ((Pitch.toMidi cp2 : Int) - Pitch.toMidi cp1)
  if cfDirection = 0 ∧ cpDirection = 0 then Motion.stationary
  else if cfDirection = 0 ∨ cpDirection = 0 then Motion.oblique
  else if cfDirection = cpDirection then Motion.similar
  else Motion.contrary

/-- Voice placement of the counterpoint (`cpPosition`). -/
inductive CpPos
  | upper
  | lower
deriving DecidableEq, Repr

/-- The CF/CP interval oriented by voice position: the upper voice is the
second argument of `Interval.between`, exactly as the inline ternary
`between(upper ? cf : cp, upper ? cp : cf)` used throughout the sources. -/
def pairInterval (pos : CpPos) (cfN cpN : Note) : Interval.Itv :=
  match pos with
  | CpPos.upper => Interval.between cfN cpN
  | CpPos.lower => Interval.between cpN cfN

inductive Severity
  | error
  | warning
  | suggestion
deriving DecidableEq, Repr

/-- A ValidationIssue, without its message text (see header comment).
`position = none` models a JS issue built without a `position` field (the
`LENGTH` error); the range warning carries `some (-1)`. -/
structure Issue where
  rule : String
  position : Option Int
  severity : Severity
deriving DecidableEq, Repr

/-- One entry of `results.noteResults`. -/
structure NoteResult where
  valid : Bool
  issues : List Issue
deriving DecidableEq, Repr

/-- The `results` record threaded through every check. -/
structure Results where
  valid : Bool
  score : Int
  errors : List Issue
  warnings : List Issue
  suggestions : List Issue
  noteResults : List NoteResult
deriving DecidableEq, Repr

/-- Replace the element at index `p` (no-op when out of range), used for the
in-place `results.noteResults[p]` updates. -/
def modifyAt (p : Nat) (f : α → α) : List α → List α
  | [] => []
  | x :: xs =>
    match p with
    | 0 => f x :: xs
    | q + 1 => x :: modifyAt q f xs

/-- Fresh per-note results: `{ valid: true, issues: [] }` at every index. -/
def initResults (n : Nat) : Results :=
  { valid := true
    score := 100
    errors := []
    warnings := []
    suggestions := []
    noteResults := List.replicate n { valid := true, issues := [] } }

def pushError (iss : Issue) (r : Results) : Results :=
  { r with errors := r.errors ++ [iss] }

def pushWarning (iss : Issue) (r : Results) : Results :=
  { r with warnings := r.warnings ++ [iss] }

def pushSuggestion (iss : Issue) (r : Results) : Results :=
  { r with suggestions := r.suggestions ++ [iss] }

/-- `results.noteResults[pos].issues.push(issue)`. -/
def markIssue (pos : Nat) (iss : Issue) (r : Results) : Results :=
  { r with noteResults :=
      modifyAt pos (fun nr => { nr with issues := nr.issues ++ [iss] }) r.noteResults }

/-- `results.noteResults[pos].valid = false`. -/
def markInvalid (pos : Nat) (r : Results) : Results :=
  { r with noteResults :=
      modifyAt pos (fun nr => { nr with valid := false }) r.noteResults }

/-- Error push pattern shared by all per-position error sites:
`errors.push`, `noteResults[pos].valid = false`,
`noteResults[pos].issues.push`. -/
def addErrorAt (rule : String) (pos : Nat) (r : Results) : Results :=
  let iss : Issue := ⟨rule, some (pos : Int), Severity.error⟩
  markIssue pos iss (markInvalid pos (pushError iss r))

/-- Warning push pattern of the per-position warning sites (no `valid`
change). -/
def addWarningAt (rule : String) (pos : Nat) (r : Results) : Results :=
  let iss : Issue := ⟨rule, some (pos : Int), Severity.warning⟩
  markIssue pos iss (pushWarning iss r)

/-- Suggestion push pattern of the per-position suggestion sites. -/
def addSuggestionAt (rule : String) (pos : Nat) (r : Results) : Results :=
  let iss : Issue := ⟨rule, some (pos : Int), Severity.suggestion⟩
  markIssue pos iss (pushSuggestion iss r)

namespace Interval

/-- Test of a `simple.name` against a literal like `'P1'`. -/
def nameIs (i : Itv) (q : Quality) (g : Nat) : Bool :=
  decide (simpleName i = (q, g))

end Interval

/-- The 42 triad degree patterns listed in `checkArpeggios`. -/
def triadPatterns : List (Nat × Nat × Nat) :=
  [(1, 3, 5), (1, 5, 3), (3, 1, 5), (3, 5, 1), (5, 1, 3), (5, 3, 1),
   (2, 4, 6), (2, 6, 4), (4, 2, 6), (4, 6, 2), (6, 2, 4), (6, 4, 2),
   (3, 5, 7), (3, 7, 5), (5, 3, 7), (5, 7, 3), (7, 3, 5), (7, 5, 3),
   (4, 6, 1), (4, 1, 6), (6, 4, 1), (6, 1, 4), (1, 4, 6), (1, 6, 4),
   (5, 7, 2), (5, 2, 7), (7, 5, 2), (7, 2, 5), (2, 5, 7), (2, 7, 5),
   (6, 1, 3), (6, 3, 1), (1, 6, 3), (1, 3, 6), (3, 6, 1), (3, 1, 6),
   (7, 2, 4), (7, 4, 2), (2, 7, 4), (2, 4, 7), (4, 7, 2), (4, 2, 7)]

/-- Exercise record handed to `FirstSpeciesValidator.validate` (no rests in
first species). -/
structure Exercise1 where
  cantusFirmus : List Note
  counterpoint : List Note
  key : NoteClass
  mode : Mode
  cpPosition : CpPos
deriving DecidableEq, Repr

/-- The early-return result of a failed length check: a single fatal
`LENGTH` error; `noteResults` never initialised, score untouched. -/
def lengthErrorResults : Results :=
  { valid := false
    score := 100
    errors := [⟨"LENGTH", none, Severity.error⟩]
    warnings := []
    suggestions := []
    noteResults := [] }

namespace FirstSpecies

/-- Rule 1 of FirstSpeciesValidator. -/
def checkConsonance (itv : Interval.Itv) (pos : Nat) (r : Results) : Results :=
  if Interval.isDissonant itv then addErrorAt "consonance" pos r else r

/-- Rule 7: unison (simple name `P1`) only at the first or last position. -/
def checkUnison (itv : Interval.Itv) (pos len : Nat) (r : Results) : Results :=
  if Interval.nameIs itv Quality.P 1 ∧ pos ≠ 0 ∧ pos ≠ len - 1 then
    addErrorAt "unison" pos r
  else r

/-- Rule 6: no voice crossing. -/
def checkVoiceCrossing (cfN cpN : Note) (cpPos : CpPos) (pos : Nat) (r : Results) : Results :=
  let cfMidi := Pitch.toMidi cfN
  let cpMidi := Pitch.toMidi cpN
  if (cpPos = CpPos.upper ∧ cpMidi < cfMidi) ∨ (cpPos = CpPos.lower ∧ cpMidi > cfMidi) then
    addErrorAt "voice-crossing" pos r
  else r

/-- Rules 2 and 3: parallel (error) and hidden (warning) fifths/octaves. -/
def checkParallels (prevItv currItv : Interval.Itv) (prevCf currCf prevCp currCp : Note)
    (pos : Nat) (r : Results) : Results :=
  let motion := getMotionType prevCf currCf prevCp currCp
  let prevPerfect : Bool :=
    Interval.isPerfectConsonance prevItv && !(Interval.nameIs prevItv Quality.P 1)
  let currPerfect : Bool :=
    Interval.isPerfectConsonance currItv && !(Interval.nameIs currItv Quality.P 1)
  let r :=
    if prevPerfect ∧ currPerfect ∧
        Interval.simpleName prevItv = Interval.simpleName currItv ∧ motion = Motion.similar then
      addErrorAt
        (if Interval.nameIs prevItv Quality.P 5 then "parallel-fifths" else "parallel-octaves")
        pos r
    else r
  if ¬(prevPerfect = true) ∧ currPerfect ∧ motion = Motion.similar then
    let cpItv := Interval.between prevCp currCp
    if ¬(cpItv.simpleGeneric ≤ 2) then
      addWarningAt
        (if Interval.nameIs currItv Quality.P 5 then "hidden-fifths" else "hidden-octaves")
        pos r
    else r
  else r

/-- Rule 11: no melodic tritone. -/
def checkMelodicTritone (prevN currN : Note) (pos : Nat) (r : Results) : Results :=
  if Interval.isTritone (Interval.between prevN currN) then
    addErrorAt "tritone" pos r
  else r

/-- Rule 8: suggestion on similar motion. -/
def analyzeMotion (prevCf currCf prevCp currCp : Note) (pos : Nat) (r : Results) : Results :=
  if getMotionType prevCf currCf prevCp currCp = Motion.similar then
    addSuggestionAt "motion-type" pos r
  else r

/-- Rule 9: stepwise preference (suggestion past a third, warning past a
sixth — both can fire on the same pair). -/
def checkStepwise (prevN currN : Note) (pos : Nat) (r : Results) : Results :=
  let itv := Interval.between prevN currN
  let r := if itv.simpleGeneric > 3 then addSuggestionAt "stepwise" pos r else r
  if itv.simpleGeneric > 6 then addWarningAt "stepwise" pos r else r

/-- The body of the per-position loop of `validate`. -/
def perNoteChecks (cf cp : List Note) (cpPos : CpPos) (i : Nat) (r : Results) : Results :=
  let cfN := cf.getD i dfltNote
  let cpN := cp.getD i dfltNote
  let itv := pairInterval cpPos cfN cpN
  let r := checkConsonance itv i r
  let r := checkUnison itv i cf.length r
  let r := checkVoiceCrossing cfN cpN cpPos i r
  if i > 0 then
    let prevCf := cf.getD (i - 1) dfltNote
    let prevCp := cp.getD (i - 1) dfltNote
    let prevItv := pairInterval cpPos prevCf prevCp
    let r := checkParallels prevItv itv prevCf cfN prevCp cpN i r
    let r := checkMelodicTritone prevCp cpN i r
    let r := analyzeMotion prevCf cfN prevCp cpN i r
    checkStepwise prevCp cpN i r
  else r

/-- Rule 4: start on a perfect consonance. -/
def checkStartInterval (cfN cpN : Note) (cpPos : CpPos) (r : Results) : Results :=
  if ¬(Interval.isPerfectConsonance (pairInterval cpPos cfN cpN) = true) then
    addErrorAt "start-consonance" 0 r
  else r

/-- Rule 5: end on unison/octave, plus the cadence check on the penultimate
note (upper voice wants degree 7; lower voice wants degree 2). -/
def checkEndInterval (cf cp : List Note) (key : NoteClass) (mode : Mode) (cpPos : CpPos)
    (r : Results) : Results :=
  let lastIdx := cf.length - 1
  let cfN := cf.getD lastIdx dfltNote
  let cpN := cp.getD lastIdx dfltNote
  let itv := pairInterval cpPos cfN cpN
  let r :=
    if ¬(Interval.nameIs itv Quality.P 1) ∧ ¬(Interval.nameIs itv Quality.P 8) then
      addErrorAt "end-consonance" lastIdx r
    else r
  if lastIdx > 0 then
    let pen := cp.getD (lastIdx - 1) dfltNote
    let deg := Scale.getDegree pen key mode
    match cpPos with
    | CpPos.upper =>
        if deg ≠ some 7 then addWarningAt "leading-tone" (lastIdx - 1) r else r
    | CpPos.lower =>
        if deg ≠ some 2 then addWarningAt "cadence" (lastIdx - 1) r else r
  else r

/-- Rule 10: overall range above 19 semitones warns at position -1 (no
per-note record). -/
def checkRange (cp : List Note) (r : Results) : Results :=
  match cp.map Pitch.toMidi with
  | [] => r
  | m :: ms =>
      let lowest := ms.foldl Nat.min m
      let highest := ms.foldl Nat.max m
      if highest - lowest > 19 then
        pushWarning ⟨"range", some (-1), Severity.warning⟩ r
      else r

/-- One span test of `checkCompoundTritones`: degrees 4 and 7 (either
order) at distance `span`, direct interval a tritone. -/
def ctHit (cp : List Note) (key : NoteClass) (mode : Mode) (i span : Nat) : Bool :=
  let startN := cp.getD i dfltNote
  let endN := cp.getD (i + span - 1) dfltNote
  let sd := Scale.getDegree startN key mode
  let ed := Scale.getDegree endN key mode
  (decide ((sd = some 4 ∧ ed = some 7) ∨ (sd = some 7 ∧ ed = some 4))) &&
    Interval.isTritone (Interval.between startN endN)

/-- Rule 12: compound tritones over spans of 3 to 5 notes; at most one
warning per starting position (the JS `break`). -/
def checkCompoundTritones (cp : List Note) (key : NoteClass) (mode : Mode) (r : Results) :
    Results :=
  if cp.length < 3 then r
  else
    (List.range (cp.length - 2)).foldl
      (fun r i =>
        let spans := List.range' 3 (Nat.min 5 (cp.length - i) - 2)
        if spans.any (fun span => ctHit cp key mode i span) then
          pushWarning ⟨"compound-tritone", some (i : Int), Severity.warning⟩ r
        else r)
      r

/-- Rule 13: two same-direction leaps summing to a dissonance. -/
def checkCompoundDissonantLeaps (cp : List Note) (r : Results) : Results :=
  if cp.length < 3 then r
  else
    (List.range (cp.length - 2)).foldl
      (fun r i =>
        let n1 := cp.getD i dfltNote
        let n2 := cp.getD (i + 1) dfltNote
        let n3 := cp.getD (i + 2) dfltNote
        let i1 := Interval.between n1 n2
        let i2 := Interval.between n2 n3
        if i1.simpleGeneric > 2 ∧ i2.simpleGeneric > 2 then
          let d1 := Int.sign ((Pitch.toMidi n2 : Int) - Pitch.toMidi n1)
          let d2 := Int.sign ((Pitch.toMidi n3 : Int) - Pitch.toMidi n2)
          if d1 = d2 ∧ d1 ≠ 0 then
            let ci := Interval.between n1 n3
            if Interval.isDissonant ci ∨ ci.simpleGeneric = 7 ∨ ci.simpleGeneric = 9 then
              pushWarning ⟨"compound-dissonant-leap", some ((i : Int) + 2), Severity.warning⟩ r
            else r
          else r
        else r)
      r

/-- Rule 14: battuta (intermittent) fifths/octaves, with the leap-of-a-4th-
or-5th contrary-approach exception. -/
def checkBattutaParallels (cf cp : List Note) (cpPos : CpPos) (r : Results) : Results :=
  if cf.length < 3 then r
  else
    (List.range (cf.length - 2)).foldl
      (fun r i =>
        let i1 := pairInterval cpPos (cf.getD i dfltNote) (cp.getD i dfltNote)
        if ¬(Interval.isPerfectConsonance i1 = true) ∨ Interval.nameIs i1 Quality.P 1 then r
        else
          (List.range' 2 (Nat.min 3 (cf.length - i - 1) - 1)).foldl
            (fun r gap =>
              let i2 := pairInterval cpPos (cf.getD (i + gap) dfltNote) (cp.getD (i + gap) dfltNote)
              if Interval.simpleName i1 = Interval.simpleName i2 then
                let cfDir := Int.sign ((Pitch.toMidi (cf.getD (i + gap) dfltNote) : Int) -
                  Pitch.toMidi (cf.getD i dfltNote))
                let cpDir := Int.sign ((Pitch.toMidi (cp.getD (i + gap) dfltNote) : Int) -
                  Pitch.toMidi (cp.getD i dfltNote))
                if cfDir = cpDir ∧ cfDir ≠ 0 then
                  let cpLeap := ((Pitch.toMidi (cp.getD (i + gap) dfltNote) : Int) -
                    Pitch.toMidi (cp.getD (i + gap - 1) dfltNote)).natAbs
                  let approachMotion := getMotionType
                    (cf.getD (i + gap - 1) dfltNote) (cf.getD (i + gap) dfltNote)
                    (cp.getD (i + gap - 1) dfltNote) (cp.getD (i + gap) dfltNote)
                  if 5 ≤ cpLeap ∧ cpLeap ≤ 7 ∧ approachMotion = Motion.contrary then r
                  else
                    pushWarning
                      ⟨(if Interval.nameIs i1 Quality.P 5 then "battuta-fifths"
                        else "battuta-octaves"),
                        some ((i : Int) + gap), Severity.warning⟩ r
                else r
              else r)
            r)
      r

/-- Loop state of `checkProlongedDirection`. -/
structure PDState where
  dir : Int
  count : Nat
  startPos : Nat
deriving DecidableEq, Repr

/-- One iteration of the prolonged-direction scan of first species. -/
def pdStep (cp : List Note) (acc : PDState × Results) (i : Nat) : PDState × Results :=
  let st := acc.1
  let r := acc.2
  let direction := Int.sign ((Pitch.toMidi (cp.getD i dfltNote) : Int) -
    Pitch.toMidi (cp.getD (i - 1) dfltNote))
  if direction = 0 then (st, r)
  else if direction = st.dir then ({ st with count := st.count + 1 }, r)
  else
    let r :=
      if st.count > 8 then
        pushWarning ⟨"prolonged-direction", some (st.startPos : Int), Severity.warning⟩ r
      else r
    (⟨direction, 1, i - 1⟩, r)

/-- Rule 15: more than 8 notes in the same direction. -/
def checkProlongedDirection (cp : List Note) (r : Results) : Results :=
  if cp.length < 4 then r
  else
    let res := (List.range' 1 (cp.length - 1)).foldl (pdStep cp) (⟨0, 1, 0⟩, r)
    if res.1.count > 8 then
      pushWarning ⟨"prolonged-direction", some (res.1.startPos : Int), Severity.warning⟩ res.2
    else res.2

/-- Rule 16: three consecutive notes outlining a triad with both motions a
third or wider. -/
def checkArpeggios (cp : List Note) (key : NoteClass) (mode : Mode) (r : Results) : Results :=
  if cp.length < 3 then r
  else
    (List.range (cp.length - 2)).foldl
      (fun r i =>
        let n1 := cp.getD i dfltNote
        let n2 := cp.getD (i + 1) dfltNote
        let n3 := cp.getD (i + 2) dfltNote
        match Scale.getDegree n1 key mode, Scale.getDegree n2 key mode,
            Scale.getDegree n3 key mode with
        | some d1, some d2, some d3 =>
            if (d1, d2, d3) ∈ triadPatterns then
              if (Interval.between n1 n2).simpleGeneric ≥ 3 ∧
                  (Interval.between n2 n3).simpleGeneric ≥ 3 then
                pushSuggestion ⟨"arpeggio", some (i : Int), Severity.suggestion⟩ r
              else r
            else r
        | _, _, _ => r)
      r

/-- Loop state of `checkExcessiveParallelConsonances`: run lengths and run
start positions for thirds and for sixths. -/
structure EPState where
  thirds : Nat
  sixths : Nat
  thirdsStart : Nat
  sixthsStart : Nat
deriving DecidableEq, Repr

/-- One iteration of the excessive-parallels scan of first species. -/
def epStep (cf cp : List Note) (cpPos : CpPos) (acc : EPState × Results) (i : Nat) :
    EPState × Results :=
  let st := acc.1
  let r := acc.2
  let itv := pairInterval cpPos (cf.getD i dfltNote) (cp.getD i dfltNote)
  let isThird : Bool := Interval.nameIs itv Quality.m 3 || Interval.nameIs itv Quality.M 3
  let isSixth : Bool := Interval.nameIs itv Quality.m 6 || Interval.nameIs itv Quality.M 6
  if isThird then
    ({ st with
        thirds := st.thirds + 1
        sixths := 0
        thirdsStart := if st.thirds = 0 then i else st.thirdsStart }, r)
  else if isSixth then
    ({ st with
        sixths := st.sixths + 1
        thirds := 0
        sixthsStart := if st.sixths = 0 then i else st.sixthsStart }, r)
  else
    let r :=
      if st.thirds > 4 then
        pushSuggestion ⟨"excessive-parallels", some (st.thirdsStart : Int), Severity.suggestion⟩ r
      else r
    let r :=
      if st.sixths > 4 then
        pushSuggestion ⟨"excessive-parallels", some (st.sixthsStart : Int), Severity.suggestion⟩ r
      else r
    ({ st with thirds := 0, sixths := 0 }, r)

/-- Rule 17: more than 4 consecutive parallel thirds or sixths. -/
def checkExcessiveParallelConsonances (cf cp : List Note) (cpPos : CpPos) (r : Results) :
    Results :=
  if cf.length < 4 then r
  else
    let res := (List.range cf.length).foldl (epStep cf cp cpPos) (⟨0, 0, 0, 0⟩, r)
    let r :=
      if res.1.thirds > 4 then
        pushSuggestion
          ⟨"excessive-parallels", some (res.1.thirdsStart : Int), Severity.suggestion⟩ res.2
      else res.2
    if res.1.sixths > 4 then
      pushSuggestion ⟨"excessive-parallels", some (res.1.sixthsStart : Int), Severity.suggestion⟩ r
    else r

/-- First-species `calculateScore`: 100 minus 15 per error, 5 per warning,
1 per suggestion, floored at 0. -/
def calculateScore (r : Results) : Int :=
  max 0 (100 - (r.errors.length : Int) * 15 - (r.warnings.length : Int) * 5 -
    (r.suggestions.length : Int))

/-- FirstSpeciesValidator.validate.  `none` models the exception raised when
both sequences are empty: the length check passes, the per-position loop is
skipped, and `checkStartInterval` parses the missing note
`cantusFirmus[0]`, so `Pitch.parse` throws before any result is returned. -/
def validate (ex : Exercise1) : Option Results :=
  let cf := ex.cantusFirmus
  let cp := ex.counterpoint
  if cf.length = cp.length then
    if cf.length = 0 then none
    else
      let n := cf.length
      let r := initResults n
      let r := (List.range n).foldl (fun r i => perNoteChecks cf cp ex.cpPosition i r) r
      let r := checkStartInterval (cf.getD 0 dfltNote) (cp.getD 0 dfltNote) ex.cpPosition r
      let r := checkEndInterval cf cp ex.key ex.mode ex.cpPosition r
      let r := checkRange cp r
      let r := checkCompoundTritones cp ex.key ex.mode r
      let r := checkCompoundDissonantLeaps cp r
      let r := checkBattutaParallels cf cp ex.cpPosition r
      let r := checkProlongedDirection cp r
      let r := checkArpeggios cp ex.key ex.mode r
      let r := checkExcessiveParallelConsonances cf cp ex.cpPosition r
      some { r with score := calculateScore r, valid := r.errors.isEmpty }
  else some lengthErrorResults

end FirstSpecies

/-- A sounding note paired with its counterpoint index: one entry of the
`getSoundingNotes` output of the 2nd/3rd species validators. -/
structure SNote where
  note : Note
  index : Nat
deriving DecidableEq, Repr

/-- Default `SNote` for in-bounds `List.getD` reads. -/
def dfltSNote : SNote := ⟨dfltNote, 0⟩

def soundingAux : Nat → List (Option Note) → List SNote
  | _, [] => []
  | i, none :: rest => soundingAux (i + 1) rest
  | i, some n :: rest => ⟨n, i⟩ :: soundingAux (i + 1) rest

/-- `getSoundingNotes`: the non-rest notes with their indices, in order. -/
def getSoundingNotes (cp : List (Option Note)) : List SNote :=
  soundingAux 0 cp

/-- Exercise record of the 2nd and 3rd species validators: the counterpoint
may contain rests (`none`). -/
structure Exercise2 where
  cantusFirmus : List Note
  counterpoint : List (Option Note)
  key : NoteClass
  mode : Mode
  cpPosition : CpPos
deriving DecidableEq, Repr

namespace SecondSpecies

/-- CF measure of a counterpoint index (2:1 ratio). -/
def getMeasureIndex (cpIndex : Nat) : Nat := cpIndex / 2

/-- Strong beats: even indices plus the final index. -/
def isStrongBeat (cpIndex cpLen : Nat) : Bool :=
  cpIndex % 2 == 0 || cpIndex == cpLen - 1

/-- Weak beats: odd indices other than the final index. -/
def isWeakBeat (cpIndex cpLen : Nat) : Bool :=
  cpIndex % 2 == 1 && !(cpIndex == cpLen - 1)

/-- The CF note aligned with a counterpoint index. -/
def getCFNote (cpIndex : Nat) (cf : List Note) : Note :=
  cf.getD (getMeasureIndex cpIndex) dfltNote

def getStrongBeatIndices (cpLen : Nat) : List Nat :=
  (List.range cpLen).filter (fun i => isStrongBeat i cpLen)

/-- SecondSpeciesValidator.isPassingTone, §18 (reasons dropped, result is
the `valid` flag).  The five rejection gates run in source order; getD
out-of-range reads yield `none` and are rejected like rests. -/
def isPassingTone (cpIndex : Nat) (cp : List (Option Note)) (cf : List Note)
    (cpPos : CpPos) : Bool :=
  let cpLen := cp.length
  if ¬(isWeakBeat cpIndex cpLen = true) then false
  else
    match cp.getD cpIndex none with
    | none => false
    | some current =>
      match cp.getD (cpIndex - 1) none with
      | none => false
      | some prev =>
        if cpIndex + 1 ≥ cpLen then false
        else
          match cp.getD (cpIndex + 1) none with
          | none => false
          | some next =>
            if (Interval.between prev current).simpleGeneric > 2 then false
            else if (Interval.between current next).simpleGeneric > 2 then false
            else
              let dir1 := Int.sign ((Pitch.toMidi current : Int) - Pitch.toMidi prev)
              let dir2 := Int.sign ((Pitch.toMidi next : Int) - Pitch.toMidi current)
              if dir1 = 0 ∨ dir2 = 0 then false
              else if dir1 ≠ dir2 then false
              else
                let prevCF := getCFNote (cpIndex - 1) cf
                if Interval.isDissonant (pairInterval cpPos prevCF prev) then false
                else
                  let nextCF := getCFNote (cpIndex + 1) cf
                  if Interval.isDissonant (pairInterval cpPos nextCF next) then false
                  else true

/-- Anacrusis rule: only position 0 may hold a rest. -/
def checkAnacrusis (cp : List (Option Note)) (cpLen : Nat) (r : Results) : Results :=
  (List.range cpLen).foldl
    (fun r i =>
      if cp.getD i none = none ∧ i ≠ 0 then addErrorAt "anacrusis" i r else r)
    r

/-- Strong beats must be consonant (§16). -/
def checkStrongBeatConsonance (itv : Interval.Itv) (pos : Nat) (r : Results) : Results :=
  if Interval.isDissonant itv then addErrorAt "consonance" pos r else r

/-- Weak-beat dissonance must be a valid passing tone (§18). -/
def checkWeakBeatDissonance (itv : Interval.Itv) (pos : Nat) (cp : List (Option Note))
    (cf : List Note) (cpPos : CpPos) (r : Results) : Results :=
  if Interval.isDissonant itv then
    if isPassingTone pos cp cf cpPos then r else addErrorAt "passing-tone" pos r
  else r

/-- Unison only at the first sounding position or at the last index. -/
def checkUnison (itv : Interval.Itv) (pos cpLen : Nat) (cp : List (Option Note))
    (r : Results) : Results :=
  if ¬(Interval.nameIs itv Quality.P 1 = true) then r
  else
    let isFirstSounding :=
      (pos = 0 ∧ cp.getD 0 none ≠ none) ∨ (pos = 1 ∧ cp.getD 0 none = none)
    let isLast := pos = cpLen - 1
    if ¬isFirstSounding ∧ ¬isLast then addErrorAt "unison" pos r else r

/-- Identical to the first-species copy. -/
def checkVoiceCrossing (cfN cpN : Note) (cpPos : CpPos) (pos : Nat) (r : Results) : Results :=
  FirstSpecies.checkVoiceCrossing cfN cpN cpPos pos r

/-- Identical to the first-species copy. -/
def checkMelodicTritone (prevN currN : Note) (pos : Nat) (r : Results) : Results :=
  FirstSpecies.checkMelodicTritone prevN currN pos r

/-- Identical to the first-species copy. -/
def checkStepwise (prevN currN : Note) (pos : Nat) (r : Results) : Results :=
  FirstSpecies.checkStepwise prevN currN pos r

/-- Weak-to-strong note repetition warning. -/
def checkNoteRepetition (prevE currE : SNote) (cpLen : Nat) (r : Results) : Results :=
  if ¬(isWeakBeat prevE.index cpLen = true) then r
  else if ¬(isStrongBeat currE.index cpLen = true) then r
  else if Pitch.toMidi prevE.note = Pitch.toMidi currE.note then
    addWarningAt "note-repetition" currE.index r
  else r

/-- The body of the per-position loop of the 2nd-species `validate`. -/
def perNoteChecks (cf : List Note) (cp : List (Option Note)) (cpPos : CpPos) (i : Nat)
    (r : Results) : Results :=
  match cp.getD i none with
  | none => r
  | some cpN =>
      let cfN := getCFNote i cf
      let itv := pairInterval cpPos cfN cpN
      let r :=
        if isStrongBeat i cp.length then
          let r := checkStrongBeatConsonance itv i r
          checkUnison itv i cp.length cp r
        else r
      let r :=
        if isWeakBeat i cp.length then checkWeakBeatDissonance itv i cp cf cpPos r else r
      checkVoiceCrossing cfN cpN cpPos i r

/-- Parallel fifths/octaves between consecutive strong beats (error). -/
def checkStrongBeatParallels (cf : List Note) (cp : List (Option Note)) (cpPos : CpPos)
    (cpLen : Nat) (r : Results) : Results :=
  let si := getStrongBeatIndices cpLen
  (si.zip si.tail).foldl
    (fun r pr =>
      let prevIdx := pr.1
      let currIdx := pr.2
      match cp.getD prevIdx none, cp.getD currIdx none with
      | some prevCp, some currCp =>
          let prevCF := getCFNote prevIdx cf
          let currCF := getCFNote currIdx cf
          let prevItv := pairInterval cpPos prevCF prevCp
          let currItv := pairInterval cpPos currCF currCp
          let motion := getMotionType prevCF currCF prevCp currCp
          let prevPerfect : Bool :=
            Interval.isPerfectConsonance prevItv && !(Interval.nameIs prevItv Quality.P 1)
          let currPerfect : Bool :=
            Interval.isPerfectConsonance currItv && !(Interval.nameIs currItv Quality.P 1)
          if prevPerfect ∧ currPerfect ∧
              Interval.simpleName prevItv = Interval.simpleName currItv ∧
              motion = Motion.similar then
            addErrorAt
              (if Interval.nameIs prevItv Quality.P 5 then "parallel-fifths"
               else "parallel-octaves")
              currIdx r
          else r
      | _, _ => r)
    r

/-- Hidden fifths/octaves between consecutive strong beats (warning). -/
def checkStrongBeatHiddenParallels (cf : List Note) (cp : List (Option Note)) (cpPos : CpPos)
    (cpLen : Nat) (r : Results) : Results :=
  let si := getStrongBeatIndices cpLen
  (si.zip si.tail).foldl
    (fun r pr =>
      let prevIdx := pr.1
      let currIdx := pr.2
      match cp.getD prevIdx none, cp.getD currIdx none with
      | some prevCp, some currCp =>
          let prevCF := getCFNote prevIdx cf
          let currCF := getCFNote currIdx cf
          let prevItv := pairInterval cpPos prevCF prevCp
          let currItv := pairInterval cpPos currCF currCp
          let motion := getMotionType prevCF currCF prevCp currCp
          let prevPerfect : Bool :=
            Interval.isPerfectConsonance prevItv && !(Interval.nameIs prevItv Quality.P 1)
          let currPerfect : Bool :=
            Interval.isPerfectConsonance currItv && !(Interval.nameIs currItv Quality.P 1)
          if ¬(prevPerfect = true) ∧ currPerfect ∧ motion = Motion.similar then
            let cpItv := Interval.between prevCp currCp
            if ¬(cpItv.simpleGeneric ≤ 2) then
              addWarningAt
                (if Interval.nameIs currItv Quality.P 5 then "hidden-fifths"
                 else "hidden-octaves")
                currIdx r
            else r
          else r
      | _, _ => r)
    r

/-- Similar motion between consecutive strong beats (suggestion). -/
def checkStrongBeatMotion (cf : List Note) (cp : List (Option Note)) (cpPos : CpPos)
    (cpLen : Nat) (r : Results) : Results :=
  let si := getStrongBeatIndices cpLen
  (si.zip si.tail).foldl
    (fun r pr =>
      let prevIdx := pr.1
      let currIdx := pr.2
      match cp.getD prevIdx none, cp.getD currIdx none with
      | some prevCp, some currCp =>
          let prevCF := getCFNote prevIdx cf
          let currCF := getCFNote currIdx cf
          if getMotionType prevCF currCF prevCp currCp = Motion.similar then
            addSuggestionAt "motion-type" currIdx r
          else r
      | _, _ => r)
    r

/-- Perfect parallels across a strong/weak boundary (warning). -/
def checkCrossBeatParallels (cf : List Note) (cp : List (Option Note)) (cpPos : CpPos)
    (cpLen : Nat) (r : Results) : Results :=
  (List.range (cpLen - 1)).foldl
    (fun r i =>
      match cp.getD i none, cp.getD (i + 1) none with
      | some cp1, some cp2 =>
          if isStrongBeat i cpLen = isStrongBeat (i + 1) cpLen then r
          else
            let cf1 := getCFNote i cf
            let cf2 := getCFNote (i + 1) cf
            let itv1 := pairInterval cpPos cf1 cp1
            let itv2 := pairInterval cpPos cf2 cp2
            let perf1 : Bool :=
              Interval.isPerfectConsonance itv1 && !(Interval.nameIs itv1 Quality.P 1)
            let perf2 : Bool :=
              Interval.isPerfectConsonance itv2 && !(Interval.nameIs itv2 Quality.P 1)
            if perf1 ∧ perf2 ∧ Interval.simpleName itv1 = Interval.simpleName itv2 then
              if getMotionType cf1 cf2 cp1 cp2 = Motion.similar then
                addWarningAt "strong-weak-parallels" (i + 1) r
              else r
            else r
      | _, _ => r)
    r

/-- Start on a perfect consonance (first sounding note; index 1 under an
anacrusis).  The one-rest counterpoint `[null]` makes the JS code read
`counterpoint[1]` (`undefined`) and throw inside `Pitch.parse`; `validate`
filters that state out before calling this. -/
def checkStartInterval (cf : List Note) (cp : List (Option Note)) (cpPos : CpPos)
    (r : Results) : Results :=
  let startIdx := if cp.getD 0 none = none then 1 else 0
  match cp.getD startIdx none with
  | none => r
  | some cpN =>
      let cfN := getCFNote startIdx cf
      if ¬(Interval.isPerfectConsonance (pairInterval cpPos cfN cpN) = true) then
        addErrorAt "start-consonance" startIdx r
      else r

/-- End on unison or octave. -/
def checkEndInterval (cf : List Note) (cp : List (Option Note)) (_key : NoteClass)
    (_mode : Mode) (cpPos : CpPos) (cpLen : Nat) (r : Results) : Results :=
  let lastIdx := cpLen - 1
  match cp.getD lastIdx none with
  | none => r
  | some cpN =>
      let cfN := getCFNote lastIdx cf
      let itv := pairInterval cpPos cfN cpN
      if ¬(Interval.nameIs itv Quality.P 1) ∧ ¬(Interval.nameIs itv Quality.P 8) then
        addErrorAt "end-consonance" lastIdx r
      else r

/-- Last note must fall on a strong beat (fires only for even lengths,
which the length check already excludes). -/
def checkLastNoteWhole (cpLen : Nat) (r : Results) : Results :=
  if cpLen > 1 ∧ cpLen % 2 = 0 then addErrorAt "last-note-whole" (cpLen - 1) r else r

/-- Cadence §20-22: penultimate weak beat wants degree 7 (upper) or one of
2/5/7 (lower); for the upper voice the penultimate strong beat also gets a
suggestion outside degrees 5/6. -/
def checkCadence (cf : List Note) (cp : List (Option Note)) (key : NoteClass) (mode : Mode)
    (cpPos : CpPos) (cpLen : Nat) (r : Results) : Results :=
  if cpLen < 3 then r
  else
    let penIdx := cpLen - 2
    match cp.getD penIdx none with
    | none => r
    | some pen =>
        if ¬(isWeakBeat penIdx cpLen = true) then r
        else
          let deg := Scale.getDegree pen key mode
          let r :=
            match cpPos with
            | CpPos.upper =>
                if deg ≠ some 7 then addWarningAt "cadence-second-species" penIdx r else r
            | CpPos.lower =>
                if deg ≠ some 2 ∧ deg ≠ some 5 ∧ deg ≠ some 7 then
                  addWarningAt "cadence-second-species" penIdx r
                else r
          let psIdx := cpLen - 3
          match cp.getD psIdx none, cpPos with
          | some psN, CpPos.upper =>
              let sd := Scale.getDegree psN key mode
              if sd ≠ some 6 ∧ sd ≠ some 5 then
                addSuggestionAt "cadence-second-species" psIdx r
              else r
          | _, _ => r

/-- Range check over sounding notes only. -/
def checkRange (cp : List (Option Note)) (r : Results) : Results :=
  match (cp.filterMap id).map Pitch.toMidi with
  | [] => r
  | m :: ms =>
      let lowest := ms.foldl Nat.min m
      let highest := ms.foldl Nat.max m
      if highest - lowest > 19 then
        pushWarning ⟨"range", some (-1), Severity.warning⟩ r
      else r

/-- One span test of the sounding-note compound-tritone scan. -/
def ctHit (sn : List SNote) (key : NoteClass) (mode : Mode) (i span : Nat) : Bool :=
  let startN := (sn.getD i dfltSNote).note
  let endN := (sn.getD (i + span - 1) dfltSNote).note
  let sd := Scale.getDegree startN key mode
  let ed := Scale.getDegree endN key mode
  (decide ((sd = some 4 ∧ ed = some 7) ∨ (sd = some 7 ∧ ed = some 4))) &&
    Interval.isTritone (Interval.between startN endN)

/-- Compound tritones over sounding notes, with the cadential exception
(degree-7 endpoint at the penultimate sounding note). -/
def checkCompoundTritones (sn : List SNote) (key : NoteClass) (mode : Mode) (r : Results) :
    Results :=
  if sn.length < 3 then r
  else
    (List.range (sn.length - 2)).foldl
      (fun r i =>
        let spans := List.range' 3 (Nat.min 5 (sn.length - i) - 2)
        match spans.find? (fun span => ctHit sn key mode i span) with
        | some span =>
            let endDeg := Scale.getDegree (sn.getD (i + span - 1) dfltSNote).note key mode
            if endDeg = some 7 ∧ i + span - 1 = sn.length - 2 then r
            else
              pushWarning
                ⟨"compound-tritone", some ((sn.getD i dfltSNote).index : Int),
                  Severity.warning⟩ r
        | none => r)
      r

/-- Compound dissonant leaps over sounding notes. -/
def checkCompoundDissonantLeaps (sn : List SNote) (r : Results) : Results :=
  if sn.length < 3 then r
  else
    (List.range (sn.length - 2)).foldl
      (fun r i =>
        let n1 := (sn.getD i dfltSNote).note
        let n2 := (sn.getD (i + 1) dfltSNote).note
        let n3 := (sn.getD (i + 2) dfltSNote).note
        let i1 := Interval.between n1 n2
        let i2 := Interval.between n2 n3
        if i1.simpleGeneric > 2 ∧ i2.simpleGeneric > 2 then
          let d1 := Int.sign ((Pitch.toMidi n2 : Int) - Pitch.toMidi n1)
          let d2 := Int.sign ((Pitch.toMidi n3 : Int) - Pitch.toMidi n2)
          if d1 = d2 ∧ d1 ≠ 0 then
            let ci := Interval.between n1 n3
            if Interval.isDissonant ci ∨ ci.simpleGeneric = 7 ∨ ci.simpleGeneric = 9 then
              pushWarning
                ⟨"compound-dissonant-leap", some ((sn.getD (i + 2) dfltSNote).index : Int),
                  Severity.warning⟩ r
            else r
          else r
        else r)
      r

/-- One iteration of the sounding-note prolonged-direction scan.  The state
`startPos` stores an index into the sounding list. -/
def pdStep (sn : List SNote) (acc : FirstSpecies.PDState × Results) (i : Nat) :
    FirstSpecies.PDState × Results :=
  let st := acc.1
  let r := acc.2
  let direction := Int.sign ((Pitch.toMidi (sn.getD i dfltSNote).note : Int) -
    Pitch.toMidi (sn.getD (i - 1) dfltSNote).note)
  if direction = 0 then (st, r)
  else if direction = st.dir then ({ st with count := st.count + 1 }, r)
  else
    let r :=
      if st.count > 8 then
        pushWarning
          ⟨"prolonged-direction", some ((sn.getD st.startPos dfltSNote).index : Int),
            Severity.warning⟩ r
      else r
    (⟨direction, 1, i - 1⟩, r)

/-- Prolonged direction over sounding notes (threshold 8). -/
def checkProlongedDirection (sn : List SNote) (r : Results) : Results :=
  if sn.length < 4 then r
  else
    let res := (List.range' 1 (sn.length - 1)).foldl (pdStep sn) (⟨0, 1, 0⟩, r)
    if res.1.count > 8 then
      pushWarning
        ⟨"prolonged-direction", some ((sn.getD res.1.startPos dfltSNote).index : Int),
          Severity.warning⟩ res.2
    else res.2

/-- Arpeggio suggestion over sounding notes. -/
def checkArpeggios (sn : List SNote) (key : NoteClass) (mode : Mode) (r : Results) : Results :=
  if sn.length < 3 then r
  else
    (List.range (sn.length - 2)).foldl
      (fun r i =>
        let n1 := (sn.getD i dfltSNote).note
        let n2 := (sn.getD (i + 1) dfltSNote).note
        let n3 := (sn.getD (i + 2) dfltSNote).note
        match Scale.getDegree n1 key mode, Scale.getDegree n2 key mode,
            Scale.getDegree n3 key mode with
        | some d1, some d2, some d3 =>
            if (d1, d2, d3) ∈ triadPatterns then
              if (Interval.between n1 n2).simpleGeneric ≥ 3 ∧
                  (Interval.between n2 n3).simpleGeneric ≥ 3 then
                pushSuggestion
                  ⟨"arpeggio", some ((sn.getD i dfltSNote).index : Int), Severity.suggestion⟩ r
              else r
            else r
        | _, _, _ => r)
      r

/-- One iteration of the strong-beat excessive-parallels scan: rests reset
both run lengths. -/
def epStep (cf : List Note) (cp : List (Option Note)) (cpPos : CpPos)
    (acc : FirstSpecies.EPState × Results) (idx : Nat) : FirstSpecies.EPState × Results :=
  let st := acc.1
  let r := acc.2
  match cp.getD idx none with
  | none => ({ st with thirds := 0, sixths := 0 }, r)
  | some cpN =>
      let itv := pairInterval cpPos (getCFNote idx cf) cpN
      let isThird : Bool := Interval.nameIs itv Quality.m 3 || Interval.nameIs itv Quality.M 3
      let isSixth : Bool := Interval.nameIs itv Quality.m 6 || Interval.nameIs itv Quality.M 6
      if isThird then
        ({ st with
            thirds := st.thirds + 1
            sixths := 0
            thirdsStart := if st.thirds = 0 then idx else st.thirdsStart }, r)
      else if isSixth then
        ({ st with
            sixths := st.sixths + 1
            thirds := 0
            sixthsStart := if st.sixths = 0 then idx else st.sixthsStart }, r)
      else
        let r :=
          if st.thirds > 4 then
            pushSuggestion
              ⟨"excessive-parallels", some (st.thirdsStart : Int), Severity.suggestion⟩ r
          else r
        let r :=
          if st.sixths > 4 then
            pushSuggestion
              ⟨"excessive-parallels", some (st.sixthsStart : Int), Severity.suggestion⟩ r
          else r
        ({ st with thirds := 0, sixths := 0 }, r)

/-- Excessive parallel thirds/sixths between strong beats. -/
def checkExcessiveParallelConsonances (cf : List Note) (cp : List (Option Note))
    (cpPos : CpPos) (cpLen : Nat) (r : Results) : Results :=
  let si := getStrongBeatIndices cpLen
  if si.length < 4 then r
  else
    let res := si.foldl (epStep cf cp cpPos) (⟨0, 0, 0, 0⟩, r)
    let r :=
      if res.1.thirds > 4 then
        pushSuggestion
          ⟨"excessive-parallels", some (res.1.thirdsStart : Int), Severity.suggestion⟩ res.2
      else res.2
    if res.1.sixths > 4 then
      pushSuggestion
        ⟨"excessive-parallels", some (res.1.sixthsStart : Int), Severity.suggestion⟩ r
    else r

/-- Battuta fifths/octaves between strong beats 2-3 measures apart. -/
def checkBattutaParallels (cf : List Note) (cp : List (Option Note)) (cpPos : CpPos)
    (cpLen : Nat) (r : Results) : Results :=
  let si := getStrongBeatIndices cpLen
  if si.length < 3 then r
  else
    (List.range (si.length - 2)).foldl
      (fun r s =>
        let idx1 := si.getD s 0
        match cp.getD idx1 none with
        | none => r
        | some cp1 =>
            let cf1 := getCFNote idx1 cf
            let itv1 := pairInterval cpPos cf1 cp1
            if ¬(Interval.isPerfectConsonance itv1 = true) ∨
                Interval.nameIs itv1 Quality.P 1 then r
            else
              (List.range' 2 (Nat.min 3 (si.length - s - 1) - 1)).foldl
                (fun r gap =>
                  let idx2 := si.getD (s + gap) 0
                  match cp.getD idx2 none with
                  | none => r
                  | some cp2 =>
                      let cf2 := getCFNote idx2 cf
                      let itv2 := pairInterval cpPos cf2 cp2
                      if Interval.simpleName itv1 = Interval.simpleName itv2 then
                        let cfDir := Int.sign ((Pitch.toMidi cf2 : Int) - Pitch.toMidi cf1)
                        let cpDir := Int.sign ((Pitch.toMidi cp2 : Int) - Pitch.toMidi cp1)
                        if cfDir = cpDir ∧ cfDir ≠ 0 then
                          let prevStrongIdx := si.getD (s + gap - 1) 0
                          let exception : Bool :=
                            match cp.getD prevStrongIdx none with
                            | none => false
                            | some prevCp =>
                                let cpLeap := ((Pitch.toMidi cp2 : Int) -
                                  Pitch.toMidi prevCp).natAbs
                                let prevCF := getCFNote prevStrongIdx cf
                                decide (5 ≤ cpLeap ∧ cpLeap ≤ 7 ∧
                                  getMotionType prevCF cf2 prevCp cp2 = Motion.contrary)
                          if exception then r
                          else
                            pushWarning
                              ⟨(if Interval.nameIs itv1 Quality.P 5 then "battuta-fifths"
                                else "battuta-octaves"),
                                some (idx2 : Int), Severity.warning⟩ r
                        else r
                      else r)
                r)
      r

/-- Second-species `calculateScore`: 100 minus 10 per error, 4 per warning,
1 per suggestion, floored at 0. -/
def calculateScore (r : Results) : Int :=
  max 0 (100 - (r.errors.length : Int) * 10 - (r.warnings.length : Int) * 4 -
    (r.suggestions.length : Int))

/-- SecondSpeciesValidator.validate.  `none` models the exception raised for
a one-slot counterpoint holding a rest: the anacrusis shifts the start
index to 1, the read `counterpoint[1]` yields `undefined` (not `null`), and
`Pitch.parse` throws inside `checkStartInterval`. -/
def validate (ex : Exercise2) : Option Results :=
  let cf := ex.cantusFirmus
  let cp := ex.counterpoint
  let cfLen := cf.length
  let cpLen := cp.length
  if (cpLen : Int) ≠ 2 * (cfLen : Int) - 1 then some lengthErrorResults
  else if cpLen = 1 ∧ cp.getD 0 none = none then none
  else
    let r := initResults cpLen
    let r := checkAnacrusis cp cpLen r
    let sounding := getSoundingNotes cp
    let r := (List.range cpLen).foldl (fun r i => perNoteChecks cf cp ex.cpPosition i r) r
    let r := (sounding.zip sounding.tail).foldl
      (fun r pr =>
        let r := checkMelodicTritone pr.1.note pr.2.note pr.2.index r
        let r := checkStepwise pr.1.note pr.2.note pr.2.index r
        checkNoteRepetition pr.1 pr.2 cpLen r)
      r
    let r := checkStrongBeatParallels cf cp ex.cpPosition cpLen r
    let r := checkStrongBeatHiddenParallels cf cp ex.cpPosition cpLen r
    let r := checkStrongBeatMotion cf cp ex.cpPosition cpLen r
    let r := checkCrossBeatParallels cf cp ex.cpPosition cpLen r
    let r := checkStartInterval cf cp ex.cpPosition r
    let r := checkEndInterval cf cp ex.key ex.mode ex.cpPosition cpLen r
    let r := checkLastNoteWhole cpLen r
    let r := checkCadence cf cp ex.key ex.mode ex.cpPosition cpLen r
    let r := checkRange cp r
    let r := checkCompoundTritones sounding ex.key ex.mode r
    let r := checkCompoundDissonantLeaps sounding r
    let r := checkProlongedDirection sounding r
    let r := checkArpeggios sounding ex.key ex.mode r
    let r := checkExcessiveParallelConsonances cf cp ex.cpPosition cpLen r
    let r := checkBattutaParallels cf cp ex.cpPosition cpLen r
    some { r with score := calculateScore r, valid := r.errors.isEmpty }

end SecondSpecies

namespace ThirdSpecies

/-- CF measure of a counterpoint index (4:1 ratio). -/
def getMeasureIndex (cpIndex : Nat) : Nat := cpIndex / 4

/-- Beat number 1-4 within a measure. -/
def getBeatInMeasure (cpIndex : Nat) : Nat := cpIndex % 4 + 1

/-- Downbeat: beat 1 or the final index. -/
def isDownbeat (cpIndex cpLen : Nat) : Bool :=
  cpIndex % 4 == 0 || cpIndex == cpLen - 1

/-- Semi-strong: beat 3, except the final index. -/
def isSemiStrong (cpIndex cpLen : Nat) : Bool :=
  cpIndex % 4 == 2 && !(cpIndex == cpLen - 1)

/-- Weak: beat 2 or 4, except the final index. -/
def isWeakBeat (cpIndex cpLen : Nat) : Bool :=
  (cpIndex % 4 == 1 || cpIndex % 4 == 3) && !(cpIndex == cpLen - 1)

/-- The CF note aligned with a counterpoint index. -/
def getCFNote (cpIndex : Nat) (cf : List Note) : Note :=
  cf.getD (getMeasureIndex cpIndex) dfltNote

def getDownbeatIndices (cpLen : Nat) : List Nat :=
  (List.range cpLen).filter (fun i => isDownbeat i cpLen)

/-- First non-rest index, 0 when every slot is a rest
(`_getFirstSoundingIndex`). -/
def firstSoundingAux : Nat → List (Option Note) → Option Nat
  | _, [] => none
  | i, none :: rest => firstSoundingAux (i + 1) rest
  | i, some _ :: _ => some i

def firstSoundingIndex (cp : List (Option Note)) : Nat :=
  (firstSoundingAux 0 cp).getD 0

/-- ThirdSpeciesValidator.isPassingTone, §26 (valid flag only). -/
def isPassingTone (cpIndex : Nat) (cp : List (Option Note)) (cf : List Note)
    (cpPos : CpPos) : Bool :=
  let cpLen := cp.length
  if ¬(isWeakBeat cpIndex cpLen = true) then false
  else
    match cp.getD cpIndex none with
    | none => false
    | some current =>
      match cp.getD (cpIndex - 1) none with
      | none => false
      | some prev =>
        if cpIndex + 1 ≥ cpLen then false
        else
          match cp.getD (cpIndex + 1) none with
          | none => false
          | some next =>
            if (Interval.between prev current).simpleGeneric > 2 then false
            else if (Interval.between current next).simpleGeneric > 2 then false
            else
              let dir1 := Int.sign ((Pitch.toMidi current : Int) - Pitch.toMidi prev)
              let dir2 := Int.sign ((Pitch.toMidi next : Int) - Pitch.toMidi current)
              if dir1 = 0 ∨ dir2 = 0 then false
              else if dir1 ≠ dir2 then false
              else
                let prevCF := getCFNote (cpIndex - 1) cf
                if Interval.isDissonant (pairInterval cpPos prevCF prev) then false
                else
                  let nextCF := getCFNote (cpIndex + 1) cf
                  if Interval.isDissonant (pairInterval cpPos nextCF next) then false
                  else true

/-- ThirdSpeciesValidator._checkCambiataAt: does a valid 5-note cambiata
window start at `startIndex`?  (§29-§32; the start index is an integer
because the callers pass `cpIndex - 1/2/3`.) -/
def checkCambiataAt (startIndex : Int) (cp : List (Option Note)) (cf : List Note)
    (cpPos : CpPos) : Bool :=
  let cpLen := cp.length
  if startIndex < 0 ∨ startIndex + 4 ≥ (cpLen : Int) then false
  else
    let s := startIndex.toNat
    match cp.getD s none, cp.getD (s + 1) none, cp.getD (s + 2) none,
        cp.getD (s + 3) none, cp.getD (s + 4) none with
    | some n1, some n2, some n3, some n4, some n5 =>
        let m1 : Int := Pitch.toMidi n1
        let m2 : Int := Pitch.toMidi n2
        let m3 : Int := Pitch.toMidi n3
        let m4 : Int := Pitch.toMidi n4
        let m5 : Int := Pitch.toMidi n5
        let int12 := Interval.between n1 n2
        let int23 := Interval.between n2 n3
        let int34 := Interval.between n3 n4
        let int45 := Interval.between n4 n5
        let dir1 := Int.sign (m2 - m1)
        if dir1 = 0 then false
        else if dir1 < 0 then
          if int12.simpleGeneric ≠ 2 ∨ m2 ≥ m1 then false
          else if int23.simpleGeneric ≠ 3 ∨ m3 ≥ m2 then false
          else if int34.simpleGeneric ≠ 2 ∨ m4 ≤ m3 then false
          else if int45.simpleGeneric ≠ 2 ∨ m5 ≤ m4 then false
          else
            let interval1 := pairInterval cpPos (getCFNote s cf) n1
            if Interval.isDissonant interval1 then false
            else
              let interval5 := pairInterval cpPos (getCFNote (s + 4) cf) n5
              if Interval.isDissonant interval5 then false
              else if Interval.isTritone interval5 then false
              else true
        else
          if int12.simpleGeneric ≠ 2 ∨ m2 ≤ m1 then false
          else if int23.simpleGeneric ≠ 3 ∨ m3 ≤ m2 then false
          else if int34.simpleGeneric ≠ 2 ∨ m4 ≥ m3 then false
          else if int45.simpleGeneric ≠ 2 ∨ m5 ≥ m4 then false
          else
            let interval1 := pairInterval cpPos (getCFNote s cf) n1
            if Interval.isDissonant interval1 then false
            else
              let interval5 := pairInterval cpPos (getCFNote (s + 4) cf) n5
              if Interval.isDissonant interval5 then false
              else if Interval.isTritone interval5 then false
              else true
    | _, _, _, _, _ => false

/-- ThirdSpeciesValidator.isCambiata: the candidate as note 2, 3 or 4 of a
valid window (valid flag only). -/
def isCambiata (cpIndex : Nat) (cp : List (Option Note)) (cf : List Note)
    (cpPos : CpPos) : Bool :=
  match cp.getD cpIndex none with
  | none => false
  | some _ =>
      checkCambiataAt ((cpIndex : Int) - 1) cp cf cpPos ||
      checkCambiataAt ((cpIndex : Int) - 2) cp cf cpPos ||
      checkCambiataAt ((cpIndex : Int) - 3) cp cf cpPos

/-- ThirdSpeciesValidator.isStrongBeatPassingTone, §33 (valid flag only). -/
def isStrongBeatPassingTone (cpIndex : Nat) (cp : List (Option Note)) (cf : List Note)
    (cpPos : CpPos) : Bool :=
  let cpLen := cp.length
  if ¬(isSemiStrong cpIndex cpLen = true) then false
  else
    match cp.getD cpIndex none with
    | none => false
    | some current =>
      match cp.getD (cpIndex - 1) none with
      | none => false
      | some prev =>
        if cpIndex + 1 ≥ cpLen then false
        else
          match cp.getD (cpIndex + 1) none with
          | none => false
          | some next =>
            if (Interval.between prev current).simpleGeneric > 2 then false
            else if (Interval.between current next).simpleGeneric > 2 then false
            else
              let dir1 := Int.sign ((Pitch.toMidi current : Int) - Pitch.toMidi prev)
              let dir2 := Int.sign ((Pitch.toMidi next : Int) - Pitch.toMidi current)
              if dir1 = 0 ∨ dir2 = 0 ∨ dir1 ≠ dir2 then false
              else if (Interval.between prev next).simpleGeneric ≠ 3 then false
              else
                let prevCF := getCFNote (cpIndex - 1) cf
                if Interval.isDissonant (pairInterval cpPos prevCF prev) then false
                else
                  let nextCF := getCFNote (cpIndex + 1) cf
                  if Interval.isDissonant (pairInterval cpPos nextCF next) then false
                  else true

/-- Classification returned by `classifyDissonance` (reason dropped). -/
structure Classification where
  type : String
  valid : Bool
deriving DecidableEq, Repr

/-- ThirdSpeciesValidator.classifyDissonance: the single entry point for
dissonance legality. -/
def classifyDissonance (cpIndex : Nat) (cp : List (Option Note)) (cf : List Note)
    (cpPos : CpPos) : Classification :=
  let cpLen := cp.length
  if isDownbeat cpIndex cpLen then ⟨"invalid", false⟩
  else if isSemiStrong cpIndex cpLen then
    if isStrongBeatPassingTone cpIndex cp cf cpPos then ⟨"strong-passing-tone", true⟩
    else if isCambiata cpIndex cp cf cpPos then ⟨"cambiata", true⟩
    else ⟨"invalid", false⟩
  else if isWeakBeat cpIndex cpLen then
    if isPassingTone cpIndex cp cf cpPos then ⟨"passing-tone", true⟩
    else if isCambiata cpIndex cp cf cpPos then ⟨"cambiata", true⟩
    else ⟨"invalid", false⟩
  else ⟨"invalid", false⟩

/-- Anacrusis: with a leading rest, rests are tolerated in the first three
slots only; thereafter every rest is an error (rule id reuses `unison`). -/
def checkAnacrusis (cp : List (Option Note)) (cpLen : Nat) (r : Results) : Results :=
  let hasAnacrusis := cp.getD 0 none = none
  let startCheck := if hasAnacrusis then 3 else 0
  (List.range' startCheck (cpLen - startCheck)).foldl
    (fun r i => if cp.getD i none = none then addErrorAt "unison" i r else r)
    r

/-- Downbeat consonance §24. -/
def checkDownbeatConsonance (itv : Interval.Itv) (pos : Nat) (r : Results) : Results :=
  if Interval.isDissonant itv then addErrorAt "consonance" pos r else r

/-- Beat-3 dissonance must classify as strong passing tone or cambiata;
when it does, a suggestion records the licence. -/
def checkBeatThreeConsonance (itv : Interval.Itv) (pos : Nat) (cp : List (Option Note))
    (cf : List Note) (cpPos : CpPos) (r : Results) : Results :=
  if ¬(Interval.isDissonant itv = true) then r
  else
    let c := classifyDissonance pos cp cf cpPos
    if ¬(c.valid = true) then addErrorAt "beat-three-consonance" pos r
    else addSuggestionAt "passing-tone-strong" pos r

/-- Weak-beat dissonance must classify as passing tone or cambiata. -/
def checkWeakBeatDissonance (itv : Interval.Itv) (pos : Nat) (cp : List (Option Note))
    (cf : List Note) (cpPos : CpPos) (r : Results) : Results :=
  if ¬(Interval.isDissonant itv = true) then r
  else
    let c := classifyDissonance pos cp cf cpPos
    if ¬(c.valid = true) then addErrorAt "passing-tone" pos r else r

/-- Unison only at the first sounding note or the last index. -/
def checkUnison (itv : Interval.Itv) (pos cpLen : Nat) (cp : List (Option Note))
    (r : Results) : Results :=
  if ¬(Interval.nameIs itv Quality.P 1 = true) then r
  else
    let firstSounding := firstSoundingIndex cp
    if ¬(pos = firstSounding) ∧ ¬(pos = cpLen - 1) then addErrorAt "unison" pos r else r

/-- Identical to the first-species copy. -/
def checkVoiceCrossing (cfN cpN : Note) (cpPos : CpPos) (pos : Nat) (r : Results) : Results :=
  FirstSpecies.checkVoiceCrossing cfN cpN cpPos pos r

/-- Identical to the first-species copy. -/
def checkMelodicTritone (prevN currN : Note) (pos : Nat) (r : Results) : Results :=
  FirstSpecies.checkMelodicTritone prevN currN pos r

/-- The body of the per-position loop of the 3rd-species `validate`. -/
def perNoteChecks (cf : List Note) (cp : List (Option Note)) (cpPos : CpPos) (i : Nat)
    (r : Results) : Results :=
  match cp.getD i none with
  | none => r
  | some cpN =>
      let cfN := getCFNote i cf
      let itv := pairInterval cpPos cfN cpN
      let r :=
        if isDownbeat i cp.length then
          let r := checkDownbeatConsonance itv i r
          checkUnison itv i cp.length cp r
        else r
      let r :=
        if isSemiStrong i cp.length then
          checkBeatThreeConsonance itv i cp cf cpPos r
        else r
      let r :=
        if isWeakBeat i cp.length then
          checkWeakBeatDissonance itv i cp cf cpPos r
        else r
      checkVoiceCrossing cfN cpN cpPos i r

/-- Parallel fifths/octaves between consecutive downbeats (error). -/
def checkDownbeatParallels (cf : List Note) (cp : List (Option Note)) (cpPos : CpPos)
    (cpLen : Nat) (r : Results) : Results :=
  let di := getDownbeatIndices cpLen
  (di.zip di.tail).foldl
    (fun r pr =>
      let prevIdx := pr.1
      let currIdx := pr.2
      match cp.getD prevIdx none, cp.getD currIdx none with
      | some prevCp, some currCp =>
          let prevCF := getCFNote prevIdx cf
          let currCF := getCFNote currIdx cf
          let prevItv := pairInterval cpPos prevCF prevCp
          let currItv := pairInterval cpPos currCF currCp
          let motion := getMotionType prevCF currCF prevCp currCp
          let prevPerfect : Bool :=
            Interval.isPerfectConsonance prevItv && !(Interval.nameIs prevItv Quality.P 1)
          let currPerfect : Bool :=
            Interval.isPerfectConsonance currItv && !(Interval.nameIs currItv Quality.P 1)
          if prevPerfect ∧ currPerfect ∧
              Interval.simpleName prevItv = Interval.simpleName currItv ∧
              motion = Motion.similar then
            addErrorAt
              (if Interval.nameIs prevItv Quality.P 5 then "parallel-fifths"
               else "parallel-octaves")
              currIdx r
          else r
      | _, _ => r)
    r

/-- Hidden fifths/octaves between consecutive downbeats (warning). -/
def checkDownbeatHiddenParallels (cf : List Note) (cp : List (Option Note)) (cpPos : CpPos)
    (cpLen : Nat) (r : Results) : Results :=
  let di := getDownbeatIndices cpLen
  (di.zip di.tail).foldl
    (fun r pr =>
      let prevIdx := pr.1
      let currIdx := pr.2
      match cp.getD prevIdx none, cp.getD currIdx none with
      | some prevCp, some currCp =>
          let prevCF := getCFNote prevIdx cf
          let currCF := getCFNote currIdx cf
          let prevItv := pairInterval cpPos prevCF prevCp
          let currItv := pairInterval cpPos currCF currCp
          let motion := getMotionType prevCF currCF prevCp currCp
          let prevPerfect : Bool :=
            Interval.isPerfectConsonance prevItv && !(Interval.nameIs prevItv Quality.P 1)
          let currPerfect : Bool :=
            Interval.isPerfectConsonance currItv && !(Interval.nameIs currItv Quality.P 1)
          if ¬(prevPerfect = true) ∧ currPerfect ∧ motion = Motion.similar then
            let cpItv := Interval.between prevCp currCp
            if ¬(cpItv.simpleGeneric ≤ 2) then
              addWarningAt
                (if Interval.nameIs currItv Quality.P 5 then "hidden-fifths"
                 else "hidden-octaves")
                currIdx r
            else r
          else r
      | _, _ => r)
    r

/-- Similar motion between consecutive downbeats (suggestion). -/
def checkDownbeatMotion (cf : List Note) (cp : List (Option Note)) (cpPos : CpPos)
    (cpLen : Nat) (r : Results) : Results :=
  let di := getDownbeatIndices cpLen
  (di.zip di.tail).foldl
    (fun r pr =>
      let prevIdx := pr.1
      let currIdx := pr.2
      match cp.getD prevIdx none, cp.getD currIdx none with
      | some prevCp, some currCp =>
          let prevCF := getCFNote prevIdx cf
          let currCF := getCFNote currIdx cf
          if getMotionType prevCF currCF prevCp currCp = Motion.similar then
            addSuggestionAt "motion-type" currIdx r
          else r
      | _, _ => r)
    r

/-- Start on a perfect consonance at the first sounding note. -/
def checkStartInterval (cf : List Note) (cp : List (Option Note)) (cpPos : CpPos)
    (r : Results) : Results :=
  let startIdx := firstSoundingIndex cp
  match cp.getD startIdx none with
  | none => r
  | some cpN =>
      let cfN := getCFNote startIdx cf
      if ¬(Interval.isPerfectConsonance (pairInterval cpPos cfN cpN) = true) then
        addErrorAt "start-consonance" startIdx r
      else r

/-- End on unison or octave. -/
def checkEndInterval (cf : List Note) (cp : List (Option Note)) (cpPos : CpPos) (cpLen : Nat)
    (r : Results) : Results :=
  let lastIdx := cpLen - 1
  match cp.getD lastIdx none with
  | none => r
  | some cpN =>
      let cfN := getCFNote lastIdx cf
      let itv := pairInterval cpPos cfN cpN
      if ¬(Interval.nameIs itv Quality.P 1) ∧ ¬(Interval.nameIs itv Quality.P 8) then
        addErrorAt "end-consonance" lastIdx r
      else r

/-- Structural shape check: `cpLen + 3` divisible by 4 (never fires after
the length check; this error site is the one unrecorded in noteResults). -/
def checkLastNoteWhole (cpLen : Nat) (r : Results) : Results :=
  if (cpLen + 3) % 4 ≠ 0 then
    pushError ⟨"consonance", some ((cpLen : Int) - 1), Severity.error⟩ r
  else r

/-- Cadence §34: beat 4 of the penultimate measure wants degree 7 (upper)
or one of 2/5/7 (lower); warning only. -/
def checkCadence (cf : List Note) (cp : List (Option Note)) (key : NoteClass) (mode : Mode)
    (cpPos : CpPos) (cpLen : Nat) (r : Results) : Results :=
  if cpLen < 5 then r
  else
    let penIdx := cpLen - 2
    match cp.getD penIdx none with
    | none => r
    | some pen =>
        let deg := Scale.getDegree pen key mode
        match cpPos with
        | CpPos.upper =>
            if deg ≠ some 7 then addWarningAt "cadence-third-species" penIdx r else r
        | CpPos.lower =>
            if deg ≠ some 2 ∧ deg ≠ some 5 ∧ deg ≠ some 7 then
              addWarningAt "cadence-third-species" penIdx r
            else r

/-- Compound tritones over sounding notes, same scan as second species. -/
def checkCompoundTritones (sn : List SNote) (key : NoteClass) (mode : Mode) (r : Results) :
    Results :=
  SecondSpecies.checkCompoundTritones sn key mode r

/-- One iteration of the prolonged-direction scan (threshold 11). -/
def pdStep (sn : List SNote) (acc : FirstSpecies.PDState × Results) (i : Nat) :
    FirstSpecies.PDState × Results :=
  let st := acc.1
  let r := acc.2
  let direction := Int.sign ((Pitch.toMidi (sn.getD i dfltSNote).note : Int) -
    Pitch.toMidi (sn.getD (i - 1) dfltSNote).note)
  if direction = 0 then (st, r)
  else if direction = st.dir then ({ st with count := st.count + 1 }, r)
  else
    let r :=
      if st.count > 11 then
        pushWarning
          ⟨"prolonged-direction", some ((sn.getD st.startPos dfltSNote).index : Int),
            Severity.warning⟩ r
      else r
    (⟨direction, 1, i - 1⟩, r)

/-- Prolonged direction over sounding notes, threshold 11 for the 4:1
density. -/
def checkProlongedDirection (sn : List SNote) (r : Results) : Results :=
  if sn.length < 4 then r
  else
    let res := (List.range' 1 (sn.length - 1)).foldl (pdStep sn) (⟨0, 1, 0⟩, r)
    if res.1.count > 11 then
      pushWarning
        ⟨"prolonged-direction", some ((sn.getD res.1.startPos dfltSNote).index : Int),
          Severity.warning⟩ res.2
    else res.2

/-- Arpeggio suggestion over sounding notes, same scan as second species. -/
def checkArpeggios (sn : List SNote) (key : NoteClass) (mode : Mode) (r : Results) : Results :=
  SecondSpecies.checkArpeggios sn key mode r

/-- Consecutive note repetition: from the third repeat onwards each
repetition warns (warnings only, no per-note record). -/
def checkNoteRepetition (sn : List SNote) (r : Results) : Results :=
  if sn.length < 3 then r
  else
    let res := (List.range' 1 (sn.length - 1)).foldl
      (fun (acc : Nat × Results) i =>
        let repeatCount := acc.1
        let r := acc.2
        if Pitch.toMidi (sn.getD i dfltSNote).note =
            Pitch.toMidi (sn.getD (i - 1) dfltSNote).note then
          let repeatCount := repeatCount + 1
          if repeatCount ≥ 3 then
            (repeatCount,
              pushWarning
                ⟨"note-repetition", some ((sn.getD i dfltSNote).index : Int),
                  Severity.warning⟩ r)
          else (repeatCount, r)
        else (1, r))
      (1, r)
    res.2

/-- Third-species `calculateScore`: 100 minus 8 per error, 3 per warning,
1 per suggestion, floored at 0. -/
def calculateScore (r : Results) : Int :=
  max 0 (100 - (r.errors.length : Int) * 8 - (r.warnings.length : Int) * 3 -
    (r.suggestions.length : Int))

/-- ThirdSpeciesValidator.validate (total: every array access on the
post-length-check path is guarded in the source). -/
def validate (ex : Exercise2) : Results :=
  let cf := ex.cantusFirmus
  let cp := ex.counterpoint
  let cfLen := cf.length
  let cpLen := cp.length
  if (cpLen : Int) ≠ 4 * (cfLen : Int) - 3 then lengthErrorResults
  else
    let r := initResults cpLen
    let r := checkAnacrusis cp cpLen r
    let sounding := getSoundingNotes cp
    let r := (List.range cpLen).foldl (fun r i => perNoteChecks cf cp ex.cpPosition i r) r
    let r := (sounding.zip sounding.tail).foldl
      (fun r pr => checkMelodicTritone pr.1.note pr.2.note pr.2.index r) r
    let r := checkDownbeatParallels cf cp ex.cpPosition cpLen r
    let r := checkDownbeatHiddenParallels cf cp ex.cpPosition cpLen r
    let r := checkDownbeatMotion cf cp ex.cpPosition cpLen r
    let r := checkStartInterval cf cp ex.cpPosition r
    let r := checkEndInterval cf cp ex.cpPosition cpLen r
    let r := checkLastNoteWhole cpLen r
    let r := checkCadence cf cp ex.key ex.mode ex.cpPosition cpLen r
    let r := checkCompoundTritones sounding ex.key ex.mode r
    let r := checkProlongedDirection sounding r
    let r := checkArpeggios sounding ex.key ex.mode r
    let r := checkNoteRepetition sounding r
    { r with score := calculateScore r, valid := r.errors.isEmpty }

end ThirdSpecies

/-! Concrete notes and keys used by witnesses and counterexamples. -/

def noteC4 : Note := ⟨0, Accidental.natural, 4⟩
def noteD4 : Note := ⟨1, Accidental.natural, 4⟩
def noteE4 : Note := ⟨2, Accidental.natural, 4⟩
def noteF4 : Note := ⟨3, Accidental.natural, 4⟩
def noteG4 : Note := ⟨4, Accidental.natural, 4⟩
def noteA4 : Note := ⟨5, Accidental.natural, 4⟩
def noteB4 : Note := ⟨6, Accidental.natural, 4⟩
def noteC5 : Note := ⟨0, Accidental.natural, 5⟩
def noteD5 : Note := ⟨1, Accidental.natural, 5⟩
def noteA5 : Note := ⟨5, Accidental.natural, 5⟩
def noteG3 : Note := ⟨4, Accidental.natural, 3⟩
def noteA3 : Note := ⟨5, Accidental.natural, 3⟩
def noteB3 : Note := ⟨6, Accidental.natural, 3⟩
def keyC : NoteClass := ⟨0, Accidental.natural⟩

/-! Claim-level definitions: observation functions, claim-side
predicates and concrete exercises used by the claim theorems, their
witnesses and counterexamples. -/

/-- Default used only to name the payload of a `some` result. -/
def emptyResults : Results := ⟨true, 100, [], [], [], []⟩

/-- Concrete exercises for the C7 witness. -/
def c7exFirst : Exercise1 := ⟨[noteC4, noteD4], [noteG4, noteA4], keyC, Mode.major, CpPos.upper⟩

def c7exThird : Exercise2 :=
  ⟨[noteC4, noteC4], [some noteC5, some noteB4, some noteA4, some noteG4, some noteC5],
    keyC, Mode.major, CpPos.upper⟩

def isRangeIssue (iss : Issue) : Bool := iss.rule == "range"

/-- The range-rule issues of the three severity lists. -/
def rangeFilt (r : Results) : List Issue × List Issue × List Issue :=
  (r.errors.filter isRangeIssue, r.warnings.filter isRangeIssue,
    r.suggestions.filter isRangeIssue)

namespace FirstSpecies

/-- Does the counterpoint span exceed 19 semitones (the `range > 19` test of
`checkRange`, over a list of MIDI numbers)? -/
def rangeSpanExceeded (ms : List Nat) : Bool :=
  match ms with
  | [] => false
  | m :: tl => decide (tl.foldl Nat.max m - tl.foldl Nat.min m > 19)

end FirstSpecies

/-- The default `noteResults` entry used for out-of-range reads. -/
def dfltNR : NoteResult := ⟨true, []⟩

/-- Every error whose position is a valid index also sits in that
position's `noteResults` entry. -/
def errsTracked (r : Results) : Prop :=
  ∀ iss ∈ r.errors, ∀ q : Int, iss.position = some q → 0 ≤ q →
    iss ∈ (r.noteResults.getD q.toNat dfltNR).issues

/-- Loop invariant for claim C8: the per-note table keeps its length and
every positioned error is recorded in it. -/
def trackInv (n : Nat) (r : Results) : Prop :=
  r.noteResults.length = n ∧ errsTracked r

/-- The error list and the per-note table: the data `trackInv` observes. -/
def enPair (r : Results) : List Issue × List NoteResult := (r.errors, r.noteResults)

/-- The passing-tone acceptance condition exactly as the claim states it:
previous and next positions hold non-rest notes, approach and departure are
generic intervals of at most a second, both moves share one non-zero
direction, and the previous and next notes are consonant against their
aligned CF notes (`measure` maps counterpoint indices to CF indices). -/
def passingToneSpec (measure : Nat → Nat) (cpIndex : Nat) (cp : List (Option Note))
    (cf : List Note) (cpPos : CpPos) : Prop :=
  ∃ cur prev next,
    cp.getD cpIndex none = some cur ∧
    cp.getD (cpIndex - 1) none = some prev ∧
    cp.getD (cpIndex + 1) none = some next ∧
    (Interval.between prev cur).simpleGeneric ≤ 2 ∧
    (Interval.between cur next).simpleGeneric ≤ 2 ∧
    Int.sign ((Pitch.toMidi cur : Int) - Pitch.toMidi prev) =
      Int.sign ((Pitch.toMidi next : Int) - Pitch.toMidi cur) ∧
    Int.sign ((Pitch.toMidi cur : Int) - Pitch.toMidi prev) ≠ 0 ∧
    Interval.isConsonant
      (pairInterval cpPos (cf.getD (measure (cpIndex - 1)) dfltNote) prev) = true ∧
    Interval.isConsonant
      (pairInterval cpPos (cf.getD (measure (cpIndex + 1)) dfltNote) next) = true

/-- The cambiata window condition exactly as the claim states it: a 5-note
all-sounding window starting at `s`, first motion a generic second and
second motion a generic third in one direction, then two generic seconds in
the opposite direction (both mirror forms), first and last notes consonant
against their aligned CF notes, last note not a tritone with its CF
note. -/
def cambiataWindowSpec (s : Int) (cp : List (Option Note)) (cf : List Note)
    (cpPos : CpPos) : Prop :=
  0 ≤ s ∧ s + 4 < (cp.length : Int) ∧
  ∃ n1 n2 n3 n4 n5,
    cp.getD s.toNat none = some n1 ∧
    cp.getD (s.toNat + 1) none = some n2 ∧
    cp.getD (s.toNat + 2) none = some n3 ∧
    cp.getD (s.toNat + 3) none = some n4 ∧
    cp.getD (s.toNat + 4) none = some n5 ∧
    (((Interval.between n1 n2).simpleGeneric = 2 ∧ (Pitch.toMidi n2 : Int) < Pitch.toMidi n1 ∧
      (Interval.between n2 n3).simpleGeneric = 3 ∧ (Pitch.toMidi n3 : Int) < Pitch.toMidi n2 ∧
      (Interval.between n3 n4).simpleGeneric = 2 ∧ (Pitch.toMidi n3 : Int) < Pitch.toMidi n4 ∧
      (Interval.between n4 n5).simpleGeneric = 2 ∧ (Pitch.toMidi n4 : Int) < Pitch.toMidi n5) ∨
     ((Interval.between n1 n2).simpleGeneric = 2 ∧ (Pitch.toMidi n1 : Int) < Pitch.toMidi n2 ∧
      (Interval.between n2 n3).simpleGeneric = 3 ∧ (Pitch.toMidi n2 : Int) < Pitch.toMidi n3 ∧
      (Interval.between n3 n4).simpleGeneric = 2 ∧ (Pitch.toMidi n4 : Int) < Pitch.toMidi n3 ∧
      (Interval.between n4 n5).simpleGeneric = 2 ∧ (Pitch.toMidi n5 : Int) < Pitch.toMidi n4)) ∧
    Interval.isConsonant (pairInterval cpPos (ThirdSpecies.getCFNote s.toNat cf) n1) = true ∧
    Interval.isConsonant
      (pairInterval cpPos (ThirdSpecies.getCFNote (s.toNat + 4) cf) n5) = true ∧
    Interval.isTritone
      (pairInterval cpPos (ThirdSpecies.getCFNote (s.toNat + 4) cf) n5) = false

/-- Concrete cambiata data for the C4 witness: the descending cambiata
C5-B4-G4-A4-B4 against CF C4, E4. -/
def c4cp : List (Option Note) :=
  [some noteC5, some noteB4, some noteG4, some noteA4, some noteB4]

/-- Third-species exercise whose counterpoint spans 21 semitones
(C4 = 60 up to A5 = 81): the C6 counterexample input. -/
def c6ex : Exercise2 :=
  ⟨[noteC4, noteC4], [some noteC4, some noteA5, some noteC4, some noteC4, some noteC4],
    keyC, Mode.major, CpPos.upper⟩

/-- First-species exercise spanning 21 semitones, for the C6 witness. -/
def c6exFirst : Exercise1 :=
  ⟨[noteC4, noteD4, noteC4], [noteC4, noteA5, noteC4], keyC, Mode.major, CpPos.upper⟩

/-- Second-species exercise spanning 21 semitones, for the C6 witness. -/
def c6exSecond : Exercise2 :=
  ⟨[noteC4, noteD4], [some noteC4, some noteA5, some noteC4], keyC, Mode.major, CpPos.upper⟩

/-- First-species exercise whose compound-tritone scan fires at position 0:
the C8 counterexample input. -/
def c8ex : Exercise1 :=
  ⟨[noteA3, noteB3, noteG3], [noteF4, noteG4, noteB4], keyC, Mode.major, CpPos.upper⟩

/-- Second-species exercise for the C8 witness. -/
def c8exSecond : Exercise2 :=
  ⟨[noteC4, noteD4], [some noteG4, some noteA4, some noteG4], keyC, Mode.major, CpPos.upper⟩

/-- Third-species exercise for the C8 witness. -/
def c8exThird : Exercise2 :=
  ⟨[noteC4, noteC4], [some noteC5, some noteB4, some noteA4, some noteG4, some noteC5],
    keyC, Mode.major, CpPos.upper⟩

/-! Embedding sanity checks. -/

example : Pitch.toMidi ⟨0, Accidental.natural, 4⟩ = 60 := by decide

example : Pitch.toMidi ⟨0, Accidental.flat, 4⟩ = 71 := by decide

example : Interval.isTritone (Interval.between ⟨3, Accidental.natural, 4⟩ ⟨6, Accidental.natural, 4⟩) = true := by
  decide

example : Interval.isConsonant (Interval.between ⟨0, Accidental.natural, 4⟩ ⟨2, Accidental.natural, 4⟩) = true := by
  decide

example : Scale.getDegree ⟨6, Accidental.natural, 4⟩ ⟨0, Accidental.natural⟩ Mode.major = some 7 := by
  decide

example : Pitch.fromMidi 0 = "C-1" := by decide

example : Pitch.toMidiStr "C-1" = none := by decide

example : Pitch.toMidiStr (Pitch.fromMidi 61) = some 61 := by decide

/-! Projection lemmas for the push/mark primitives. -/

@[simp] theorem errors_pushError (iss : Issue) (r : Results) :
    (pushError iss r).errors = r.errors ++ [iss] := rfl

@[simp] theorem warnings_pushError (iss : Issue) (r : Results) :
    (pushError iss r).warnings = r.warnings := rfl

@[simp] theorem suggestions_pushError (iss : Issue) (r : Results) :
    (pushError iss r).suggestions = r.suggestions := rfl

@[simp] theorem noteResults_pushError (iss : Issue) (r : Results) :
    (pushError iss r).noteResults = r.noteResults := rfl

@[simp] theorem errors_pushWarning (iss : Issue) (r : Results) :
    (pushWarning iss r).errors = r.errors := rfl

@[simp] theorem warnings_pushWarning (iss : Issue) (r : Results) :
    (pushWarning iss r).warnings = r.warnings ++ [iss] := rfl

@[simp] theorem suggestions_pushWarning (iss : Issue) (r : Results) :
    (pushWarning iss r).suggestions = r.suggestions := rfl

@[simp] theorem noteResults_pushWarning (iss : Issue) (r : Results) :
    (pushWarning iss r).noteResults = r.noteResults := rfl

@[simp] theorem errors_pushSuggestion (iss : Issue) (r : Results) :
    (pushSuggestion iss r).errors = r.errors := rfl

@[simp] theorem warnings_pushSuggestion (iss : Issue) (r : Results) :
    (pushSuggestion iss r).warnings = r.warnings := rfl

@[simp] theorem suggestions_pushSuggestion (iss : Issue) (r : Results) :
    (pushSuggestion iss r).suggestions = r.suggestions ++ [iss] := rfl

@[simp] theorem noteResults_pushSuggestion (iss : Issue) (r : Results) :
    (pushSuggestion iss r).noteResults = r.noteResults := rfl

@[simp] theorem errors_markIssue (p : Nat) (iss : Issue) (r : Results) :
    (markIssue p iss r).errors = r.errors := rfl

@[simp] theorem warnings_markIssue (p : Nat) (iss : Issue) (r : Results) :
    (markIssue p iss r).warnings = r.warnings := rfl

@[simp] theorem suggestions_markIssue (p : Nat) (iss : Issue) (r : Results) :
    (markIssue p iss r).suggestions = r.suggestions := rfl

@[simp] theorem errors_markInvalid (p : Nat) (r : Results) :
    (markInvalid p r).errors = r.errors := rfl

@[simp] theorem warnings_markInvalid (p : Nat) (r : Results) :
    (markInvalid p r).warnings = r.warnings := rfl

@[simp] theorem suggestions_markInvalid (p : Nat) (r : Results) :
    (markInvalid p r).suggestions = r.suggestions := rfl

@[simp] theorem errors_addErrorAt (rule : String) (p : Nat) (r : Results) :
    (addErrorAt rule p r).errors = r.errors ++ [⟨rule, some (p : Int), Severity.error⟩] := rfl

@[simp] theorem warnings_addErrorAt (rule : String) (p : Nat) (r : Results) :
    (addErrorAt rule p r).warnings = r.warnings := rfl

@[simp] theorem suggestions_addErrorAt (rule : String) (p : Nat) (r : Results) :
    (addErrorAt rule p r).suggestions = r.suggestions := rfl

@[simp] theorem errors_addWarningAt (rule : String) (p : Nat) (r : Results) :
    (addWarningAt rule p r).errors = r.errors := rfl

@[simp] theorem warnings_addWarningAt (rule : String) (p : Nat) (r : Results) :
    (addWarningAt rule p r).warnings =
      r.warnings ++ [⟨rule, some (p : Int), Severity.warning⟩] := rfl

@[simp] theorem suggestions_addWarningAt (rule : String) (p : Nat) (r : Results) :
    (addWarningAt rule p r).suggestions = r.suggestions := rfl

@[simp] theorem errors_addSuggestionAt (rule : String) (p : Nat) (r : Results) :
    (addSuggestionAt rule p r).errors = r.errors := rfl

@[simp] theorem warnings_addSuggestionAt (rule : String) (p : Nat) (r : Results) :
    (addSuggestionAt rule p r).warnings = r.warnings := rfl

@[simp] theorem suggestions_addSuggestionAt (rule : String) (p : Nat) (r : Results) :
    (addSuggestionAt rule p r).suggestions =
      r.suggestions ++ [⟨rule, some (p : Int), Severity.suggestion⟩] := rfl

/-! Claim C1: a counterpoint length violating the species formula
short-circuits `validate` with a single fatal LENGTH error. -/

/-- C1.  For every exercise whose counterpoint length differs from the
species formula (`len(CF)` in first species, `2*len(CF)-1` in second,
`4*len(CF)-3` in third), `validate` returns `valid = false` with exactly one
error, whose rule is `LENGTH` and which carries no position, and with no
warnings, suggestions or per-position results. -/
theorem c1_length_short_circuit :
    lengthErrorResults.valid = false ∧
    lengthErrorResults.errors = [⟨"LENGTH", none, Severity.error⟩] ∧
    lengthErrorResults.warnings = [] ∧
    lengthErrorResults.suggestions = [] ∧
    lengthErrorResults.noteResults = [] ∧
    (∀ ex : Exercise1, ex.cantusFirmus.length ≠ ex.counterpoint.length →
      FirstSpecies.validate ex = some lengthErrorResults) ∧
    (∀ ex : Exercise2, (ex.counterpoint.length : Int) ≠ 2 * (ex.cantusFirmus.length : Int) - 1 →
      SecondSpecies.validate ex = some lengthErrorResults) ∧
    (∀ ex : Exercise2, (ex.counterpoint.length : Int) ≠ 4 * (ex.cantusFirmus.length : Int) - 3 →
      ThirdSpecies.validate ex = lengthErrorResults) := by
  refine ⟨rfl, rfl, rfl, rfl, rfl, ?_, ?_, ?_⟩
  · intro ex h
    simp only [FirstSpecies.validate]
    rw [if_neg h]
  · intro ex h
    simp only [SecondSpecies.validate]
    rw [if_pos h]
  · intro ex h
    simp only [ThirdSpecies.validate]
    rw [if_pos h]

/-- C1 witness: concrete mismatched exercises in every species. -/
theorem c1_length_short_circuit_witness :
    FirstSpecies.validate ⟨[noteC4, noteD4], [noteG4], keyC, Mode.major, CpPos.upper⟩ =
      some lengthErrorResults ∧
    SecondSpecies.validate ⟨[noteC4, noteD4], [some noteG4], keyC, Mode.major, CpPos.upper⟩ =
      some lengthErrorResults ∧
    ThirdSpecies.validate ⟨[noteC4, noteD4], [some noteG4], keyC, Mode.major, CpPos.upper⟩ =
      lengthErrorResults := by
  refine ⟨?_, ?_, ?_⟩
  · exact c1_length_short_circuit.2.2.2.2.2.1 _ (by decide)
  · exact c1_length_short_circuit.2.2.2.2.2.2.1 _ (by decide)
  · exact c1_length_short_circuit.2.2.2.2.2.2.2 _ (by decide)

/-! Claim C9: the MIDI round trip. -/

/-- C9 counterexample: the claimed round trip fails at semitone index 0.
`fromMidi 0` spells `"C-1"`, whose octave is not a single digit, so
`Pitch.parse` throws (`none`) instead of recovering 0. -/
theorem c9_roundtrip_counterexample :
    Pitch.fromMidi 0 = "C-1" ∧
    Pitch.toMidiStr (Pitch.fromMidi 0) = none ∧
    Pitch.toMidiStr (Pitch.fromMidi 0) ≠ some 0 := by
  refine ⟨by decide, by decide, by decide⟩

/-- C9 amended: the round trip `toMidi (fromMidi i) = i` holds exactly on
the indices whose `fromMidi` spelling has a non-negative octave, i.e.
`12 ≤ i ≤ 127`; below 12 the spelling uses octave `-1` and parsing fails. -/
theorem c9_roundtrip_amended :
    ∀ i : Nat, i < 128 → 12 ≤ i → Pitch.toMidiStr (Pitch.fromMidi i) = some i := by
  decide

/-- C9 witness: the amended round trip at index 60 (middle C). -/
theorem c9_roundtrip_witness : Pitch.toMidiStr (Pitch.fromMidi 60) = some 60 :=
  c9_roundtrip_amended 60 (by decide) (by decide)

/-! Claim C10: `validate` is not total on the zero-length exercise. -/

/-- C10.  The empty exercise satisfies the first-species length precondition
(`len(CF) = len(CP) = 0`), yet `FirstSpeciesValidator.validate` does not
return a result: the start-interval check reads the non-existent first note
and `Pitch.parse` fails on it, modelled here by `none`. -/
theorem c10_empty_exercise_not_total :
    (([] : List Note).length = ([] : List Note).length) ∧
    FirstSpecies.validate ⟨[], [], keyC, Mode.major, CpPos.upper⟩ = none :=
  ⟨rfl, rfl⟩

/-! Claim C2: classifyDissonance dispatch. -/

/-- C2.  In the third-species engine, `classifyDissonance` is invalid on
every downbeat position regardless of context; on a semi-strong position it
is valid iff the note is a valid strong-beat passing tone or a member of a
valid cambiata; on a weak position it is valid iff the note is a valid
passing tone or a member of a valid cambiata; every other position is
invalid. -/
theorem c2_classify_dissonance :
    ∀ (cp : List (Option Note)) (cf : List Note) (cpPos : CpPos) (i : Nat),
      (ThirdSpecies.isDownbeat i cp.length = true →
        ThirdSpecies.classifyDissonance i cp cf cpPos = ⟨"invalid", false⟩) ∧
      (ThirdSpecies.isSemiStrong i cp.length = true →
        ((ThirdSpecies.classifyDissonance i cp cf cpPos).valid = true ↔
          (ThirdSpecies.isStrongBeatPassingTone i cp cf cpPos = true ∨
            ThirdSpecies.isCambiata i cp cf cpPos = true))) ∧
      (ThirdSpecies.isWeakBeat i cp.length = true →
        ((ThirdSpecies.classifyDissonance i cp cf cpPos).valid = true ↔
          (ThirdSpecies.isPassingTone i cp cf cpPos = true ∨
            ThirdSpecies.isCambiata i cp cf cpPos = true))) ∧
      (ThirdSpecies.isDownbeat i cp.length = false →
        ThirdSpecies.isSemiStrong i cp.length = false →
        ThirdSpecies.isWeakBeat i cp.length = false →
        ThirdSpecies.classifyDissonance i cp cf cpPos = ⟨"invalid", false⟩) := by
  intro cp cf cpPos i
  refine ⟨?_, ?_, ?_, ?_⟩
  · intro h
    simp [ThirdSpecies.classifyDissonance, h]
  · intro h
    simp only [ThirdSpecies.isSemiStrong, Bool.and_eq_true, beq_iff_eq,
      Bool.not_eq_true', beq_eq_false_iff_ne, ne_eq] at h
    have hd : ThirdSpecies.isDownbeat i cp.length = false := by
      simp only [ThirdSpecies.isDownbeat, Bool.or_eq_false_iff, beq_eq_false_iff_ne, ne_eq]
      omega
    have hs : ThirdSpecies.isSemiStrong i cp.length = true := by
      simp only [ThirdSpecies.isSemiStrong, Bool.and_eq_true, beq_iff_eq,
        Bool.not_eq_true', beq_eq_false_iff_ne, ne_eq]
      omega
    simp only [ThirdSpecies.classifyDissonance, hd, hs, Bool.false_eq_true, if_false, if_true]
    cases hspt : ThirdSpecies.isStrongBeatPassingTone i cp cf cpPos <;>
      cases hcam : ThirdSpecies.isCambiata i cp cf cpPos <;> simp [hspt, hcam]
  · intro h
    simp only [ThirdSpecies.isWeakBeat, Bool.and_eq_true, Bool.or_eq_true, beq_iff_eq,
      Bool.not_eq_true', beq_eq_false_iff_ne, ne_eq] at h
    have hd : ThirdSpecies.isDownbeat i cp.length = false := by
      simp only [ThirdSpecies.isDownbeat, Bool.or_eq_false_iff, beq_eq_false_iff_ne, ne_eq]
      omega
    have hs : ThirdSpecies.isSemiStrong i cp.length = false := by
      simp only [ThirdSpecies.isSemiStrong, Bool.and_eq_false_iff, beq_eq_false_iff_ne, ne_eq,
        Bool.not_eq_false', beq_iff_eq]
      omega
    have hw : ThirdSpecies.isWeakBeat i cp.length = true := by
      simp only [ThirdSpecies.isWeakBeat, Bool.and_eq_true, Bool.or_eq_true, beq_iff_eq,
        Bool.not_eq_true', beq_eq_false_iff_ne, ne_eq]
      omega
    simp only [ThirdSpecies.classifyDissonance, hd, hs, hw, Bool.false_eq_true, if_false,
      if_true]
    cases hpt : ThirdSpecies.isPassingTone i cp cf cpPos <;>
      cases hcam : ThirdSpecies.isCambiata i cp cf cpPos <;> simp [hpt, hcam]
  · intro h1 h2 h3
    simp [ThirdSpecies.classifyDissonance, h1, h2, h3]

/-- C2 witness: a concrete downbeat position classifies as invalid. -/
theorem c2_classify_dissonance_witness :
    ThirdSpecies.classifyDissonance 0 [some noteC4] [noteC4] CpPos.upper = ⟨"invalid", false⟩ :=
  (c2_classify_dissonance [some noteC4] [noteC4] CpPos.upper 0).1 (by decide)

/-! Claim C7: score formula and validity. -/

theorem list_isEmpty_iff {α : Type} (l : List α) : l.isEmpty = true ↔ l = [] := by
  cases l <;> simp

/-- C7.  For every exercise that passes the length check (and for which the
JS code returns at all, i.e. `validate` yields a result), the score is
`max 0 (100 - wE*errors - wW*warnings - suggestions)` with per-species
weights (15,5), (10,4), (8,3), and `valid` holds exactly when the error
list is empty, independently of the score. -/
theorem c7_score_and_valid :
    (∀ (ex : Exercise1) (r : Results),
      ex.cantusFirmus.length = ex.counterpoint.length →
      FirstSpecies.validate ex = some r →
      r.score = max 0 (100 - (r.errors.length : Int) * 15 - (r.warnings.length : Int) * 5 -
        (r.suggestions.length : Int)) ∧
      (r.valid = true ↔ r.errors = [])) ∧
    (∀ (ex : Exercise2) (r : Results),
      (ex.counterpoint.length : Int) = 2 * (ex.cantusFirmus.length : Int) - 1 →
      SecondSpecies.validate ex = some r →
      r.score = max 0 (100 - (r.errors.length : Int) * 10 - (r.warnings.length : Int) * 4 -
        (r.suggestions.length : Int)) ∧
      (r.valid = true ↔ r.errors = [])) ∧
    (∀ (ex : Exercise2) (r : Results),
      (ex.counterpoint.length : Int) = 4 * (ex.cantusFirmus.length : Int) - 3 →
      ThirdSpecies.validate ex = r →
      r.score = max 0 (100 - (r.errors.length : Int) * 8 - (r.warnings.length : Int) * 3 -
        (r.suggestions.length : Int)) ∧
      (r.valid = true ↔ r.errors = [])) := by
  refine ⟨?_, ?_, ?_⟩
  · intro ex r hlen hv
    simp only [FirstSpecies.validate] at hv
    rw [if_pos hlen] at hv
    split at hv
    · exact absurd hv (by simp)
    · rw [Option.some.injEq] at hv
      subst hv
      exact ⟨rfl, list_isEmpty_iff _⟩
  · intro ex r hlen hv
    simp only [SecondSpecies.validate] at hv
    rw [if_neg (by omega)] at hv
    split at hv
    · exact absurd hv (by simp)
    · rw [Option.some.injEq] at hv
      subst hv
      exact ⟨rfl, list_isEmpty_iff _⟩
  · intro ex r hlen hv
    simp only [ThirdSpecies.validate] at hv
    rw [if_neg (by omega)] at hv
    subst hv
    exact ⟨rfl, list_isEmpty_iff _⟩

/-- C7 witness: the score/validity contract at concrete exercises of the
first and third species. -/
theorem c7_score_and_valid_witness :
    (((FirstSpecies.validate c7exFirst).getD emptyResults).score =
      max 0 (100 - (((FirstSpecies.validate c7exFirst).getD emptyResults).errors.length : Int) * 15 -
        (((FirstSpecies.validate c7exFirst).getD emptyResults).warnings.length : Int) * 5 -
        (((FirstSpecies.validate c7exFirst).getD emptyResults).suggestions.length : Int)) ∧
      (((FirstSpecies.validate c7exFirst).getD emptyResults).valid = true ↔
        ((FirstSpecies.validate c7exFirst).getD emptyResults).errors = [])) ∧
    ((ThirdSpecies.validate c7exThird).score =
      max 0 (100 - ((ThirdSpecies.validate c7exThird).errors.length : Int) * 8 -
        ((ThirdSpecies.validate c7exThird).warnings.length : Int) * 3 -
        ((ThirdSpecies.validate c7exThird).suggestions.length : Int)) ∧
      ((ThirdSpecies.validate c7exThird).valid = true ↔
        (ThirdSpecies.validate c7exThird).errors = [])) :=
  ⟨c7_score_and_valid.1 c7exFirst _ (by decide) rfl,
    c7_score_and_valid.2.2 c7exThird _ (by decide) rfl⟩

/-! Range-issue bookkeeping, used by claim C6. -/

theorem foldl_invariant {α β γ : Type} (g : β → γ) (f : β → α → β) (l : List α) (b : β)
    (h : ∀ b a, g (f b a) = g b) : g (l.foldl f b) = g b := by
  induction l generalizing b with
  | nil => rfl
  | cons x xs ih => exact (ih (f b x)).trans (h b x)

@[simp] theorem isRangeIssue_mk (rule : String) (p : Option Int) (s : Severity) :
    isRangeIssue ⟨rule, p, s⟩ = (rule == "range") := rfl

@[simp] theorem rangeFilt_ite (c : Prop) [Decidable c] (a b : Results) :
    rangeFilt (if c then a else b) = if c then rangeFilt a else rangeFilt b := by
  split <;> rfl

@[simp] theorem beq_ite_string (c : Prop) [Decidable c] (a b s : String) :
    ((if c then a else b) == s) = (if c then a == s else b == s) := by
  split <;> rfl

@[simp] theorem snd_ite {α β : Type} (c : Prop) [Decidable c] (a b : α × β) :
    (if c then a else b).2 = if c then a.2 else b.2 := by
  split <;> rfl

@[simp] theorem rangeFilt_pushError (iss : Issue) (r : Results)
    (h : isRangeIssue iss = false) : rangeFilt (pushError iss r) = rangeFilt r := by
  simp [rangeFilt, pushError, List.filter_append, h]

@[simp] theorem rangeFilt_pushWarning (iss : Issue) (r : Results)
    (h : isRangeIssue iss = false) : rangeFilt (pushWarning iss r) = rangeFilt r := by
  simp [rangeFilt, pushWarning, List.filter_append, h]

@[simp] theorem rangeFilt_pushSuggestion (iss : Issue) (r : Results)
    (h : isRangeIssue iss = false) : rangeFilt (pushSuggestion iss r) = rangeFilt r := by
  simp [rangeFilt, pushSuggestion, List.filter_append, h]

@[simp] theorem rangeFilt_markIssue (p : Nat) (iss : Issue) (r : Results) :
    rangeFilt (markIssue p iss r) = rangeFilt r := rfl

@[simp] theorem rangeFilt_markInvalid (p : Nat) (r : Results) :
    rangeFilt (markInvalid p r) = rangeFilt r := rfl

@[simp] theorem rangeFilt_addErrorAt (rule : String) (p : Nat) (r : Results)
    (h : (rule == "range") = false) : rangeFilt (addErrorAt rule p r) = rangeFilt r := by
  simp [addErrorAt, rangeFilt, pushError, markIssue, markInvalid, List.filter_append,
    isRangeIssue, h]

@[simp] theorem rangeFilt_addWarningAt (rule : String) (p : Nat) (r : Results)
    (h : (rule == "range") = false) : rangeFilt (addWarningAt rule p r) = rangeFilt r := by
  simp [addWarningAt, rangeFilt, pushWarning, markIssue, List.filter_append, isRangeIssue, h]

@[simp] theorem rangeFilt_addSuggestionAt (rule : String) (p : Nat) (r : Results)
    (h : (rule == "range") = false) : rangeFilt (addSuggestionAt rule p r) = rangeFilt r := by
  simp [addSuggestionAt, rangeFilt, pushSuggestion, markIssue, List.filter_append,
    isRangeIssue, h]

@[simp] theorem rangeFilt_finalize (v : Bool) (s : Int) (r : Results) :
    rangeFilt { r with score := s, valid := v } = rangeFilt r := rfl

@[simp] theorem rangeFilt_initResults (n : Nat) : rangeFilt (initResults n) = ([], [], []) := by
  simp [rangeFilt, initResults]

@[simp] theorem rangeFilt_lengthErrorResults : rangeFilt lengthErrorResults = ([], [], []) := by
  simp [rangeFilt, lengthErrorResults, isRangeIssue, List.filter]

namespace FirstSpecies

@[simp] theorem rangeFilt_checkConsonance (itv : Interval.Itv) (pos : Nat) (r : Results) :
    rangeFilt (checkConsonance itv pos r) = rangeFilt r := by
  simp [checkConsonance]

@[simp] theorem rangeFilt_checkUnison (itv : Interval.Itv) (pos len : Nat) (r : Results) :
    rangeFilt (checkUnison itv pos len r) = rangeFilt r := by
  simp [checkUnison]

@[simp] theorem rangeFilt_checkVoiceCrossing (cfN cpN : Note) (cpPos : CpPos) (pos : Nat)
    (r : Results) : rangeFilt (checkVoiceCrossing cfN cpN cpPos pos r) = rangeFilt r := by
  simp [checkVoiceCrossing]

@[simp] theorem rangeFilt_checkParallels (prevItv currItv : Interval.Itv)
    (prevCf currCf prevCp currCp : Note) (pos : Nat) (r : Results) :
    rangeFilt (checkParallels prevItv currItv prevCf currCf prevCp currCp pos r) =
      rangeFilt r := by
  simp [checkParallels]

@[simp] theorem rangeFilt_checkMelodicTritone (prevN currN : Note) (pos : Nat) (r : Results) :
    rangeFilt (checkMelodicTritone prevN currN pos r) = rangeFilt r := by
  simp [checkMelodicTritone]

@[simp] theorem rangeFilt_analyzeMotion (prevCf currCf prevCp currCp : Note) (pos : Nat)
    (r : Results) : rangeFilt (analyzeMotion prevCf currCf prevCp currCp pos r) =
      rangeFilt r := by
  simp [analyzeMotion]

@[simp] theorem rangeFilt_checkStepwise (prevN currN : Note) (pos : Nat) (r : Results) :
    rangeFilt (checkStepwise prevN currN pos r) = rangeFilt r := by
  simp [checkStepwise]

@[simp] theorem rangeFilt_perNoteChecks (cf cp : List Note) (cpPos : CpPos) (i : Nat)
    (r : Results) : rangeFilt (perNoteChecks cf cp cpPos i r) = rangeFilt r := by
  simp [perNoteChecks]

@[simp] theorem rangeFilt_checkStartInterval (cfN cpN : Note) (cpPos : CpPos) (r : Results) :
    rangeFilt (checkStartInterval cfN cpN cpPos r) = rangeFilt r := by
  simp [checkStartInterval]

@[simp] theorem rangeFilt_checkEndInterval (cf cp : List Note) (key : NoteClass) (mode : Mode)
    (cpPos : CpPos) (r : Results) :
    rangeFilt (checkEndInterval cf cp key mode cpPos r) = rangeFilt r := by
  rcases cpPos <;> simp [checkEndInterval]

theorem rangeFilt_checkRange (cp : List Note) (r : Results) :
    rangeFilt (checkRange cp r) =
      ((rangeFilt r).1,
        (rangeFilt r).2.1 ++
          (if rangeSpanExceeded (cp.map Pitch.toMidi) then
            [⟨"range", some (-1), Severity.warning⟩]
          else []),
        (rangeFilt r).2.2) := by
  unfold checkRange
  rcases hm : cp.map Pitch.toMidi with _ | ⟨m, tl⟩
  · simp [rangeFilt, rangeSpanExceeded]
  · simp only [rangeSpanExceeded]
    by_cases h : 19 < List.foldl Nat.max m tl - List.foldl Nat.min m tl
    · rw [if_pos h, if_pos (decide_eq_true h)]
      simp [rangeFilt, pushWarning, List.filter_append]
    · rw [if_neg h, if_neg (fun hc => h (of_decide_eq_true hc))]
      simp

@[simp] theorem rangeFilt_checkCompoundTritones (cp : List Note) (key : NoteClass)
    (mode : Mode) (r : Results) :
    rangeFilt (checkCompoundTritones cp key mode r) = rangeFilt r := by
  unfold checkCompoundTritones
  split
  · rfl
  · apply foldl_invariant
    intro b a
    simp

@[simp] theorem rangeFilt_checkCompoundDissonantLeaps (cp : List Note) (r : Results) :
    rangeFilt (checkCompoundDissonantLeaps cp r) = rangeFilt r := by
  unfold checkCompoundDissonantLeaps
  split
  · rfl
  · apply foldl_invariant
    intro b a
    simp

@[simp] theorem rangeFilt_checkBattutaParallels (cf cp : List Note) (cpPos : CpPos)
    (r : Results) : rangeFilt (checkBattutaParallels cf cp cpPos r) = rangeFilt r := by
  unfold checkBattutaParallels
  split
  · rfl
  · apply foldl_invariant
    intro b a
    dsimp only
    split
    · rfl
    · apply foldl_invariant
      intro b2 a2
      simp

@[simp] theorem rangeFilt_pdStep (cp : List Note) (x : PDState × Results) (i : Nat) :
    rangeFilt (pdStep cp x i).2 = rangeFilt x.2 := by
  simp [pdStep]

@[simp] theorem rangeFilt_checkProlongedDirection (cp : List Note) (r : Results) :
    rangeFilt (checkProlongedDirection cp r) = rangeFilt r := by
  unfold checkProlongedDirection
  split
  · rfl
  · have hfold := foldl_invariant (fun x => rangeFilt x.2) (pdStep cp)
      (List.range' 1 (cp.length - 1)) (⟨0, 1, 0⟩, r) (fun b a => rangeFilt_pdStep cp b a)
    dsimp only at hfold ⊢
    simp [hfold]

@[simp] theorem rangeFilt_checkArpeggios (cp : List Note) (key : NoteClass) (mode : Mode)
    (r : Results) : rangeFilt (checkArpeggios cp key mode r) = rangeFilt r := by
  unfold checkArpeggios
  split
  · rfl
  · apply foldl_invariant
    intro b a
    dsimp only
    rcases Scale.getDegree (cp.getD a dfltNote) key mode with _ | d1 <;>
      rcases Scale.getDegree (cp.getD (a + 1) dfltNote) key mode with _ | d2 <;>
      rcases Scale.getDegree (cp.getD (a + 2) dfltNote) key mode with _ | d3 <;>
      simp

@[simp] theorem rangeFilt_epStep (cf cp : List Note) (cpPos : CpPos)
    (x : EPState × Results) (i : Nat) :
    rangeFilt (epStep cf cp cpPos x i).2 = rangeFilt x.2 := by
  simp [epStep]

@[simp] theorem rangeFilt_checkExcessiveParallelConsonances (cf cp : List Note)
    (cpPos : CpPos) (r : Results) :
    rangeFilt (checkExcessiveParallelConsonances cf cp cpPos r) = rangeFilt r := by
  unfold checkExcessiveParallelConsonances
  split
  · rfl
  · have hfold := foldl_invariant (fun x => rangeFilt x.2) (epStep cf cp cpPos)
      (List.range cf.length) (⟨0, 0, 0, 0⟩, r) (fun b a => rangeFilt_epStep cf cp cpPos b a)
    dsimp only at hfold ⊢
    simp [hfold]

@[simp] theorem rangeFilt_perNoteFold (cf cp : List Note) (cpPos : CpPos) (n : Nat)
    (r : Results) :
    rangeFilt ((List.range n).foldl (fun r i => perNoteChecks cf cp cpPos i r) r) =
      rangeFilt r :=
  foldl_invariant _ _ _ _ (fun b a => rangeFilt_perNoteChecks cf cp cpPos a b)

end FirstSpecies

namespace SecondSpecies

@[simp] theorem rangeFilt_checkAnacrusis2 (cp : List (Option Note)) (cpLen : Nat)
    (r : Results) : rangeFilt (checkAnacrusis cp cpLen r) = rangeFilt r := by
  unfold checkAnacrusis
  apply foldl_invariant
  intro b a
  simp

@[simp] theorem rangeFilt_checkStrongBeatConsonance2 (itv : Interval.Itv) (pos : Nat)
    (r : Results) : rangeFilt (checkStrongBeatConsonance itv pos r) = rangeFilt r := by
  simp [checkStrongBeatConsonance]

@[simp] theorem rangeFilt_checkWeakBeatDissonance2 (itv : Interval.Itv) (pos : Nat)
    (cp : List (Option Note)) (cf : List Note) (cpPos : CpPos) (r : Results) :
    rangeFilt (checkWeakBeatDissonance itv pos cp cf cpPos r) = rangeFilt r := by
  simp [checkWeakBeatDissonance]

@[simp] theorem rangeFilt_checkUnison2 (itv : Interval.Itv) (pos cpLen : Nat)
    (cp : List (Option Note)) (r : Results) :
    rangeFilt (checkUnison itv pos cpLen cp r) = rangeFilt r := by
  simp [checkUnison]

@[simp] theorem rangeFilt_checkVoiceCrossing2 (cfN cpN : Note) (cpPos : CpPos) (pos : Nat)
    (r : Results) : rangeFilt (checkVoiceCrossing cfN cpN cpPos pos r) = rangeFilt r := by
  simp [checkVoiceCrossing]

@[simp] theorem rangeFilt_checkMelodicTritone2 (prevN currN : Note) (pos : Nat)
    (r : Results) : rangeFilt (checkMelodicTritone prevN currN pos r) = rangeFilt r := by
  simp [checkMelodicTritone]

@[simp] theorem rangeFilt_checkStepwise2 (prevN currN : Note) (pos : Nat) (r : Results) :
    rangeFilt (checkStepwise prevN currN pos r) = rangeFilt r := by
  simp [checkStepwise]

@[simp] theorem rangeFilt_checkNoteRepetition2 (prevE currE : SNote) (cpLen : Nat)
    (r : Results) : rangeFilt (checkNoteRepetition prevE currE cpLen r) = rangeFilt r := by
  simp [checkNoteRepetition]

@[simp] theorem rangeFilt_perNoteChecks2 (cf : List Note) (cp : List (Option Note))
    (cpPos : CpPos) (i : Nat) (r : Results) :
    rangeFilt (perNoteChecks cf cp cpPos i r) = rangeFilt r := by
  unfold perNoteChecks
  split <;> simp

@[simp] theorem rangeFilt_checkStrongBeatParallels2 (cf : List Note) (cp : List (Option Note))
    (cpPos : CpPos) (cpLen : Nat) (r : Results) :
    rangeFilt (checkStrongBeatParallels cf cp cpPos cpLen r) = rangeFilt r := by
  unfold checkStrongBeatParallels
  apply foldl_invariant
  intro b a
  dsimp only
  split <;> simp

@[simp] theorem rangeFilt_checkStrongBeatHiddenParallels2 (cf : List Note)
    (cp : List (Option Note)) (cpPos : CpPos) (cpLen : Nat) (r : Results) :
    rangeFilt (checkStrongBeatHiddenParallels cf cp cpPos cpLen r) = rangeFilt r := by
  unfold checkStrongBeatHiddenParallels
  apply foldl_invariant
  intro b a
  dsimp only
  split <;> simp

@[simp] theorem rangeFilt_checkStrongBeatMotion2 (cf : List Note) (cp : List (Option Note))
    (cpPos : CpPos) (cpLen : Nat) (r : Results) :
    rangeFilt (checkStrongBeatMotion cf cp cpPos cpLen r) = rangeFilt r := by
  unfold checkStrongBeatMotion
  apply foldl_invariant
  intro b a
  dsimp only
  split <;> simp

@[simp] theorem rangeFilt_checkCrossBeatParallels2 (cf : List Note) (cp : List (Option Note))
    (cpPos : CpPos) (cpLen : Nat) (r : Results) :
    rangeFilt (checkCrossBeatParallels cf cp cpPos cpLen r) = rangeFilt r := by
  unfold checkCrossBeatParallels
  apply foldl_invariant
  intro b a
  dsimp only
  split <;> simp

@[simp] theorem rangeFilt_checkStartInterval2 (cf : List Note) (cp : List (Option Note))
    (cpPos : CpPos) (r : Results) :
    rangeFilt (checkStartInterval cf cp cpPos r) = rangeFilt r := by
  unfold checkStartInterval
  dsimp only
  split <;> simp

@[simp] theorem rangeFilt_checkEndInterval2 (cf : List Note) (cp : List (Option Note))
    (key : NoteClass) (mode : Mode) (cpPos : CpPos) (cpLen : Nat) (r : Results) :
    rangeFilt (checkEndInterval cf cp key mode cpPos cpLen r) = rangeFilt r := by
  unfold checkEndInterval
  dsimp only
  split <;> simp

@[simp] theorem rangeFilt_checkLastNoteWhole2 (cpLen : Nat) (r : Results) :
    rangeFilt (checkLastNoteWhole cpLen r) = rangeFilt r := by
  simp [checkLastNoteWhole]

@[simp] theorem rangeFilt_checkCadence2 (cf : List Note) (cp : List (Option Note))
    (key : NoteClass) (mode : Mode) (cpPos : CpPos) (cpLen : Nat) (r : Results) :
    rangeFilt (checkCadence cf cp key mode cpPos cpLen r) = rangeFilt r := by
  unfold checkCadence
  split
  · rfl
  · dsimp only
    split
    · rfl
    · rcases cpPos <;> dsimp only <;> split <;> (try split) <;> simp

theorem rangeFilt_checkRange2 (cp : List (Option Note)) (r : Results) :
    rangeFilt (checkRange cp r) =
      ((rangeFilt r).1,
        (rangeFilt r).2.1 ++
          (if FirstSpecies.rangeSpanExceeded ((cp.filterMap id).map Pitch.toMidi) then
            [⟨"range", some (-1), Severity.warning⟩]
          else []),
        (rangeFilt r).2.2) := by
  unfold checkRange
  rcases hm : (cp.filterMap id).map Pitch.toMidi with _ | ⟨m, tl⟩
  · simp [rangeFilt, FirstSpecies.rangeSpanExceeded]
  · simp only [FirstSpecies.rangeSpanExceeded]
    by_cases h : 19 < List.foldl Nat.max m tl - List.foldl Nat.min m tl
    · rw [if_pos h, if_pos (decide_eq_true h)]
      simp [rangeFilt, pushWarning, List.filter_append]
    · rw [if_neg h, if_neg (fun hc => h (of_decide_eq_true hc))]
      simp

@[simp] theorem rangeFilt_checkCompoundTritones2 (sn : List SNote) (key : NoteClass)
    (mode : Mode) (r : Results) :
    rangeFilt (checkCompoundTritones sn key mode r) = rangeFilt r := by
  unfold checkCompoundTritones
  split
  · rfl
  · apply foldl_invariant
    intro b a
    dsimp only
    split <;> simp

@[simp] theorem rangeFilt_checkCompoundDissonantLeaps2 (sn : List SNote) (r : Results) :
    rangeFilt (checkCompoundDissonantLeaps sn r) = rangeFilt r := by
  unfold checkCompoundDissonantLeaps
  split
  · rfl
  · apply foldl_invariant
    intro b a
    simp

@[simp] theorem rangeFilt_pdStep2 (sn : List SNote) (x : FirstSpecies.PDState × Results)
    (i : Nat) : rangeFilt (pdStep sn x i).2 = rangeFilt x.2 := by
  simp [pdStep]

@[simp] theorem rangeFilt_checkProlongedDirection2 (sn : List SNote) (r : Results) :
    rangeFilt (checkProlongedDirection sn r) = rangeFilt r := by
  unfold checkProlongedDirection
  split
  · rfl
  · have hfold := foldl_invariant (fun x => rangeFilt x.2) (pdStep sn)
      (List.range' 1 (sn.length - 1)) (⟨0, 1, 0⟩, r) (fun b a => rangeFilt_pdStep2 sn b a)
    dsimp only at hfold ⊢
    simp [hfold]

@[simp] theorem rangeFilt_checkArpeggios2 (sn : List SNote) (key : NoteClass) (mode : Mode)
    (r : Results) : rangeFilt (checkArpeggios sn key mode r) = rangeFilt r := by
  unfold checkArpeggios
  split
  · rfl
  · apply foldl_invariant
    intro b a
    dsimp only
    split <;> simp

@[simp] theorem rangeFilt_epStep2 (cf : List Note) (cp : List (Option Note)) (cpPos : CpPos)
    (x : FirstSpecies.EPState × Results) (i : Nat) :
    rangeFilt (epStep cf cp cpPos x i).2 = rangeFilt x.2 := by
  unfold epStep
  dsimp only
  split <;> simp

@[simp] theorem rangeFilt_checkExcessiveParallelConsonances2 (cf : List Note)
    (cp : List (Option Note)) (cpPos : CpPos) (cpLen : Nat) (r : Results) :
    rangeFilt (checkExcessiveParallelConsonances cf cp cpPos cpLen r) = rangeFilt r := by
  unfold checkExcessiveParallelConsonances
  dsimp only
  split
  · rfl
  · have hfold := foldl_invariant (fun x => rangeFilt x.2) (epStep cf cp cpPos)
      (getStrongBeatIndices cpLen) (⟨0, 0, 0, 0⟩, r)
      (fun b a => rangeFilt_epStep2 cf cp cpPos b a)
    dsimp only at hfold ⊢
    simp [hfold]

@[simp] theorem rangeFilt_checkBattutaParallels2 (cf : List Note) (cp : List (Option Note))
    (cpPos : CpPos) (cpLen : Nat) (r : Results) :
    rangeFilt (checkBattutaParallels cf cp cpPos cpLen r) = rangeFilt r := by
  unfold checkBattutaParallels
  dsimp only
  split
  · rfl
  · apply foldl_invariant
    intro b a
    dsimp only
    split
    · rfl
    · split
      · rfl
      · apply foldl_invariant
        intro b2 a2
        dsimp only
        split <;> simp

@[simp] theorem rangeFilt_perNoteFold2 (cf : List Note) (cp : List (Option Note))
    (cpPos : CpPos) (n : Nat) (r : Results) :
    rangeFilt ((List.range n).foldl (fun r i => perNoteChecks cf cp cpPos i r) r) =
      rangeFilt r :=
  foldl_invariant _ _ _ _ (fun b a => rangeFilt_perNoteChecks2 cf cp cpPos a b)

@[simp] theorem rangeFilt_melodicFold2 (cpLen : Nat) (l : List (SNote × SNote))
    (r : Results) :
    rangeFilt (l.foldl (fun r pr =>
      checkNoteRepetition pr.1 pr.2 cpLen
        (checkStepwise pr.1.note pr.2.note pr.2.index
          (checkMelodicTritone pr.1.note pr.2.note pr.2.index r))) r) = rangeFilt r := by
  apply foldl_invariant
  intro b a
  simp

end SecondSpecies

namespace ThirdSpecies

@[simp] theorem rangeFilt_checkAnacrusis3 (cp : List (Option Note)) (cpLen : Nat)
    (r : Results) : rangeFilt (checkAnacrusis cp cpLen r) = rangeFilt r := by
  unfold checkAnacrusis
  apply foldl_invariant
  intro b a
  simp

@[simp] theorem rangeFilt_checkDownbeatConsonance3 (itv : Interval.Itv) (pos : Nat)
    (r : Results) : rangeFilt (checkDownbeatConsonance itv pos r) = rangeFilt r := by
  simp [checkDownbeatConsonance]

@[simp] theorem rangeFilt_checkBeatThreeConsonance3 (itv : Interval.Itv) (pos : Nat)
    (cp : List (Option Note)) (cf : List Note) (cpPos : CpPos) (r : Results) :
    rangeFilt (checkBeatThreeConsonance itv pos cp cf cpPos r) = rangeFilt r := by
  simp [checkBeatThreeConsonance]

@[simp] theorem rangeFilt_checkWeakBeatDissonance3 (itv : Interval.Itv) (pos : Nat)
    (cp : List (Option Note)) (cf : List Note) (cpPos : CpPos) (r : Results) :
    rangeFilt (checkWeakBeatDissonance itv pos cp cf cpPos r) = rangeFilt r := by
  simp [checkWeakBeatDissonance]

@[simp] theorem rangeFilt_checkUnison3 (itv : Interval.Itv) (pos cpLen : Nat)
    (cp : List (Option Note)) (r : Results) :
    rangeFilt (checkUnison itv pos cpLen cp r) = rangeFilt r := by
  simp [checkUnison]

@[simp] theorem rangeFilt_checkVoiceCrossing3 (cfN cpN : Note) (cpPos : CpPos) (pos : Nat)
    (r : Results) : rangeFilt (checkVoiceCrossing cfN cpN cpPos pos r) = rangeFilt r := by
  simp [checkVoiceCrossing]

@[simp] theorem rangeFilt_checkMelodicTritone3 (prevN currN : Note) (pos : Nat)
    (r : Results) : rangeFilt (checkMelodicTritone prevN currN pos r) = rangeFilt r := by
  simp [checkMelodicTritone]

@[simp] theorem rangeFilt_perNoteChecks3 (cf : List Note) (cp : List (Option Note))
    (cpPos : CpPos) (i : Nat) (r : Results) :
    rangeFilt (perNoteChecks cf cp cpPos i r) = rangeFilt r := by
  unfold perNoteChecks
  split <;> simp

@[simp] theorem rangeFilt_checkDownbeatParallels3 (cf : List Note) (cp : List (Option Note))
    (cpPos : CpPos) (cpLen : Nat) (r : Results) :
    rangeFilt (checkDownbeatParallels cf cp cpPos cpLen r) = rangeFilt r := by
  unfold checkDownbeatParallels
  apply foldl_invariant
  intro b a
  dsimp only
  split <;> simp

@[simp] theorem rangeFilt_checkDownbeatHiddenParallels3 (cf : List Note)
    (cp : List (Option Note)) (cpPos : CpPos) (cpLen : Nat) (r : Results) :
    rangeFilt (checkDownbeatHiddenParallels cf cp cpPos cpLen r) = rangeFilt r := by
  unfold checkDownbeatHiddenParallels
  apply foldl_invariant
  intro b a
  dsimp only
  split <;> simp

@[simp] theorem rangeFilt_checkDownbeatMotion3 (cf : List Note) (cp : List (Option Note))
    (cpPos : CpPos) (cpLen : Nat) (r : Results) :
    rangeFilt (checkDownbeatMotion cf cp cpPos cpLen r) = rangeFilt r := by
  unfold checkDownbeatMotion
  apply foldl_invariant
  intro b a
  dsimp only
  split <;> simp

@[simp] theorem rangeFilt_checkStartInterval3 (cf : List Note) (cp : List (Option Note))
    (cpPos : CpPos) (r : Results) :
    rangeFilt (checkStartInterval cf cp cpPos r) = rangeFilt r := by
  unfold checkStartInterval
  dsimp only
  split <;> simp

@[simp] theorem rangeFilt_checkEndInterval3 (cf : List Note) (cp : List (Option Note))
    (cpPos : CpPos) (cpLen : Nat) (r : Results) :
    rangeFilt (checkEndInterval cf cp cpPos cpLen r) = rangeFilt r := by
  unfold checkEndInterval
  dsimp only
  split <;> simp

@[simp] theorem rangeFilt_checkLastNoteWhole3 (cpLen : Nat) (r : Results) :
    rangeFilt (checkLastNoteWhole cpLen r) = rangeFilt r := by
  simp [checkLastNoteWhole]

@[simp] theorem rangeFilt_checkCadence3 (cf : List Note) (cp : List (Option Note))
    (key : NoteClass) (mode : Mode) (cpPos : CpPos) (cpLen : Nat) (r : Results) :
    rangeFilt (checkCadence cf cp key mode cpPos cpLen r) = rangeFilt r := by
  unfold checkCadence
  split
  · rfl
  · dsimp only
    split
    · rfl
    · rcases cpPos <;> dsimp only <;> split <;> simp

@[simp] theorem rangeFilt_checkCompoundTritones3 (sn : List SNote) (key : NoteClass)
    (mode : Mode) (r : Results) :
    rangeFilt (checkCompoundTritones sn key mode r) = rangeFilt r := by
  simp [checkCompoundTritones]

@[simp] theorem rangeFilt_pdStep3 (sn : List SNote) (x : FirstSpecies.PDState × Results)
    (i : Nat) : rangeFilt (pdStep sn x i).2 = rangeFilt x.2 := by
  simp [pdStep]

@[simp] theorem rangeFilt_checkProlongedDirection3 (sn : List SNote) (r : Results) :
    rangeFilt (checkProlongedDirection sn r) = rangeFilt r := by
  unfold checkProlongedDirection
  split
  · rfl
  · have hfold := foldl_invariant (fun x => rangeFilt x.2) (pdStep sn)
      (List.range' 1 (sn.length - 1)) (⟨0, 1, 0⟩, r) (fun b a => rangeFilt_pdStep3 sn b a)
    dsimp only at hfold ⊢
    simp [hfold]

@[simp] theorem rangeFilt_checkArpeggios3 (sn : List SNote) (key : NoteClass) (mode : Mode)
    (r : Results) : rangeFilt (checkArpeggios sn key mode r) = rangeFilt r := by
  simp [checkArpeggios]

@[simp] theorem rangeFilt_checkNoteRepetition3 (sn : List SNote) (r : Results) :
    rangeFilt (checkNoteRepetition sn r) = rangeFilt r := by
  unfold checkNoteRepetition
  split
  · rfl
  · dsimp only
    exact foldl_invariant (fun x : Nat × Results => rangeFilt x.2) _
      (List.range' 1 (sn.length - 1)) (1, r)
      (fun b a => by dsimp only; split <;> simp)

@[simp] theorem rangeFilt_perNoteFold3 (cf : List Note) (cp : List (Option Note))
    (cpPos : CpPos) (n : Nat) (r : Results) :
    rangeFilt ((List.range n).foldl (fun r i => perNoteChecks cf cp cpPos i r) r) =
      rangeFilt r :=
  foldl_invariant _ _ _ _ (fun b a => rangeFilt_perNoteChecks3 cf cp cpPos a b)

@[simp] theorem rangeFilt_melodicFold3 (l : List (SNote × SNote)) (r : Results) :
    rangeFilt (l.foldl (fun r pr => checkMelodicTritone pr.1.note pr.2.note pr.2.index r) r) =
      rangeFilt r := by
  apply foldl_invariant
  intro b a
  simp

end ThirdSpecies

/-! Issue-tracking bookkeeping, used by claim C8. -/

theorem foldl_pres {α β : Type} (P : β → Prop) (f : β → α → β) (l : List α) :
    ∀ b, (∀ b a, a ∈ l → P b → P (f b a)) → P b → P (l.foldl f b) := by
  induction l with
  | nil => exact fun b _ hb => hb
  | cons x xs ih =>
      intro b h hb
      exact ih (f b x) (fun b a ha hb => h b a (List.mem_cons_of_mem _ ha) hb)
        (h b x (List.mem_cons_self _ _) hb)

theorem length_modifyAt {α : Type} (p : Nat) (f : α → α) (l : List α) :
    (modifyAt p f l).length = l.length := by
  induction l generalizing p with
  | nil => simp [modifyAt]
  | cons x xs ih =>
      cases p with
      | zero => simp [modifyAt]
      | succ q => simp [modifyAt, ih]

theorem getD_modifyAt_self {α : Type} (p : Nat) (f : α → α) (l : List α) (d : α)
    (h : p < l.length) : (modifyAt p f l).getD p d = f (l.getD p d) := by
  induction l generalizing p with
  | nil => simp at h
  | cons x xs ih =>
      cases p with
      | zero => simp [modifyAt]
      | succ q => simpa [modifyAt] using ih q (by simpa using h)

theorem getD_modifyAt_ne {α : Type} (p q : Nat) (f : α → α) (l : List α) (d : α)
    (h : p ≠ q) : (modifyAt p f l).getD q d = l.getD q d := by
  induction l generalizing p q with
  | nil => simp [modifyAt]
  | cons x xs ih =>
      cases p with
      | zero =>
          cases q with
          | zero => exact absurd rfl h
          | succ q2 => simp [modifyAt]
      | succ p2 =>
          cases q with
          | zero => simp [modifyAt]
          | succ q2 => simpa [modifyAt] using ih p2 q2 (fun hh => h (by omega))

theorem getD_modifyAt_oob {α : Type} (p q : Nat) (f : α → α) (l : List α) (d : α)
    (h : ¬ q < l.length) : (modifyAt p f l).getD q d = l.getD q d := by
  rw [List.getD_eq_default _ _ (by rw [length_modifyAt]; omega),
    List.getD_eq_default _ _ (by omega)]

theorem getD_some_lt {α : Type} {cp : List (Option α)} {i : Nat} {x : α}
    (h : cp.getD i none = some x) : i < cp.length := by
  by_contra hc
  rw [List.getD_eq_default _ _ (by omega)] at h
  exact Option.noConfusion h

theorem issues_getD_markIssue (p q : Nat) (iss x : Issue) (r : Results)
    (h : x ∈ (r.noteResults.getD q dfltNR).issues) :
    x ∈ ((markIssue p iss r).noteResults.getD q dfltNR).issues := by
  unfold markIssue
  dsimp only
  by_cases hq : q < r.noteResults.length
  · by_cases hpq : p = q
    · subst hpq
      rw [getD_modifyAt_self _ _ _ _ hq]
      exact List.mem_append_left _ h
    · rw [getD_modifyAt_ne _ _ _ _ _ hpq]
      exact h
  · rw [getD_modifyAt_oob _ _ _ _ _ hq]
    exact h

theorem issues_getD_markIssue_self (p : Nat) (iss : Issue) (r : Results)
    (hp : p < r.noteResults.length) :
    iss ∈ ((markIssue p iss r).noteResults.getD p dfltNR).issues := by
  unfold markIssue
  dsimp only
  rw [getD_modifyAt_self _ _ _ _ hp]
  exact List.mem_append_right _ (List.mem_singleton.mpr rfl)

theorem issues_getD_markInvalid (p q : Nat) (r : Results) :
    ((markInvalid p r).noteResults.getD q dfltNR).issues =
      (r.noteResults.getD q dfltNR).issues := by
  unfold markInvalid
  dsimp only
  by_cases hq : q < r.noteResults.length
  · by_cases hpq : p = q
    · subst hpq
      rw [getD_modifyAt_self _ _ _ _ hq]
    · rw [getD_modifyAt_ne _ _ _ _ _ hpq]
  · rw [getD_modifyAt_oob _ _ _ _ _ hq]

theorem trackInv_pushWarning {n : Nat} (iss : Issue) {r : Results} (h : trackInv n r) :
    trackInv n (pushWarning iss r) := h

theorem trackInv_pushSuggestion {n : Nat} (iss : Issue) {r : Results} (h : trackInv n r) :
    trackInv n (pushSuggestion iss r) := h

theorem trackInv_markIssue {n : Nat} (p : Nat) (iss : Issue) {r : Results}
    (h : trackInv n r) : trackInv n (markIssue p iss r) := by
  refine ⟨?_, ?_⟩
  · show (modifyAt p _ r.noteResults).length = n
    rw [length_modifyAt]
    exact h.1
  · intro x hx q hq hq0
    exact issues_getD_markIssue _ _ _ _ _ (h.2 x hx q hq hq0)

theorem trackInv_markInvalid {n : Nat} (p : Nat) {r : Results} (h : trackInv n r) :
    trackInv n (markInvalid p r) := by
  refine ⟨?_, ?_⟩
  · show (modifyAt p _ r.noteResults).length = n
    rw [length_modifyAt]
    exact h.1
  · intro x hx q hq hq0
    rw [show ((markInvalid p r).noteResults.getD q.toNat dfltNR).issues =
      (r.noteResults.getD q.toNat dfltNR).issues from issues_getD_markInvalid p q.toNat r]
    exact h.2 x hx q hq hq0

theorem trackInv_addErrorAt {n : Nat} (rule : String) (p : Nat) {r : Results}
    (hp : p < n) (h : trackInv n r) : trackInv n (addErrorAt rule p r) := by
  simp only [addErrorAt]
  refine ⟨?_, ?_⟩
  · show (modifyAt p _ (markInvalid p (pushError _ r)).noteResults).length = n
    rw [length_modifyAt]
    show (modifyAt p _ r.noteResults).length = n
    rw [length_modifyAt]
    exact h.1
  · intro x hx q hq hq0
    have hx' : x ∈ r.errors ++ [(⟨rule, some (p : Int), Severity.error⟩ : Issue)] := hx
    rcases List.mem_append.mp hx' with hxe | hxi
    · apply issues_getD_markIssue
      rw [issues_getD_markInvalid]
      exact h.2 x hxe q hq hq0
    · have hxeq : x = ⟨rule, some (p : Int), Severity.error⟩ := by simpa using hxi
      subst hxeq
      have hqp : (p : Int) = q := by simpa using hq
      subst hqp
      have htn : ((p : Int)).toNat = p := by omega
      rw [htn]
      apply issues_getD_markIssue_self
      show p < (modifyAt p _ r.noteResults).length
      rw [length_modifyAt, h.1]
      exact hp

theorem trackInv_addWarningAt {n : Nat} (rule : String) (p : Nat) {r : Results}
    (h : trackInv n r) : trackInv n (addWarningAt rule p r) := by
  simp only [addWarningAt]
  exact trackInv_markIssue _ _ (trackInv_pushWarning _ h)

theorem trackInv_addSuggestionAt {n : Nat} (rule : String) (p : Nat) {r : Results}
    (h : trackInv n r) : trackInv n (addSuggestionAt rule p r) := by
  simp only [addSuggestionAt]
  exact trackInv_markIssue _ _ (trackInv_pushSuggestion _ h)

theorem trackInv_initResults (n : Nat) : trackInv n (initResults n) := by
  refine ⟨by simp [initResults], ?_⟩
  intro x hx
  exact absurd hx (by simp [initResults])

theorem trackInv_of_enPair {n : Nat} {r r' : Results} (he : enPair r' = enPair r)
    (h : trackInv n r) : trackInv n r' := by
  have h1 : r'.errors = r.errors := congrArg Prod.fst he
  have h2 : r'.noteResults = r.noteResults := congrArg Prod.snd he
  refine ⟨h2 ▸ h.1, ?_⟩
  intro x hx q hq hq0
  rw [h2]
  exact h.2 x (h1 ▸ hx) q hq hq0

@[simp] theorem enPair_pushWarning (iss : Issue) (r : Results) :
    enPair (pushWarning iss r) = enPair r := rfl

@[simp] theorem enPair_pushSuggestion (iss : Issue) (r : Results) :
    enPair (pushSuggestion iss r) = enPair r := rfl

@[simp] theorem enPair_ite (c : Prop) [Decidable c] (a b : Results) :
    enPair (if c then a else b) = if c then enPair a else enPair b := by
  split <;> rfl

namespace FirstSpecies

theorem enPair_checkRange (cp : List Note) (r : Results) :
    enPair (checkRange cp r) = enPair r := by
  unfold checkRange
  rcases cp.map Pitch.toMidi with _ | ⟨m, tl⟩ <;> simp

theorem enPair_checkCompoundTritones (cp : List Note) (key : NoteClass) (mode : Mode)
    (r : Results) : enPair (checkCompoundTritones cp key mode r) = enPair r := by
  unfold checkCompoundTritones
  split
  · rfl
  · apply foldl_invariant
    intro b a
    simp

theorem enPair_checkCompoundDissonantLeaps (cp : List Note) (r : Results) :
    enPair (checkCompoundDissonantLeaps cp r) = enPair r := by
  unfold checkCompoundDissonantLeaps
  split
  · rfl
  · apply foldl_invariant
    intro b a
    simp

theorem enPair_checkBattutaParallels (cf cp : List Note) (cpPos : CpPos) (r : Results) :
    enPair (checkBattutaParallels cf cp cpPos r) = enPair r := by
  unfold checkBattutaParallels
  split
  · rfl
  · apply foldl_invariant
    intro b a
    dsimp only
    split
    · rfl
    · apply foldl_invariant
      intro b2 a2
      simp

theorem enPair_pdStep (cp : List Note) (x : PDState × Results) (i : Nat) :
    enPair (pdStep cp x i).2 = enPair x.2 := by
  simp [pdStep]

theorem enPair_checkProlongedDirection (cp : List Note) (r : Results) :
    enPair (checkProlongedDirection cp r) = enPair r := by
  unfold checkProlongedDirection
  split
  · rfl
  · have hfold := foldl_invariant (fun x => enPair x.2) (pdStep cp)
      (List.range' 1 (cp.length - 1)) (⟨0, 1, 0⟩, r) (fun b a => enPair_pdStep cp b a)
    dsimp only at hfold ⊢
    simp [hfold]

theorem enPair_checkArpeggios (cp : List Note) (key : NoteClass) (mode : Mode)
    (r : Results) : enPair (checkArpeggios cp key mode r) = enPair r := by
  unfold checkArpeggios
  split
  · rfl
  · apply foldl_invariant
    intro b a
    dsimp only
    split <;> simp

theorem enPair_epStep (cf cp : List Note) (cpPos : CpPos) (x : EPState × Results)
    (i : Nat) : enPair (epStep cf cp cpPos x i).2 = enPair x.2 := by
  unfold epStep
  dsimp only
  split <;> simp

theorem enPair_checkExcessiveParallelConsonances (cf cp : List Note) (cpPos : CpPos)
    (r : Results) : enPair (checkExcessiveParallelConsonances cf cp cpPos r) = enPair r := by
  unfold checkExcessiveParallelConsonances
  split
  · rfl
  · have hfold := foldl_invariant (fun x => enPair x.2) (epStep cf cp cpPos)
      (List.range cf.length) (⟨0, 0, 0, 0⟩, r) (fun b a => enPair_epStep cf cp cpPos b a)
    dsimp only at hfold ⊢
    simp [hfold]

end FirstSpecies

namespace SecondSpecies

theorem enPair_checkRange2 (cp : List (Option Note)) (r : Results) :
    enPair (checkRange cp r) = enPair r := by
  unfold checkRange
  rcases (cp.filterMap id).map Pitch.toMidi with _ | ⟨m, tl⟩ <;> simp

theorem enPair_checkCompoundTritones2 (sn : List SNote) (key : NoteClass) (mode : Mode)
    (r : Results) : enPair (checkCompoundTritones sn key mode r) = enPair r := by
  unfold checkCompoundTritones
  split
  · rfl
  · apply foldl_invariant
    intro b a
    dsimp only
    split <;> simp

theorem enPair_checkCompoundDissonantLeaps2 (sn : List SNote) (r : Results) :
    enPair (checkCompoundDissonantLeaps sn r) = enPair r := by
  unfold checkCompoundDissonantLeaps
  split
  · rfl
  · apply foldl_invariant
    intro b a
    simp

theorem enPair_pdStep2 (sn : List SNote) (x : FirstSpecies.PDState × Results) (i : Nat) :
    enPair (pdStep sn x i).2 = enPair x.2 := by
  simp [pdStep]

theorem enPair_checkProlongedDirection2 (sn : List SNote) (r : Results) :
    enPair (checkProlongedDirection sn r) = enPair r := by
  unfold checkProlongedDirection
  split
  · rfl
  · have hfold := foldl_invariant (fun x => enPair x.2) (pdStep sn)
      (List.range' 1 (sn.length - 1)) (⟨0, 1, 0⟩, r) (fun b a => enPair_pdStep2 sn b a)
    dsimp only at hfold ⊢
    simp [hfold]

theorem enPair_checkArpeggios2 (sn : List SNote) (key : NoteClass) (mode : Mode)
    (r : Results) : enPair (checkArpeggios sn key mode r) = enPair r := by
  unfold checkArpeggios
  split
  · rfl
  · apply foldl_invariant
    intro b a
    dsimp only
    split <;> simp

theorem enPair_epStep2 (cf : List Note) (cp : List (Option Note)) (cpPos : CpPos)
    (x : FirstSpecies.EPState × Results) (i : Nat) :
    enPair (epStep cf cp cpPos x i).2 = enPair x.2 := by
  unfold epStep
  dsimp only
  split <;> simp

theorem enPair_checkExcessiveParallelConsonances2 (cf : List Note)
    (cp : List (Option Note)) (cpPos : CpPos) (cpLen : Nat) (r : Results) :
    enPair (checkExcessiveParallelConsonances cf cp cpPos cpLen r) = enPair r := by
  unfold checkExcessiveParallelConsonances
  dsimp only
  split
  · rfl
  · have hfold := foldl_invariant (fun x => enPair x.2) (epStep cf cp cpPos)
      (getStrongBeatIndices cpLen) (⟨0, 0, 0, 0⟩, r)
      (fun b a => enPair_epStep2 cf cp cpPos b a)
    dsimp only at hfold ⊢
    simp [hfold]

theorem enPair_checkBattutaParallels2 (cf : List Note) (cp : List (Option Note))
    (cpPos : CpPos) (cpLen : Nat) (r : Results) :
    enPair (checkBattutaParallels cf cp cpPos cpLen r) = enPair r := by
  unfold checkBattutaParallels
  dsimp only
  split
  · rfl
  · apply foldl_invariant
    intro b a
    dsimp only
    split
    · rfl
    · split
      · rfl
      · apply foldl_invariant
        intro b2 a2
        dsimp only
        split <;> simp

end SecondSpecies

namespace ThirdSpecies

theorem enPair_checkCompoundTritones3 (sn : List SNote) (key : NoteClass) (mode : Mode)
    (r : Results) : enPair (checkCompoundTritones sn key mode r) = enPair r := by
  unfold checkCompoundTritones
  exact SecondSpecies.enPair_checkCompoundTritones2 sn key mode r

theorem enPair_pdStep3 (sn : List SNote) (x : FirstSpecies.PDState × Results) (i : Nat) :
    enPair (pdStep sn x i).2 = enPair x.2 := by
  simp [pdStep]

theorem enPair_checkProlongedDirection3 (sn : List SNote) (r : Results) :
    enPair (checkProlongedDirection sn r) = enPair r := by
  unfold checkProlongedDirection
  split
  · rfl
  · have hfold := foldl_invariant (fun x => enPair x.2) (pdStep sn)
      (List.range' 1 (sn.length - 1)) (⟨0, 1, 0⟩, r) (fun b a => enPair_pdStep3 sn b a)
    dsimp only at hfold ⊢
    simp [hfold]

theorem enPair_checkArpeggios3 (sn : List SNote) (key : NoteClass) (mode : Mode)
    (r : Results) : enPair (checkArpeggios sn key mode r) = enPair r := by
  unfold checkArpeggios
  exact SecondSpecies.enPair_checkArpeggios2 sn key mode r

theorem enPair_checkNoteRepetition3 (sn : List SNote) (r : Results) :
    enPair (checkNoteRepetition sn r) = enPair r := by
  unfold checkNoteRepetition
  split
  · rfl
  · dsimp only
    exact foldl_invariant (fun x : Nat × Results => enPair x.2) _
      (List.range' 1 (sn.length - 1)) (1, r)
      (fun b a => by dsimp only; split <;> simp)

end ThirdSpecies

theorem index_lt_of_mem_soundingAux (cp : List (Option Note)) :
    ∀ (i : Nat) (s : SNote), s ∈ soundingAux i cp → s.index < i + cp.length := by
  induction cp with
  | nil => intro i s hs; exact absurd hs (by simp [soundingAux])
  | cons x rest ih =>
      intro i s hs
      cases x with
      | none =>
          have := ih (i + 1) s hs
          simp only [List.length_cons]
          omega
      | some nv =>
          rcases (by simpa [soundingAux] using hs : s = ⟨nv, i⟩ ∨ s ∈ soundingAux (i + 1) rest)
            with hh | hh
          · subst hh
            simp
          · have := ih (i + 1) s hh
            simp only [List.length_cons]
            omega

theorem index_lt_of_mem_sounding {cp : List (Option Note)} {s : SNote}
    (hs : s ∈ getSoundingNotes cp) : s.index < cp.length := by
  simpa using index_lt_of_mem_soundingAux cp 0 s hs

namespace FirstSpecies

theorem inv1_checkConsonance (itv : Interval.Itv) (pos : Nat) {n : Nat} {r : Results}
    (hp : pos < n) (h : trackInv n r) : trackInv n (checkConsonance itv pos r) := by
  unfold checkConsonance
  split
  · exact trackInv_addErrorAt _ _ hp h
  · exact h

theorem inv1_checkUnison (itv : Interval.Itv) (pos len : Nat) {n : Nat} {r : Results}
    (hp : pos < n) (h : trackInv n r) : trackInv n (checkUnison itv pos len r) := by
  unfold checkUnison
  split
  · exact trackInv_addErrorAt _ _ hp h
  · exact h

theorem inv1_checkVoiceCrossing (cfN cpN : Note) (cpPos : CpPos) (pos : Nat) {n : Nat}
    {r : Results} (hp : pos < n) (h : trackInv n r) :
    trackInv n (checkVoiceCrossing cfN cpN cpPos pos r) := by
  unfold checkVoiceCrossing
  dsimp only
  split
  · exact trackInv_addErrorAt _ _ hp h
  · exact h

theorem inv1_checkParallels (prevItv currItv : Interval.Itv)
    (prevCf currCf prevCp currCp : Note) (pos : Nat) {n : Nat} {r : Results}
    (hp : pos < n) (h : trackInv n r) :
    trackInv n (checkParallels prevItv currItv prevCf currCf prevCp currCp pos r) := by
  unfold checkParallels
  dsimp only
  repeat' split
  all_goals first
    | exact h
    | exact trackInv_addErrorAt _ _ hp h
    | exact trackInv_addWarningAt _ _ h
    | exact trackInv_addWarningAt _ _ (trackInv_addErrorAt _ _ hp h)

theorem inv1_checkMelodicTritone (prevN currN : Note) (pos : Nat) {n : Nat} {r : Results}
    (hp : pos < n) (h : trackInv n r) : trackInv n (checkMelodicTritone prevN currN pos r) := by
  unfold checkMelodicTritone
  split
  · exact trackInv_addErrorAt _ _ hp h
  · exact h

theorem inv1_analyzeMotion (prevCf currCf prevCp currCp : Note) (pos : Nat) {n : Nat}
    {r : Results} (h : trackInv n r) :
    trackInv n (analyzeMotion prevCf currCf prevCp currCp pos r) := by
  unfold analyzeMotion
  split
  · exact trackInv_addSuggestionAt _ _ h
  · exact h

theorem inv1_checkStepwise (prevN currN : Note) (pos : Nat) {n : Nat} {r : Results}
    (h : trackInv n r) : trackInv n (checkStepwise prevN currN pos r) := by
  unfold checkStepwise
  dsimp only
  repeat' split
  all_goals first
    | exact h
    | exact trackInv_addWarningAt _ _ h
    | exact trackInv_addSuggestionAt _ _ h
    | exact trackInv_addWarningAt _ _ (trackInv_addSuggestionAt _ _ h)

theorem inv1_perNoteChecks (cf cp : List Note) (cpPos : CpPos) (i : Nat) {n : Nat}
    {r : Results} (hp : i < n) (h : trackInv n r) :
    trackInv n (perNoteChecks cf cp cpPos i r) := by
  unfold perNoteChecks
  dsimp only
  have h3 := inv1_checkVoiceCrossing (cf.getD i dfltNote) (cp.getD i dfltNote) cpPos i hp
    (inv1_checkUnison (pairInterval cpPos (cf.getD i dfltNote) (cp.getD i dfltNote)) i
      cf.length hp
      (inv1_checkConsonance (pairInterval cpPos (cf.getD i dfltNote) (cp.getD i dfltNote)) i
        hp h))
  split
  · exact inv1_checkStepwise _ _ i (inv1_analyzeMotion _ _ _ _ i
      (inv1_checkMelodicTritone _ _ i hp (inv1_checkParallels _ _ _ _ _ _ i hp h3)))
  · exact h3

theorem inv1_checkStartInterval (cfN cpN : Note) (cpPos : CpPos) {n : Nat} {r : Results}
    (hp : 0 < n) (h : trackInv n r) : trackInv n (checkStartInterval cfN cpN cpPos r) := by
  unfold checkStartInterval
  split
  · exact trackInv_addErrorAt _ _ hp h
  · exact h

theorem inv1_checkEndInterval (cf cp : List Note) (key : NoteClass) (mode : Mode)
    (cpPos : CpPos) {n : Nat} {r : Results} (hp : cf.length - 1 < n) (h : trackInv n r) :
    trackInv n (checkEndInterval cf cp key mode cpPos r) := by
  unfold checkEndInterval
  dsimp only
  rcases cpPos
  all_goals repeat' split
  all_goals first
    | exact h
    | exact trackInv_addErrorAt _ _ hp h
    | exact trackInv_addWarningAt _ _ h
    | exact trackInv_addWarningAt _ _ (trackInv_addErrorAt _ _ hp h)

end FirstSpecies

namespace SecondSpecies

theorem inv2_checkAnacrusis (cp : List (Option Note)) (cpLen : Nat) {n : Nat} {r : Results}
    (hlen : cpLen ≤ n) (h : trackInv n r) : trackInv n (checkAnacrusis cp cpLen r) := by
  unfold checkAnacrusis
  refine foldl_pres _ _ _ _ ?_ h
  intro b a ha hb
  split
  · exact trackInv_addErrorAt _ _ (lt_of_lt_of_le (List.mem_range.mp ha) hlen) hb
  · exact hb

theorem inv2_checkStrongBeatConsonance (itv : Interval.Itv) (pos : Nat) {n : Nat}
    {r : Results} (hp : pos < n) (h : trackInv n r) :
    trackInv n (checkStrongBeatConsonance itv pos r) := by
  unfold checkStrongBeatConsonance
  split
  · exact trackInv_addErrorAt _ _ hp h
  · exact h

theorem inv2_checkWeakBeatDissonance (itv : Interval.Itv) (pos : Nat)
    (cp : List (Option Note)) (cf : List Note) (cpPos : CpPos) {n : Nat} {r : Results}
    (hp : pos < n) (h : trackInv n r) :
    trackInv n (checkWeakBeatDissonance itv pos cp cf cpPos r) := by
  unfold checkWeakBeatDissonance
  repeat' split
  all_goals first
    | exact h
    | exact trackInv_addErrorAt _ _ hp h

theorem inv2_checkUnison (itv : Interval.Itv) (pos cpLen : Nat) (cp : List (Option Note))
    {n : Nat} {r : Results} (hp : pos < n) (h : trackInv n r) :
    trackInv n (checkUnison itv pos cpLen cp r) := by
  unfold checkUnison
  dsimp only
  repeat' split
  all_goals first
    | exact h
    | exact trackInv_addErrorAt _ _ hp h

theorem inv2_checkVoiceCrossing (cfN cpN : Note) (cpPos : CpPos) (pos : Nat) {n : Nat}
    {r : Results} (hp : pos < n) (h : trackInv n r) :
    trackInv n (checkVoiceCrossing cfN cpN cpPos pos r) := by
  unfold checkVoiceCrossing
  exact FirstSpecies.inv1_checkVoiceCrossing _ _ _ _ hp h

theorem inv2_checkMelodicTritone (prevN currN : Note) (pos : Nat) {n : Nat} {r : Results}
    (hp : pos < n) (h : trackInv n r) :
    trackInv n (checkMelodicTritone prevN currN pos r) := by
  unfold checkMelodicTritone
  exact FirstSpecies.inv1_checkMelodicTritone _ _ _ hp h

theorem inv2_checkStepwise (prevN currN : Note) (pos : Nat) {n : Nat} {r : Results}
    (h : trackInv n r) : trackInv n (checkStepwise prevN currN pos r) := by
  unfold checkStepwise
  exact FirstSpecies.inv1_checkStepwise _ _ _ h

theorem inv2_checkNoteRepetition (prevE currE : SNote) (cpLen : Nat) {n : Nat} {r : Results}
    (h : trackInv n r) : trackInv n (checkNoteRepetition prevE currE cpLen r) := by
  unfold checkNoteRepetition
  repeat' split
  all_goals first
    | exact h
    | exact trackInv_addWarningAt _ _ h

theorem inv2_perNoteChecks (cf : List Note) (cp : List (Option Note)) (cpPos : CpPos)
    (i : Nat) {n : Nat} {r : Results} (hp : i < n) (h : trackInv n r) :
    trackInv n (perNoteChecks cf cp cpPos i r) := by
  unfold perNoteChecks
  split
  · exact h
  · dsimp only
    refine inv2_checkVoiceCrossing _ _ cpPos i hp ?_
    repeat' split
    all_goals first
      | exact h
      | exact inv2_checkUnison _ _ _ _ hp (inv2_checkStrongBeatConsonance _ _ hp h)
      | exact inv2_checkWeakBeatDissonance _ _ _ _ _ hp h
      | exact inv2_checkWeakBeatDissonance _ _ _ _ _ hp
          (inv2_checkUnison _ _ _ _ hp (inv2_checkStrongBeatConsonance _ _ hp h))

theorem inv2_checkStrongBeatParallels (cf : List Note) (cp : List (Option Note))
    (cpPos : CpPos) (cpLen : Nat) {n : Nat} {r : Results} (hlen : cpLen ≤ n)
    (h : trackInv n r) : trackInv n (checkStrongBeatParallels cf cp cpPos cpLen r) := by
  unfold checkStrongBeatParallels
  dsimp only
  refine foldl_pres _ _ _ _ ?_ h
  intro b a ha hb
  obtain ⟨a1, a2⟩ := a
  have hcur : a2 < cpLen := by
    have h3 := List.mem_of_mem_tail (List.of_mem_zip ha).2
    simp only [getStrongBeatIndices, List.mem_filter, List.mem_range] at h3
    exact h3.1
  dsimp only
  repeat' split
  all_goals first
    | exact hb
    | exact trackInv_addErrorAt _ _ (lt_of_lt_of_le hcur hlen) hb

theorem inv2_checkStrongBeatHiddenParallels (cf : List Note) (cp : List (Option Note))
    (cpPos : CpPos) (cpLen : Nat) {n : Nat} {r : Results} (h : trackInv n r) :
    trackInv n (checkStrongBeatHiddenParallels cf cp cpPos cpLen r) := by
  unfold checkStrongBeatHiddenParallels
  dsimp only
  refine foldl_pres _ _ _ _ ?_ h
  intro b a ha hb
  dsimp only
  repeat' split
  all_goals first
    | exact hb
    | exact trackInv_addWarningAt _ _ hb

theorem inv2_checkStrongBeatMotion (cf : List Note) (cp : List (Option Note))
    (cpPos : CpPos) (cpLen : Nat) {n : Nat} {r : Results} (h : trackInv n r) :
    trackInv n (checkStrongBeatMotion cf cp cpPos cpLen r) := by
  unfold checkStrongBeatMotion
  dsimp only
  refine foldl_pres _ _ _ _ ?_ h
  intro b a ha hb
  dsimp only
  repeat' split
  all_goals first
    | exact hb
    | exact trackInv_addSuggestionAt _ _ hb

theorem inv2_checkCrossBeatParallels (cf : List Note) (cp : List (Option Note))
    (cpPos : CpPos) (cpLen : Nat) {n : Nat} {r : Results} (h : trackInv n r) :
    trackInv n (checkCrossBeatParallels cf cp cpPos cpLen r) := by
  unfold checkCrossBeatParallels
  refine foldl_pres _ _ _ _ ?_ h
  intro b a ha hb
  dsimp only
  repeat' split
  all_goals first
    | exact hb
    | exact trackInv_addWarningAt _ _ hb

theorem inv2_checkStartInterval (cf : List Note) (cp : List (Option Note)) (cpPos : CpPos)
    {n : Nat} {r : Results} (hlen : cp.length ≤ n) (h : trackInv n r) :
    trackInv n (checkStartInterval cf cp cpPos r) := by
  unfold checkStartInterval
  dsimp only
  by_cases h0 : cp.getD 0 none = none
  · rw [if_pos h0]
    split
    · exact h
    · rename_i cpN heq
      split
      · exact trackInv_addErrorAt _ _ (lt_of_lt_of_le (getD_some_lt heq) hlen) h
      · exact h
  · rw [if_neg h0]
    split
    · exact h
    · rename_i cpN heq
      split
      · exact trackInv_addErrorAt _ _ (lt_of_lt_of_le (getD_some_lt heq) hlen) h
      · exact h

theorem inv2_checkEndInterval (cf : List Note) (cp : List (Option Note)) (key : NoteClass)
    (mode : Mode) (cpPos : CpPos) (cpLen : Nat) {n : Nat} {r : Results}
    (hlen : cp.length ≤ n) (h : trackInv n r) :
    trackInv n (checkEndInterval cf cp key mode cpPos cpLen r) := by
  unfold checkEndInterval
  dsimp only
  split
  · exact h
  · rename_i cpN heq
    split
    · exact trackInv_addErrorAt _ _ (lt_of_lt_of_le (getD_some_lt heq) hlen) h
    · exact h

theorem inv2_checkLastNoteWhole (cpLen : Nat) {n : Nat} {r : Results} (hlen : cpLen ≤ n)
    (h : trackInv n r) : trackInv n (checkLastNoteWhole cpLen r) := by
  unfold checkLastNoteWhole
  split
  · rename_i hc
    exact trackInv_addErrorAt _ _ (by omega) h
  · exact h

theorem inv2_checkCadence (cf : List Note) (cp : List (Option Note)) (key : NoteClass)
    (mode : Mode) (cpPos : CpPos) (cpLen : Nat) {n : Nat} {r : Results} (h : trackInv n r) :
    trackInv n (checkCadence cf cp key mode cpPos cpLen r) := by
  unfold checkCadence
  split
  · exact h
  · dsimp only
    split
    · exact h
    · rcases cpPos
      all_goals try dsimp only
      all_goals repeat' split
      all_goals first
        | exact h
        | exact trackInv_addWarningAt _ _ h
        | exact trackInv_addSuggestionAt _ _ h
        | exact trackInv_addSuggestionAt _ _ (trackInv_addWarningAt _ _ h)

theorem inv2_melodicFold (cp : List (Option Note)) (cpLen : Nat) {n : Nat} {r : Results}
    (hlen : cp.length ≤ n) (h : trackInv n r) :
    trackInv n (((getSoundingNotes cp).zip (getSoundingNotes cp).tail).foldl
      (fun r pr =>
        checkNoteRepetition pr.1 pr.2 cpLen
          (checkStepwise pr.1.note pr.2.note pr.2.index
            (checkMelodicTritone pr.1.note pr.2.note pr.2.index r))) r) := by
  refine foldl_pres _ _ _ _ ?_ h
  intro b a ha hb
  obtain ⟨a1, a2⟩ := a
  have hidx : a2.index < cp.length :=
    index_lt_of_mem_sounding (List.mem_of_mem_tail (List.of_mem_zip ha).2)
  exact inv2_checkNoteRepetition _ _ _ (inv2_checkStepwise _ _ _
    (inv2_checkMelodicTritone _ _ _ (lt_of_lt_of_le hidx hlen) hb))

end SecondSpecies

namespace ThirdSpecies

theorem inv3_checkAnacrusis (cp : List (Option Note)) (cpLen : Nat) {n : Nat} {r : Results}
    (hlen : cpLen ≤ n) (h : trackInv n r) : trackInv n (checkAnacrusis cp cpLen r) := by
  unfold checkAnacrusis
  dsimp only
  refine foldl_pres _ _ _ _ ?_ h
  intro b a ha hb
  have hcases : (if cp.getD 0 none = none then 3 else 0) = 3 ∨
      (if cp.getD 0 none = none then 3 else 0) = 0 := by
    split
    · exact Or.inl rfl
    · exact Or.inr rfl
  obtain ⟨h1, h2⟩ := List.mem_range'_1.mp ha
  have hacp : a < cpLen := by
    rcases hcases with hs | hs <;> rw [hs] at h1 h2 <;> omega
  split
  · exact trackInv_addErrorAt _ _ (lt_of_lt_of_le hacp hlen) hb
  · exact hb

theorem inv3_checkDownbeatConsonance (itv : Interval.Itv) (pos : Nat) {n : Nat}
    {r : Results} (hp : pos < n) (h : trackInv n r) :
    trackInv n (checkDownbeatConsonance itv pos r) := by
  unfold checkDownbeatConsonance
  split
  · exact trackInv_addErrorAt _ _ hp h
  · exact h

theorem inv3_checkBeatThreeConsonance (itv : Interval.Itv) (pos : Nat)
    (cp : List (Option Note)) (cf : List Note) (cpPos : CpPos) {n : Nat} {r : Results}
    (hp : pos < n) (h : trackInv n r) :
    trackInv n (checkBeatThreeConsonance itv pos cp cf cpPos r) := by
  unfold checkBeatThreeConsonance
  dsimp only
  repeat' split
  all_goals first
    | exact h
    | exact trackInv_addErrorAt _ _ hp h
    | exact trackInv_addSuggestionAt _ _ h

theorem inv3_checkWeakBeatDissonance (itv : Interval.Itv) (pos : Nat)
    (cp : List (Option Note)) (cf : List Note) (cpPos : CpPos) {n : Nat} {r : Results}
    (hp : pos < n) (h : trackInv n r) :
    trackInv n (checkWeakBeatDissonance itv pos cp cf cpPos r) := by
  unfold checkWeakBeatDissonance
  dsimp only
  repeat' split
  all_goals first
    | exact h
    | exact trackInv_addErrorAt _ _ hp h

theorem inv3_checkUnison (itv : Interval.Itv) (pos cpLen : Nat) (cp : List (Option Note))
    {n : Nat} {r : Results} (hp : pos < n) (h : trackInv n r) :
    trackInv n (checkUnison itv pos cpLen cp r) := by
  unfold checkUnison
  dsimp only
  repeat' split
  all_goals first
    | exact h
    | exact trackInv_addErrorAt _ _ hp h

theorem inv3_checkVoiceCrossing (cfN cpN : Note) (cpPos : CpPos) (pos : Nat) {n : Nat}
    {r : Results} (hp : pos < n) (h : trackInv n r) :
    trackInv n (checkVoiceCrossing cfN cpN cpPos pos r) := by
  unfold checkVoiceCrossing
  exact FirstSpecies.inv1_checkVoiceCrossing _ _ _ _ hp h

theorem inv3_checkMelodicTritone (prevN currN : Note) (pos : Nat) {n : Nat} {r : Results}
    (hp : pos < n) (h : trackInv n r) :
    trackInv n (checkMelodicTritone prevN currN pos r) := by
  unfold checkMelodicTritone
  exact FirstSpecies.inv1_checkMelodicTritone _ _ _ hp h

set_option maxHeartbeats 1000000 in
theorem inv3_perNoteChecks (cf : List Note) (cp : List (Option Note)) (cpPos : CpPos)
    (i : Nat) {n : Nat} {r : Results} (hp : i < n) (h : trackInv n r) :
    trackInv n (perNoteChecks cf cp cpPos i r) := by
  unfold perNoteChecks
  split
  · exact h
  · dsimp only
    refine inv3_checkVoiceCrossing _ _ cpPos i hp ?_
    repeat' split
    all_goals first
      | exact h
      | exact inv3_checkUnison _ _ _ _ hp (inv3_checkDownbeatConsonance _ _ hp h)
      | exact inv3_checkBeatThreeConsonance _ _ _ _ _ hp h
      | exact inv3_checkBeatThreeConsonance _ _ _ _ _ hp
          (inv3_checkUnison _ _ _ _ hp (inv3_checkDownbeatConsonance _ _ hp h))
      | exact inv3_checkWeakBeatDissonance _ _ _ _ _ hp h
      | exact inv3_checkWeakBeatDissonance _ _ _ _ _ hp
          (inv3_checkUnison _ _ _ _ hp (inv3_checkDownbeatConsonance _ _ hp h))
      | exact inv3_checkWeakBeatDissonance _ _ _ _ _ hp
          (inv3_checkBeatThreeConsonance _ _ _ _ _ hp h)
      | exact inv3_checkWeakBeatDissonance _ _ _ _ _ hp
          (inv3_checkBeatThreeConsonance _ _ _ _ _ hp
            (inv3_checkUnison _ _ _ _ hp (inv3_checkDownbeatConsonance _ _ hp h)))

theorem inv3_checkDownbeatParallels (cf : List Note) (cp : List (Option Note))
    (cpPos : CpPos) (cpLen : Nat) {n : Nat} {r : Results} (hlen : cpLen ≤ n)
    (h : trackInv n r) : trackInv n (checkDownbeatParallels cf cp cpPos cpLen r) := by
  unfold checkDownbeatParallels
  dsimp only
  refine foldl_pres _ _ _ _ ?_ h
  intro b a ha hb
  obtain ⟨a1, a2⟩ := a
  have hcur : a2 < cpLen := by
    have h3 := List.mem_of_mem_tail (List.of_mem_zip ha).2
    simp only [getDownbeatIndices, List.mem_filter, List.mem_range] at h3
    exact h3.1
  dsimp only
  repeat' split
  all_goals first
    | exact hb
    | exact trackInv_addErrorAt _ _ (lt_of_lt_of_le hcur hlen) hb

theorem inv3_checkDownbeatHiddenParallels (cf : List Note) (cp : List (Option Note))
    (cpPos : CpPos) (cpLen : Nat) {n : Nat} {r : Results} (h : trackInv n r) :
    trackInv n (checkDownbeatHiddenParallels cf cp cpPos cpLen r) := by
  unfold checkDownbeatHiddenParallels
  dsimp only
  refine foldl_pres _ _ _ _ ?_ h
  intro b a ha hb
  dsimp only
  repeat' split
  all_goals first
    | exact hb
    | exact trackInv_addWarningAt _ _ hb

theorem inv3_checkDownbeatMotion (cf : List Note) (cp : List (Option Note)) (cpPos : CpPos)
    (cpLen : Nat) {n : Nat} {r : Results} (h : trackInv n r) :
    trackInv n (checkDownbeatMotion cf cp cpPos cpLen r) := by
  unfold checkDownbeatMotion
  dsimp only
  refine foldl_pres _ _ _ _ ?_ h
  intro b a ha hb
  dsimp only
  repeat' split
  all_goals first
    | exact hb
    | exact trackInv_addSuggestionAt _ _ hb

theorem inv3_checkStartInterval (cf : List Note) (cp : List (Option Note)) (cpPos : CpPos)
    {n : Nat} {r : Results} (hlen : cp.length ≤ n) (h : trackInv n r) :
    trackInv n (checkStartInterval cf cp cpPos r) := by
  unfold checkStartInterval
  dsimp only
  split
  · exact h
  · rename_i cpN heq
    split
    · exact trackInv_addErrorAt _ _ (lt_of_lt_of_le (getD_some_lt heq) hlen) h
    · exact h

theorem inv3_checkEndInterval (cf : List Note) (cp : List (Option Note)) (cpPos : CpPos)
    (cpLen : Nat) {n : Nat} {r : Results} (hlen : cp.length ≤ n) (h : trackInv n r) :
    trackInv n (checkEndInterval cf cp cpPos cpLen r) := by
  unfold checkEndInterval
  dsimp only
  split
  · exact h
  · rename_i cpN heq
    split
    · exact trackInv_addErrorAt _ _ (lt_of_lt_of_le (getD_some_lt heq) hlen) h
    · exact h

theorem inv3_checkLastNoteWhole (cpLen : Nat) {n : Nat} {r : Results}
    (hmod : (cpLen + 3) % 4 = 0) (h : trackInv n r) :
    trackInv n (checkLastNoteWhole cpLen r) := by
  unfold checkLastNoteWhole
  rw [if_neg (not_not_intro hmod)]
  exact h

theorem inv3_checkCadence (cf : List Note) (cp : List (Option Note)) (key : NoteClass)
    (mode : Mode) (cpPos : CpPos) (cpLen : Nat) {n : Nat} {r : Results} (h : trackInv n r) :
    trackInv n (checkCadence cf cp key mode cpPos cpLen r) := by
  unfold checkCadence
  split
  · exact h
  · dsimp only
    split
    · exact h
    · rcases cpPos
      all_goals try dsimp only
      all_goals repeat' split
      all_goals first
        | exact h
        | exact trackInv_addWarningAt _ _ h

theorem inv3_melodicFold (cp : List (Option Note)) {n : Nat} {r : Results}
    (hlen : cp.length ≤ n) (h : trackInv n r) :
    trackInv n (((getSoundingNotes cp).zip (getSoundingNotes cp).tail).foldl
      (fun r pr => checkMelodicTritone pr.1.note pr.2.note pr.2.index r) r) := by
  refine foldl_pres _ _ _ _ ?_ h
  intro b a ha hb
  obtain ⟨a1, a2⟩ := a
  have hidx : a2.index < cp.length :=
    index_lt_of_mem_sounding (List.mem_of_mem_tail (List.of_mem_zip ha).2)
  exact inv3_checkMelodicTritone _ _ _ (lt_of_lt_of_le hidx hlen) hb

end ThirdSpecies

/-! Claim C3: the passing-tone detector. -/

/-- C3.  On every weak-beat position of a 2nd- or 3rd-species exercise, the
passing-tone detector accepts exactly the configurations described by
`passingToneSpec` (with the species' own index-to-measure map). -/
theorem c3_passing_tone :
    (∀ (cp : List (Option Note)) (cf : List Note) (cpPos : CpPos) (i : Nat),
      SecondSpecies.isWeakBeat i cp.length = true →
      (SecondSpecies.isPassingTone i cp cf cpPos = true ↔
        passingToneSpec (fun x => x / 2) i cp cf cpPos)) ∧
    (∀ (cp : List (Option Note)) (cf : List Note) (cpPos : CpPos) (i : Nat),
      ThirdSpecies.isWeakBeat i cp.length = true →
      (ThirdSpecies.isPassingTone i cp cf cpPos = true ↔
        passingToneSpec (fun x => x / 4) i cp cf cpPos)) := by
  constructor
  · intro cp cf cpPos i hw
    constructor
    · intro htrue
      unfold SecondSpecies.isPassingTone at htrue
      rw [if_neg (by simp [hw])] at htrue
      split at htrue
      · exact absurd htrue (by simp)
      · rename_i cur hc
        split at htrue
        · exact absurd htrue (by simp)
        · rename_i prev hp
          split at htrue
          · exact absurd htrue (by simp)
          · rename_i hbound
            split at htrue
            · exact absurd htrue (by simp)
            · rename_i next hn
              refine ⟨cur, prev, next, hc, hp, hn, ?_⟩
              dsimp only at htrue
              split_ifs at htrue with h1 h2 h3 h4 h5 h6 <;>
                try exact absurd htrue Bool.false_ne_true
              refine ⟨by omega, by omega, not_not.mp h4, fun h0 => h3 (Or.inl h0), ?_, ?_⟩ <;>
                simp_all [Interval.isDissonant, SecondSpecies.getCFNote,
                  SecondSpecies.getMeasureIndex]
    · rintro ⟨cur, prev, next, hc, hp, hn, hA, hB, hd, hd0, hc1, hc2⟩
      have hlt : i + 1 < cp.length := by
        by_contra hge
        rw [List.getD_eq_default _ _ (by omega)] at hn
        exact Option.noConfusion hn
      unfold SecondSpecies.isPassingTone
      rw [if_neg (by simp [hw])]
      simp only [hc, hp, hn]
      rw [if_neg (by omega)]
      try dsimp only
      split_ifs with h1 h2 h3 h4 h5 h6 <;>
        first
          | rfl
          | omega
          | (cases h3 <;> omega)
          | simp_all [Interval.isDissonant, SecondSpecies.getCFNote,
              SecondSpecies.getMeasureIndex]
  · intro cp cf cpPos i hw
    constructor
    · intro htrue
      unfold ThirdSpecies.isPassingTone at htrue
      rw [if_neg (by simp [hw])] at htrue
      split at htrue
      · exact absurd htrue (by simp)
      · rename_i cur hc
        split at htrue
        · exact absurd htrue (by simp)
        · rename_i prev hp
          split at htrue
          · exact absurd htrue (by simp)
          · rename_i hbound
            split at htrue
            · exact absurd htrue (by simp)
            · rename_i next hn
              refine ⟨cur, prev, next, hc, hp, hn, ?_⟩
              dsimp only at htrue
              split_ifs at htrue with h1 h2 h3 h4 h5 h6 <;>
                try exact absurd htrue Bool.false_ne_true
              refine ⟨by omega, by omega, not_not.mp h4, fun h0 => h3 (Or.inl h0), ?_, ?_⟩ <;>
                simp_all [Interval.isDissonant, ThirdSpecies.getCFNote,
                  ThirdSpecies.getMeasureIndex]
    · rintro ⟨cur, prev, next, hc, hp, hn, hA, hB, hd, hd0, hc1, hc2⟩
      have hlt : i + 1 < cp.length := by
        by_contra hge
        rw [List.getD_eq_default _ _ (by omega)] at hn
        exact Option.noConfusion hn
      unfold ThirdSpecies.isPassingTone
      rw [if_neg (by simp [hw])]
      simp only [hc, hp, hn]
      rw [if_neg (by omega)]
      try dsimp only
      split_ifs with h1 h2 h3 h4 h5 h6 <;>
        first
          | rfl
          | omega
          | (cases h3 <;> omega)
          | simp_all [Interval.isDissonant, ThirdSpecies.getCFNote,
              ThirdSpecies.getMeasureIndex]

/-- C3 witness: the weak middle note D4 of CP `[C4, D4, E4]` over CF
`[C4, E4]` instantiates the equivalence (and both sides hold there). -/
theorem c3_passing_tone_witness :
    (SecondSpecies.isPassingTone 1 [some noteC4, some noteD4, some noteE4] [noteC4, noteE4]
        CpPos.upper = true ↔
      passingToneSpec (fun x => x / 2) 1 [some noteC4, some noteD4, some noteE4]
        [noteC4, noteE4] CpPos.upper) ∧
    SecondSpecies.isPassingTone 1 [some noteC4, some noteD4, some noteE4] [noteC4, noteE4]
      CpPos.upper = true :=
  ⟨c3_passing_tone.1 [some noteC4, some noteD4, some noteE4] [noteC4, noteE4] CpPos.upper 1
      (by decide),
    by decide⟩

/-! Claim C4: the cambiata detector. -/

set_option maxHeartbeats 1600000 in
/-- One window of `_checkCambiataAt` is valid exactly under
`cambiataWindowSpec`. -/
theorem checkCambiataAt_spec (s : Int) (cp : List (Option Note)) (cf : List Note)
    (cpPos : CpPos) :
    ThirdSpecies.checkCambiataAt s cp cf cpPos = true ↔ cambiataWindowSpec s cp cf cpPos := by
  unfold ThirdSpecies.checkCambiataAt
  by_cases hb : s < 0 ∨ s + 4 ≥ (cp.length : Int)
  · rw [if_pos hb]
    simp only [Bool.false_eq_true, false_iff, cambiataWindowSpec]
    rintro ⟨h0, hlt, -⟩
    omega
  · rw [if_neg hb]
    push_neg at hb
    rcases hg1 : cp.getD s.toNat none with _ | n1
    · simp only [hg1, Bool.false_eq_true, false_iff, cambiataWindowSpec]
      rintro ⟨-, -, m1, m2, m3, m4, m5, hq1, hq2, hq3, hq4, hq5, -⟩
      exact Option.noConfusion hq1
    · rcases hg2 : cp.getD (s.toNat + 1) none with _ | n2
      · simp only [hg1, hg2, Bool.false_eq_true, false_iff, cambiataWindowSpec]
        rintro ⟨-, -, m1, m2, m3, m4, m5, hq1, hq2, hq3, hq4, hq5, -⟩
        exact Option.noConfusion hq2
      · rcases hg3 : cp.getD (s.toNat + 2) none with _ | n3
        · simp only [hg1, hg2, hg3, Bool.false_eq_true, false_iff, cambiataWindowSpec]
          rintro ⟨-, -, m1, m2, m3, m4, m5, hq1, hq2, hq3, hq4, hq5, -⟩
          exact Option.noConfusion hq3
        · rcases hg4 : cp.getD (s.toNat + 3) none with _ | n4
          · simp only [hg1, hg2, hg3, hg4, Bool.false_eq_true, false_iff, cambiataWindowSpec]
            rintro ⟨-, -, m1, m2, m3, m4, m5, hq1, hq2, hq3, hq4, hq5, -⟩
            exact Option.noConfusion hq4
          · rcases hg5 : cp.getD (s.toNat + 4) none with _ | n5
            · simp only [hg1, hg2, hg3, hg4, hg5, Bool.false_eq_true, false_iff,
                cambiataWindowSpec]
              rintro ⟨-, -, m1, m2, m3, m4, m5, hq1, hq2, hq3, hq4, hq5, -⟩
              exact Option.noConfusion hq5
            · simp only [hg1, hg2, hg3, hg4, hg5]
              constructor
              · intro htrue
                split_ifs at htrue with hd0 hdn h1 h2 h3 h4 h5 h6 h7 <;>
                  try exact absurd htrue Bool.false_ne_true
                · -- descending branch accepted
                  push_neg at h1 h2 h3 h4
                  obtain ⟨h1a, h1b⟩ := h1
                  obtain ⟨h2a, h2b⟩ := h2
                  obtain ⟨h3a, h3b⟩ := h3
                  obtain ⟨h4a, h4b⟩ := h4
                  refine ⟨hb.1, hb.2, n1, n2, n3, n4, n5, hg1, hg2, hg3, hg4, hg5,
                    Or.inl ⟨h1a, by omega, h2a, by omega, h3a, by omega, h4a, by omega⟩,
                    ?_, ?_, ?_⟩ <;>
                    simp_all [Interval.isDissonant]
                · -- ascending branch accepted
                  rename_i a1 a2 a3 a4 a5 a6 a7
                  push_neg at a1 a2 a3 a4
                  obtain ⟨a1a, a1b⟩ := a1
                  obtain ⟨a2a, a2b⟩ := a2
                  obtain ⟨a3a, a3b⟩ := a3
                  obtain ⟨a4a, a4b⟩ := a4
                  refine ⟨hb.1, hb.2, n1, n2, n3, n4, n5, hg1, hg2, hg3, hg4, hg5,
                    Or.inr ⟨a1a, by omega, a2a, by omega, a3a, by omega, a4a, by omega⟩,
                    ?_, ?_, ?_⟩ <;>
                    simp_all [Interval.isDissonant]
              · rintro ⟨-, -, m1, m2, m3, m4, m5, hh1, hh2, hh3, hh4, hh5, hpat, hc1, hc5, ht5⟩
                rw [hg1, Option.some.injEq] at hh1
                rw [hg2, Option.some.injEq] at hh2
                rw [hg3, Option.some.injEq] at hh3
                rw [hg4, Option.some.injEq] at hh4
                rw [hg5, Option.some.injEq] at hh5
                subst hh1
                subst hh2
                subst hh3
                subst hh4
                subst hh5
                rcases hpat with hdesc | hasc
                · obtain ⟨p1, p2, p3, p4, p5, p6, p7, p8⟩ := hdesc
                  have hs1 : ((Pitch.toMidi n2 : Int) - Pitch.toMidi n1).sign = -1 :=
                    Int.sign_eq_neg_one_iff_neg.mpr (by omega)
                  rw [if_neg (by rw [hs1]; omega), if_pos (by rw [hs1]; omega)]
                  rw [if_neg (by push_neg; exact ⟨p1, by omega⟩)]
                  rw [if_neg (by push_neg; exact ⟨p3, by omega⟩)]
                  rw [if_neg (by push_neg; exact ⟨p5, by omega⟩)]
                  rw [if_neg (by push_neg; exact ⟨p7, by omega⟩)]
                  rw [if_neg (by simp [Interval.isDissonant, hc1])]
                  rw [if_neg (by simp [Interval.isDissonant, hc5])]
                  rw [if_neg (by simp [ht5])]
                · obtain ⟨p1, p2, p3, p4, p5, p6, p7, p8⟩ := hasc
                  have hs1 : ((Pitch.toMidi n2 : Int) - Pitch.toMidi n1).sign = 1 :=
                    Int.sign_eq_one_iff_pos.mpr (by omega)
                  rw [if_neg (by rw [hs1]; omega), if_neg (by rw [hs1]; omega)]
                  rw [if_neg (by push_neg; exact ⟨p1, by omega⟩)]
                  rw [if_neg (by push_neg; exact ⟨p3, by omega⟩)]
                  rw [if_neg (by push_neg; exact ⟨p5, by omega⟩)]
                  rw [if_neg (by push_neg; exact ⟨p7, by omega⟩)]
                  rw [if_neg (by simp [Interval.isDissonant, hc1])]
                  rw [if_neg (by simp [Interval.isDissonant, hc5])]
                  rw [if_neg (by simp [ht5])]

/-- C4.  A candidate position is accepted by `isCambiata` iff some 5-note
window containing it as the 2nd, 3rd or 4th note satisfies the claimed
cambiata conditions (both ascending and descending forms). -/
theorem c4_cambiata_characterisation :
    ∀ (cp : List (Option Note)) (cf : List Note) (cpPos : CpPos) (i : Nat),
      ThirdSpecies.isCambiata i cp cf cpPos = true ↔
        ∃ s : Int, (s = (i : Int) - 1 ∨ s = (i : Int) - 2 ∨ s = (i : Int) - 3) ∧
          cambiataWindowSpec s cp cf cpPos := by
  intro cp cf cpPos i
  unfold ThirdSpecies.isCambiata
  rcases hc : cp.getD i none with _ | cur
  · simp only [Bool.false_eq_true, false_iff]
    rintro ⟨s, hs, hspec⟩
    obtain ⟨hs0, hsb, n1, n2, n3, n4, n5, hg1, hg2, hg3, hg4, hg5, -⟩ := hspec
    rcases hs with h | h | h <;> subst h
    · have he : ((i : Int) - 1).toNat + 1 = i := by omega
      rw [he] at hg2
      rw [hc] at hg2
      exact Option.noConfusion hg2
    · have he : ((i : Int) - 2).toNat + 2 = i := by omega
      rw [he] at hg3
      rw [hc] at hg3
      exact Option.noConfusion hg3
    · have he : ((i : Int) - 3).toNat + 3 = i := by omega
      rw [he] at hg4
      rw [hc] at hg4
      exact Option.noConfusion hg4
  · simp only [Bool.or_eq_true, checkCambiataAt_spec]
    constructor
    · rintro ((h | h) | h)
      · exact ⟨(i : Int) - 1, Or.inl rfl, h⟩
      · exact ⟨(i : Int) - 2, Or.inr (Or.inl rfl), h⟩
      · exact ⟨(i : Int) - 3, Or.inr (Or.inr rfl), h⟩
    · rintro ⟨s, (h | h | h), hspec⟩ <;> subst h
      · exact Or.inl (Or.inl hspec)
      · exact Or.inl (Or.inr hspec)
      · exact Or.inr hspec

/-- C4 witness: the characterisation at a concrete accepted position. -/
theorem c4_cambiata_characterisation_witness :
    (ThirdSpecies.isCambiata 1 c4cp [noteC4, noteE4] CpPos.upper = true ↔
      ∃ s : Int, (s = (1 : Int) - 1 ∨ s = (1 : Int) - 2 ∨ s = (1 : Int) - 3) ∧
        cambiataWindowSpec s c4cp [noteC4, noteE4] CpPos.upper) ∧
    ThirdSpecies.isCambiata 1 c4cp [noteC4, noteE4] CpPos.upper = true :=
  ⟨c4_cambiata_characterisation c4cp [noteC4, noteE4] CpPos.upper 1, by decide⟩

/-! Claim C5: lower-voice cadence degrees. -/

/-- C5 counterexample.  In the first-species validator the lower-voice
cadence accepts only degree 2: the penultimate note G3 has scale degree 5
in C major, yet the check emits a `cadence` warning, contradicting the
claim that degrees 2, 5 and 7 pass without any issue. -/
theorem c5_cadence_counterexample :
    Scale.getDegree noteG3 keyC Mode.major = some 5 ∧
    (FirstSpecies.checkEndInterval [noteE4, noteD4, noteC4] [noteC4, noteG3, noteC4] keyC
        Mode.major CpPos.lower (initResults 3)).warnings =
      [⟨"cadence", some 1, Severity.warning⟩] := by
  refine ⟨by decide, by decide⟩

/-- C5 amended.  With `cpPosition = lower`, the second- and third-species
cadence checks accept penultimate-unit degrees 2, 5 and 7 and warn (never
error) on anything else, as claimed; the first-species check accepts only
degree 2 and warns on every other degree, 5 and 7 included.  Each conjunct
gives the exact warnings appended, that suggestions are untouched, and that
no cadence-rule issue enters the error list. -/
theorem c5_cadence_lower_amended :
    (∀ (cf cp : List Note) (key : NoteClass) (mode : Mode) (r : Results),
      2 ≤ cf.length →
      (FirstSpecies.checkEndInterval cf cp key mode CpPos.lower r).warnings =
        r.warnings ++
          (if Scale.getDegree (cp.getD (cf.length - 2) dfltNote) key mode ≠ some 2 then
            [⟨"cadence", some ((cf.length - 2 : Nat) : Int), Severity.warning⟩]
          else []) ∧
      (FirstSpecies.checkEndInterval cf cp key mode CpPos.lower r).suggestions =
        r.suggestions ∧
      (FirstSpecies.checkEndInterval cf cp key mode CpPos.lower r).errors.filter
          (fun i => i.rule == "cadence") =
        r.errors.filter (fun i => i.rule == "cadence")) ∧
    (∀ (cf : List Note) (cp : List (Option Note)) (key : NoteClass) (mode : Mode)
        (r : Results) (pen : Note),
      3 ≤ cp.length → cp.length % 2 = 1 →
      cp.getD (cp.length - 2) none = some pen →
      (SecondSpecies.checkCadence cf cp key mode CpPos.lower cp.length r).warnings =
        r.warnings ++
          (if Scale.getDegree pen key mode ≠ some 2 ∧ Scale.getDegree pen key mode ≠ some 5 ∧
              Scale.getDegree pen key mode ≠ some 7 then
            [⟨"cadence-second-species", some ((cp.length - 2 : Nat) : Int), Severity.warning⟩]
          else []) ∧
      (SecondSpecies.checkCadence cf cp key mode CpPos.lower cp.length r).suggestions =
        r.suggestions ∧
      (SecondSpecies.checkCadence cf cp key mode CpPos.lower cp.length r).errors = r.errors) ∧
    (∀ (cf : List Note) (cp : List (Option Note)) (key : NoteClass) (mode : Mode)
        (r : Results) (pen : Note),
      5 ≤ cp.length →
      cp.getD (cp.length - 2) none = some pen →
      (ThirdSpecies.checkCadence cf cp key mode CpPos.lower cp.length r).warnings =
        r.warnings ++
          (if Scale.getDegree pen key mode ≠ some 2 ∧ Scale.getDegree pen key mode ≠ some 5 ∧
              Scale.getDegree pen key mode ≠ some 7 then
            [⟨"cadence-third-species", some ((cp.length - 2 : Nat) : Int), Severity.warning⟩]
          else []) ∧
      (ThirdSpecies.checkCadence cf cp key mode CpPos.lower cp.length r).suggestions =
        r.suggestions ∧
      (ThirdSpecies.checkCadence cf cp key mode CpPos.lower cp.length r).errors = r.errors) := by
  refine ⟨?_, ?_, ?_⟩
  · intro cf cp key mode r h2
    simp only [FirstSpecies.checkEndInterval]
    rw [if_pos (by omega : cf.length - 1 > 0)]
    have hidx : cf.length - 1 - 1 = cf.length - 2 := by omega
    split_ifs <;>
      simp_all [List.filter_append, hidx]
  · intro cf cp key mode r pen h3 hodd hpen
    simp only [SecondSpecies.checkCadence]
    rw [if_neg (by omega : ¬cp.length < 3)]
    simp only [hpen]
    have hw : SecondSpecies.isWeakBeat (cp.length - 2) cp.length = true := by
      simp only [SecondSpecies.isWeakBeat, Bool.and_eq_true, beq_iff_eq, Bool.not_eq_true',
        beq_eq_false_iff_ne, ne_eq]
      omega
    rw [if_neg (by simp [hw])]
    rcases hps : cp.getD (cp.length - 3) none with _ | psN <;>
      split_ifs <;> simp_all
  · intro cf cp key mode r pen h5 hpen
    simp only [ThirdSpecies.checkCadence]
    rw [if_neg (by omega : ¬cp.length < 5)]
    simp only [hpen]
    split_ifs <;> simp_all

/-- C5 witness: the third-species lower-voice cadence on a concrete
exercise with penultimate degree 5 emits no cadence issue. -/
theorem c5_cadence_lower_witness :
    (ThirdSpecies.checkCadence [noteC4, noteC4]
        [some noteC5, some noteB4, some noteA4, some noteG4, some noteC5] keyC Mode.major
        CpPos.lower 5 (initResults 5)).warnings =
      (initResults 5).warnings ++
        (if Scale.getDegree noteG4 keyC Mode.major ≠ some 2 ∧
            Scale.getDegree noteG4 keyC Mode.major ≠ some 5 ∧
            Scale.getDegree noteG4 keyC Mode.major ≠ some 7 then
          [⟨"cadence-third-species", some ((5 - 2 : Nat) : Int), Severity.warning⟩]
        else []) ∧
    (ThirdSpecies.checkCadence [noteC4, noteC4]
        [some noteC5, some noteB4, some noteA4, some noteG4, some noteC5] keyC Mode.major
        CpPos.lower 5 (initResults 5)).suggestions = (initResults 5).suggestions ∧
    (ThirdSpecies.checkCadence [noteC4, noteC4]
        [some noteC5, some noteB4, some noteA4, some noteG4, some noteC5] keyC Mode.major
        CpPos.lower 5 (initResults 5)).errors = (initResults 5).errors := by
  have h := c5_cadence_lower_amended.2.2 [noteC4, noteC4]
    [some noteC5, some noteB4, some noteA4, some noteG4, some noteC5] keyC Mode.major
    (initResults 5) noteG4 (by decide) (by decide)
  exact h

/-! Claim C6: the range rule. -/

/-- C6 counterexample: `c6ex` passes the third-species length check and its
sounding notes span more than 19 semitones, yet the third-species validator
emits no range issue in any of the three lists (its `validate` never calls
`checkRange`). -/
theorem c6_range_counterexample :
    (c6ex.counterpoint.length : Int) = 4 * (c6ex.cantusFirmus.length : Int) - 3 ∧
    FirstSpecies.rangeSpanExceeded
      ((c6ex.counterpoint.filterMap id).map Pitch.toMidi) = true ∧
    (ThirdSpecies.validate c6ex).errors.filter isRangeIssue = [] ∧
    (ThirdSpecies.validate c6ex).warnings.filter isRangeIssue = [] ∧
    (ThirdSpecies.validate c6ex).suggestions.filter isRangeIssue = [] := by
  refine ⟨by decide, by decide, ?_, ?_, ?_⟩ <;> decide

/-- C6, corrected.  First and second species: past the length check, the
`range` rule contributes exactly one warning at position `-1` when the
counterpoint (its sounding notes, for second species) spans more than 19
semitones, and no range issue otherwise; no range issue ever lands in
`errors` or `suggestions`.  Third species: no range issue is ever produced
(`ThirdSpeciesValidator.validate` has no range check), contradicting the
claimed all-species behaviour. -/
theorem c6_range_amended :
    (∀ (ex : Exercise1) (r : Results),
      ex.cantusFirmus.length = ex.counterpoint.length →
      FirstSpecies.validate ex = some r →
      rangeFilt r =
        ([],
          (if FirstSpecies.rangeSpanExceeded (ex.counterpoint.map Pitch.toMidi) then
            [⟨"range", some (-1), Severity.warning⟩]
          else []),
          [])) ∧
    (∀ (ex : Exercise2) (r : Results),
      (ex.counterpoint.length : Int) = 2 * (ex.cantusFirmus.length : Int) - 1 →
      SecondSpecies.validate ex = some r →
      rangeFilt r =
        ([],
          (if FirstSpecies.rangeSpanExceeded
              ((ex.counterpoint.filterMap id).map Pitch.toMidi) then
            [⟨"range", some (-1), Severity.warning⟩]
          else []),
          [])) ∧
    (∀ ex : Exercise2, rangeFilt (ThirdSpecies.validate ex) = ([], [], [])) := by
  refine ⟨?_, ?_, ?_⟩
  · intro ex r hlen hv
    simp only [FirstSpecies.validate] at hv
    rw [if_pos hlen] at hv
    split at hv
    · exact absurd hv (by simp)
    · rw [Option.some.injEq] at hv
      subst hv
      simp [FirstSpecies.rangeFilt_checkRange]
  · intro ex r hlen hv
    simp only [SecondSpecies.validate] at hv
    rw [if_neg (by omega)] at hv
    split at hv
    · exact absurd hv (by simp)
    · rw [Option.some.injEq] at hv
      subst hv
      simp [SecondSpecies.rangeFilt_checkRange2]
  · intro ex
    simp only [ThirdSpecies.validate]
    simp

/-- C6 witness: on concrete wide-span exercises the first and second
species emit exactly the position `-1` range warning, and the third-species
result of `c6ex` carries no range issue. -/
theorem c6_range_witness :
    rangeFilt ((FirstSpecies.validate c6exFirst).getD emptyResults) =
      ([], [⟨"range", some (-1), Severity.warning⟩], []) ∧
    rangeFilt ((SecondSpecies.validate c6exSecond).getD emptyResults) =
      ([], [⟨"range", some (-1), Severity.warning⟩], []) ∧
    rangeFilt (ThirdSpecies.validate c6ex) = ([], [], []) := by
  refine ⟨?_, ?_, c6_range_amended.2.2 c6ex⟩
  · have h := c6_range_amended.1 c6exFirst
      ((FirstSpecies.validate c6exFirst).getD emptyResults) (by decide) rfl
    rw [h]
    have hc : FirstSpecies.rangeSpanExceeded (c6exFirst.counterpoint.map Pitch.toMidi) =
        true := by decide
    simp [hc]
  · have h := c6_range_amended.2.1 c6exSecond
      ((SecondSpecies.validate c6exSecond).getD emptyResults) (by decide) rfl
    rw [h]
    have hc : FirstSpecies.rangeSpanExceeded
        ((c6exSecond.counterpoint.filterMap id).map Pitch.toMidi) = true := by decide
    simp [hc]

/-! Claim C8: per-position tracking of positioned issues. -/

/-- C8 counterexample: on `c8ex` the first-species validator returns a
compound-tritone warning at position 0, yet `noteResults[0].issues` does not
contain it (`checkCompoundTritones` pushes the warning without a per-note
record), refuting the claim for warnings. -/
theorem c8_tracking_counterexample :
    FirstSpecies.validate c8ex = some ((FirstSpecies.validate c8ex).getD emptyResults) ∧
    (⟨"compound-tritone", some 0, Severity.warning⟩ : Issue) ∈
      ((FirstSpecies.validate c8ex).getD emptyResults).warnings ∧
    (⟨"compound-tritone", some 0, Severity.warning⟩ : Issue) ∉
      (((FirstSpecies.validate c8ex).getD emptyResults).noteResults.getD 0 dfltNR).issues := by
  refine ⟨rfl, ?_, ?_⟩ <;> decide

/-- C8, corrected: the tracking property holds for the `errors` list (every
error site runs through `addErrorAt`, which also writes
`noteResults[pos]`), in all three species past the length check; it fails
for warnings and suggestions (see the counterexample). -/
theorem c8_error_tracking_amended :
    (∀ (ex : Exercise1) (r : Results),
      ex.cantusFirmus.length = ex.counterpoint.length →
      FirstSpecies.validate ex = some r → errsTracked r) ∧
    (∀ (ex : Exercise2) (r : Results),
      (ex.counterpoint.length : Int) = 2 * (ex.cantusFirmus.length : Int) - 1 →
      SecondSpecies.validate ex = some r → errsTracked r) ∧
    (∀ ex : Exercise2,
      (ex.counterpoint.length : Int) = 4 * (ex.cantusFirmus.length : Int) - 3 →
      errsTracked (ThirdSpecies.validate ex)) := by
  refine ⟨?_, ?_, ?_⟩
  · intro ex r hlen hv
    simp only [FirstSpecies.validate] at hv
    rw [if_pos hlen] at hv
    split at hv
    · exact absurd hv (by simp)
    · rename_i hn0
      rw [Option.some.injEq] at hv
      subst hv
      have h0 := trackInv_initResults ex.cantusFirmus.length
      have h1 := foldl_pres (trackInv ex.cantusFirmus.length) _
        (List.range ex.cantusFirmus.length) _
        (fun b a ha hb => FirstSpecies.inv1_perNoteChecks ex.cantusFirmus ex.counterpoint
          ex.cpPosition a (List.mem_range.mp ha) hb) h0
      have h2 := FirstSpecies.inv1_checkStartInterval (ex.cantusFirmus.getD 0 dfltNote)
        (ex.counterpoint.getD 0 dfltNote) ex.cpPosition (by omega) h1
      have h3 := FirstSpecies.inv1_checkEndInterval ex.cantusFirmus ex.counterpoint ex.key
        ex.mode ex.cpPosition (by omega) h2
      have h4 := trackInv_of_enPair (FirstSpecies.enPair_checkRange ex.counterpoint _) h3
      have h5 := trackInv_of_enPair
        (FirstSpecies.enPair_checkCompoundTritones ex.counterpoint ex.key ex.mode _) h4
      have h6 := trackInv_of_enPair
        (FirstSpecies.enPair_checkCompoundDissonantLeaps ex.counterpoint _) h5
      have h7 := trackInv_of_enPair
        (FirstSpecies.enPair_checkBattutaParallels ex.cantusFirmus ex.counterpoint
          ex.cpPosition _) h6
      have h8 := trackInv_of_enPair
        (FirstSpecies.enPair_checkProlongedDirection ex.counterpoint _) h7
      have h9 := trackInv_of_enPair
        (FirstSpecies.enPair_checkArpeggios ex.counterpoint ex.key ex.mode _) h8
      have h10 := trackInv_of_enPair
        (FirstSpecies.enPair_checkExcessiveParallelConsonances ex.cantusFirmus
          ex.counterpoint ex.cpPosition _) h9
      exact h10.2
  · intro ex r hlen hv
    simp only [SecondSpecies.validate] at hv
    rw [if_neg (by omega)] at hv
    split at hv
    · exact absurd hv (by simp)
    · rw [Option.some.injEq] at hv
      subst hv
      have h0 := trackInv_initResults ex.counterpoint.length
      have h1 := SecondSpecies.inv2_checkAnacrusis ex.counterpoint ex.counterpoint.length
        (le_refl _) h0
      have h2 := foldl_pres (trackInv ex.counterpoint.length) _
        (List.range ex.counterpoint.length) _
        (fun b a ha hb => SecondSpecies.inv2_perNoteChecks ex.cantusFirmus ex.counterpoint
          ex.cpPosition a (List.mem_range.mp ha) hb) h1
      have h3 := SecondSpecies.inv2_melodicFold ex.counterpoint ex.counterpoint.length
        (le_refl _) h2
      have h4 := SecondSpecies.inv2_checkStrongBeatParallels ex.cantusFirmus ex.counterpoint
        ex.cpPosition ex.counterpoint.length (le_refl _) h3
      have h5 := SecondSpecies.inv2_checkStrongBeatHiddenParallels ex.cantusFirmus
        ex.counterpoint ex.cpPosition ex.counterpoint.length h4
      have h6 := SecondSpecies.inv2_checkStrongBeatMotion ex.cantusFirmus ex.counterpoint
        ex.cpPosition ex.counterpoint.length h5
      have h7 := SecondSpecies.inv2_checkCrossBeatParallels ex.cantusFirmus ex.counterpoint
        ex.cpPosition ex.counterpoint.length h6
      have h8 := SecondSpecies.inv2_checkStartInterval ex.cantusFirmus ex.counterpoint
        ex.cpPosition (le_refl _) h7
      have h9 := SecondSpecies.inv2_checkEndInterval ex.cantusFirmus ex.counterpoint ex.key
        ex.mode ex.cpPosition ex.counterpoint.length (le_refl _) h8
      have h10 := SecondSpecies.inv2_checkLastNoteWhole ex.counterpoint.length (le_refl _) h9
      have h11 := SecondSpecies.inv2_checkCadence ex.cantusFirmus ex.counterpoint ex.key
        ex.mode ex.cpPosition ex.counterpoint.length h10
      have h12 := trackInv_of_enPair (SecondSpecies.enPair_checkRange2 ex.counterpoint _) h11
      have h13 := trackInv_of_enPair
        (SecondSpecies.enPair_checkCompoundTritones2 (getSoundingNotes ex.counterpoint)
          ex.key ex.mode _) h12
      have h14 := trackInv_of_enPair
        (SecondSpecies.enPair_checkCompoundDissonantLeaps2
          (getSoundingNotes ex.counterpoint) _) h13
      have h15 := trackInv_of_enPair
        (SecondSpecies.enPair_checkProlongedDirection2
          (getSoundingNotes ex.counterpoint) _) h14
      have h16 := trackInv_of_enPair
        (SecondSpecies.enPair_checkArpeggios2 (getSoundingNotes ex.counterpoint)
          ex.key ex.mode _) h15
      have h17 := trackInv_of_enPair
        (SecondSpecies.enPair_checkExcessiveParallelConsonances2 ex.cantusFirmus
          ex.counterpoint ex.cpPosition ex.counterpoint.length _) h16
      have h18 := trackInv_of_enPair
        (SecondSpecies.enPair_checkBattutaParallels2 ex.cantusFirmus ex.counterpoint
          ex.cpPosition ex.counterpoint.length _) h17
      exact h18.2
  · intro ex hlen
    simp only [ThirdSpecies.validate]
    rw [if_neg (by omega)]
    have h0 := trackInv_initResults ex.counterpoint.length
    have h1 := ThirdSpecies.inv3_checkAnacrusis ex.counterpoint ex.counterpoint.length
      (le_refl _) h0
    have h2 := foldl_pres (trackInv ex.counterpoint.length) _
      (List.range ex.counterpoint.length) _
      (fun b a ha hb => ThirdSpecies.inv3_perNoteChecks ex.cantusFirmus ex.counterpoint
        ex.cpPosition a (List.mem_range.mp ha) hb) h1
    have h3 := ThirdSpecies.inv3_melodicFold ex.counterpoint (le_refl _) h2
    have h4 := ThirdSpecies.inv3_checkDownbeatParallels ex.cantusFirmus ex.counterpoint
      ex.cpPosition ex.counterpoint.length (le_refl _) h3
    have h5 := ThirdSpecies.inv3_checkDownbeatHiddenParallels ex.cantusFirmus ex.counterpoint
      ex.cpPosition ex.counterpoint.length h4
    have h6 := ThirdSpecies.inv3_checkDownbeatMotion ex.cantusFirmus ex.counterpoint
      ex.cpPosition ex.counterpoint.length h5
    have h7 := ThirdSpecies.inv3_checkStartInterval ex.cantusFirmus ex.counterpoint
      ex.cpPosition (le_refl _) h6
    have h8 := ThirdSpecies.inv3_checkEndInterval ex.cantusFirmus ex.counterpoint
      ex.cpPosition ex.counterpoint.length (le_refl _) h7
    have h9 := ThirdSpecies.inv3_checkLastNoteWhole ex.counterpoint.length (by omega) h8
    have h10 := ThirdSpecies.inv3_checkCadence ex.cantusFirmus ex.counterpoint ex.key
      ex.mode ex.cpPosition ex.counterpoint.length h9
    have h11 := trackInv_of_enPair
      (ThirdSpecies.enPair_checkCompoundTritones3 (getSoundingNotes ex.counterpoint)
        ex.key ex.mode _) h10
    have h12 := trackInv_of_enPair
      (ThirdSpecies.enPair_checkProlongedDirection3 (getSoundingNotes ex.counterpoint) _) h11
    have h13 := trackInv_of_enPair
      (ThirdSpecies.enPair_checkArpeggios3 (getSoundingNotes ex.counterpoint)
        ex.key ex.mode _) h12
    have h14 := trackInv_of_enPair
      (ThirdSpecies.enPair_checkNoteRepetition3 (getSoundingNotes ex.counterpoint) _) h13
    exact h14.2

/-- C8 witness: the corrected error-tracking property at concrete exercises
of all three species. -/
theorem c8_error_tracking_witness :
    errsTracked ((FirstSpecies.validate c8ex).getD emptyResults) ∧
    errsTracked ((SecondSpecies.validate c8exSecond).getD emptyResults) ∧
    errsTracked (ThirdSpecies.validate c8exThird) :=
  ⟨c8_error_tracking_amended.1 c8ex _ (by decide) rfl,
    c8_error_tracking_amended.2.1 c8exSecond _ (by decide) rfl,
    c8_error_tracking_amended.2.2 c8exThird (by decide)⟩
